import Mathlib

/-!
# Device event-emission engine: registry, worker loop and broker connection

A shallow embedding of `src/services/DeviceService.js`, of
`src/workers/device-worker.js` and of the save path of
`src/services/StorageService.js`.

* Synchronous code is a pure function on an explicit state; `throw new Error(m)` is
  `Except.error m`.
* Every `await` of the worker that waits for the broker, the disk or the image
  generator is a suspension point: the state machine stops there and the result of
  the awaited call is supplied by the next `Event.resume`.  Messages from the
  parent and timer callbacks may be handled in between.
* `Math.random()` is an exact rational in `[0,1)`; clock readings, the generated
  image and the answers of the file system are inputs.
* The numbers that `parseInt` returns, their products and their `toString()` are
  doubles (`JSNumber`): an integer is rounded to the nearest double, ties to even,
  and printed with the shortest digits that read back as the same double.
-/

/-! ## Definitions -/

deriving instance DecidableEq for Except

/-- Device identifiers are JavaScript strings. -/
abbrev DeviceId := String

/-- Inbound message of the worker (`message.type`, `message.deviceId`). -/
inductive Command where
  | addDevice (deviceId : DeviceId)
  | removeDevice (deviceId : DeviceId)
  | other (type : String)
  deriving DecidableEq, Repr

/-! ### `config/index.js` -/

/-- Section `config.kafka` (the fields the worker reads). -/
structure KafkaConfig where
  topic : String
  retentionMs : Int
  deriving DecidableEq, Repr

/-- Section `config.device`. -/
structure DeviceConfig where
  minInterval : Int
  maxInterval : Int
  deriving DecidableEq, Repr

/-- Section `config.storage`. -/
structure StorageConfig where
  saveImages : Bool
  tmpFolder : String
  timezone : String
  deriving DecidableEq, Repr

/-- The loaded configuration object. -/
structure Config where
  kafka : KafkaConfig
  device : DeviceConfig
  storage : StorageConfig
  deriving DecidableEq, Repr

/-! ### `services/DeviceService.js` -/

/-- `Set.prototype.has`. -/
def JSSet.has (s : List DeviceId) (d : DeviceId) : Bool := s.contains d

/-- `Set.prototype.add`: insertion order is kept, a present value is not added again. -/
def JSSet.add (s : List DeviceId) (d : DeviceId) : List DeviceId :=
  if s.contains d then s else s ++ [d]

/-- `Set.prototype.delete`. -/
def JSSet.delete (s : List DeviceId) (d : DeviceId) : List DeviceId :=
  s.filter (fun x => x != d)

/-- The object returned by `addDevice` / `removeDevice`. -/
structure ServiceReply where
  message : String
  deviceId : DeviceId
  deriving DecidableEq, Repr

/-- State of a `DeviceService`: the registry `this.devices` and the messages
handed to `this.worker.postMessage`, oldest first. -/
structure DeviceService where
  devices : List DeviceId
  posted : List Command
  deriving DecidableEq, Repr

/-- `new DeviceService()`. -/
def DeviceService.init : DeviceService := { devices := [], posted := [] }

/-- `DeviceService.addDevice` (lines 45-57): the outcome (`throw new Error(msg)` is
`Except.error msg`) and the state after the call. -/
def DeviceService.addDevice (s : DeviceService) (deviceId : DeviceId) :
    Except String ServiceReply × DeviceService :=
  if JSSet.has s.devices deviceId then
    (Except.error "Device already exists", s)
  else
    let s1 := { s with posted := s.posted ++ [Command.addDevice deviceId] }
    let s2 := { s1 with devices := JSSet.add s1.devices deviceId }
    (Except.ok { message := "Device added and event loop started", deviceId := deviceId }, s2)

/-- `DeviceService.removeDevice` (lines 59-71). -/
def DeviceService.removeDevice (s : DeviceService) (deviceId : DeviceId) :
    Except String ServiceReply × DeviceService :=
  if !JSSet.has s.devices deviceId then
    (Except.error "Device not found", s)
  else
    let s1 := { s with posted := s.posted ++ [Command.removeDevice deviceId] }
    let s2 := { s1 with devices := JSSet.delete s1.devices deviceId }
    (Except.ok { message := "Device removed from event loop", deviceId := deviceId }, s2)

/-- `DeviceService.getDevices`: `Array.from(this.devices)`. -/
def DeviceService.getDevices (s : DeviceService) : List DeviceId := s.devices

/-- `DeviceService.getDeviceCount`: `this.devices.size`. -/
def DeviceService.getDeviceCount (s : DeviceService) : Nat := s.devices.length

/-! ### `workers/device-worker.js`: the delay -/

/-- `getRandomInterval` (lines 21-24) for the draw `r = Math.random()`:
`Math.floor(r * (maxInterval - minInterval + 1)) + minInterval`. -/
def getRandomInterval (config : Config) (r : ℚ) : Int :=
  ⌊r * (((config.device.maxInterval - config.device.minInterval + 1 : Int)) : ℚ)⌋
    + config.device.minInterval

/-! ### `services/StorageService.js`: saving one image -/

/-- The `StorageService` instance: `saveImages`, `tmpFolder`, `timezone`. -/
structure StorageService where
  saveImages : Bool
  tmpFolder : String
  timezone : String
  deriving DecidableEq, Repr

/-- The constructor (lines 7-15) with `ensureTmpFolderExists` (lines 17-27):
when the folder cannot be created (`folderOk = false`) saving is switched off. -/
def StorageService.new (config : Config) (folderOk : Bool) : StorageService :=
  { saveImages := if config.storage.saveImages then folderOk else false
    tmpFolder := config.storage.tmpFolder
    timezone := config.storage.timezone }

/-- The string `path.join(folder, filename)`; the join is the host's, so the path is
kept symbolic. -/
inductive FilePath where
  | join (folder : String) (filename : String)
  deriving DecidableEq, Repr

/-- The character class `[a-zA-Z0-9-_]` of the two `replace` calls. -/
def isFilenameChar (c : Char) : Bool :=
  ('a' ≤ c && c ≤ 'z') || ('A' ≤ c && c ≤ 'Z') || ('0' ≤ c && c ≤ '9') || c == '-' || c == '_'

/-- One character under `replace(/[^a-zA-Z0-9-_]/g, '_')`.  The replacement works on
UTF-16 code units, so a character outside the basic plane (two code units) becomes
two underscores. -/
def sanitizeChar (c : Char) : List Char :=
  if isFilenameChar c then [c] else if c.val < 0x10000 then ['_'] else ['_', '_']

/-- `s.replace(/[^a-zA-Z0-9-_]/g, '_')`. -/
def sanitize (s : String) : String := String.mk (s.toList.flatMap sanitizeChar)

/-- `generateFilename` (lines 29-40); `timestampStr` is the text produced by
`moment(timestamp).tz(this.timezone).format('YYYY-MM-DD_HH-mm-ss')`. -/
def StorageService.generateFilename (timestampStr : String) (deviceId position : String) : String :=
  timestampStr ++ "_" ++ sanitize deviceId ++ "_" ++ sanitize position ++ ".jpg"

/-- What the host answers to the calls made while one image is saved. -/
structure SaveOutcome where
  /-- the result of the `moment` formatting of the timestamp -/
  timestampStr : String
  /-- `fs.promises.writeFile`: success, or the message of the error thrown -/
  writeFile : Except String Unit
  /-- `fs.promises.stat`: `stats.size`, or the message of the error thrown -/
  stat : Except String Nat
  deriving DecidableEq, Repr

/-- The record returned by a successful `saveImage`. -/
structure SavedRecord where
  filename : String
  filepath : FilePath
  size : Nat
  deriving DecidableEq, Repr

/-- `saveImage` (lines 42-65): `none` is `null`.  Every error thrown inside the
`try` block is caught and turned into `null`. -/
def StorageService.saveImage (st : StorageService) (fs : SaveOutcome)
    (deviceId position : String) : Option SavedRecord :=
  if !st.saveImages then none
  else
    let filename := StorageService.generateFilename fs.timestampStr deviceId position
    let filepath := FilePath.join st.tmpFolder filename
    match fs.writeFile with
    | Except.error _ => none
    | Except.ok _ =>
      match fs.stat with
      | Except.error _ => none
      | Except.ok size => some { filename := filename, filepath := filepath, size := size }

/-- `saveImageFromBase64` (lines 67-79): decodes the text and calls `saveImage`. -/
def StorageService.saveImageFromBase64 (st : StorageService) (fs : SaveOutcome)
    (deviceId position : String) : Option SavedRecord :=
  if !st.saveImages then none
  else StorageService.saveImage st fs deviceId position

/-! ### `workers/device-worker.js`: the event payload -/

/-- One palette entry `{hex, name}`. -/
structure Color where
  hex : String
  name : String
  deriving DecidableEq, Repr

/-- The object `backgroundColors`. -/
structure BackgroundColors where
  primary : Color
  secondary : Color
  accent : Color
  deriving DecidableEq, Repr

/-- The object `dimensions`. -/
structure Dimensions where
  width : Nat
  height : Nat
  deriving DecidableEq, Repr

/-- The object `deviceTextCrop`. -/
structure DeviceTextCrop where
  left : ℚ
  top : ℚ
  width : ℚ
  height : ℚ
  position : String
  deriving DecidableEq, Repr

/-- The fields of the object returned by `imageGenerator.generateImage(deviceId)`
that the worker reads. -/
structure ImageData where
  base64 : String
  position : String
  dimensions : Dimensions
  format : String
  deviceTextCrop : DeviceTextCrop
  backgroundColors : BackgroundColors
  deriving DecidableEq, Repr

/-- The object `image.saved` when it is not `null`. -/
structure SavedInfo where
  filename : String
  filepath : FilePath
  diskSize : Nat
  deriving DecidableEq, Repr

/-- The object `image` of the payload. -/
structure PayloadImage where
  base64 : String
  position : String
  dimensions : Dimensions
  format : String
  size : Nat
  saved : Option SavedInfo
  deriving DecidableEq, Repr

/-- The object `metadata` of the payload. -/
structure Metadata where
  location : String
  battery : Int
  temperature : ℚ
  humidity : ℚ
  cameraStatus : String
  recordingMode : String
  deriving DecidableEq, Repr

/-- The object returned by `generateEventPayload`. -/
structure EventPayload where
  deviceId : DeviceId
  timestamp : String
  value : ℚ
  eventType : String
  image : PayloadImage
  device_text_crop : DeviceTextCrop
  background_colors : BackgroundColors
  metadata : Metadata
  deriving DecidableEq, Repr

/-- What the host supplies to one run of `generateEventPayload`: the clock, the
generated image, the answers to the save, the decoded size of the image text and
the six `Math.random()` draws, in the order of the source. -/
structure PayloadInputs where
  /-- `new Date().toISOString()` -/
  timestamp : String
  /-- `imageGenerator.generateImage(deviceId)` -/
  imageData : ImageData
  /-- answers to the calls of `saveImageFromBase64` -/
  save : SaveOutcome
  /-- `Buffer.byteLength(imageData.base64, 'base64')` -/
  byteLength : Nat
  rValue : ℚ
  rLocation : ℚ
  rBattery : ℚ
  rTemperature : ℚ
  rHumidity : ℚ
  rMode : ℚ
  deriving DecidableEq, Repr

/-- `Math.round`: the nearest integer, a tie going up. -/
def mathRound (x : ℚ) : Int := ⌊x + 1 / 2⌋

/-- `generateEventPayload` (lines 26-68). -/
def generateEventPayload (config : Config) (storage : StorageService) (deviceId : DeviceId)
    (inp : PayloadInputs) : EventPayload :=
  let timestamp := inp.timestamp
  let imageData := inp.imageData
  let savedImageInfo : Option SavedRecord :=
    if config.storage.saveImages then
      StorageService.saveImageFromBase64 storage inp.save deviceId imageData.position
    else none
  { deviceId := deviceId
    timestamp := timestamp
    value := (mathRound ((inp.rValue * 100) * 100) : ℚ) / 100
    eventType := "camera_capture"
    image :=
      { base64 := imageData.base64
        position := imageData.position
        dimensions := imageData.dimensions
        format := imageData.format
        size := inp.byteLength
        saved := savedImageInfo.map (fun rec =>
          { filename := rec.filename, filepath := rec.filepath, diskSize := rec.size }) }
    device_text_crop := imageData.deviceTextCrop
    background_colors := imageData.backgroundColors
    metadata :=
      { location := "zone_" ++ toString (⌊inp.rLocation * 5⌋ + 1)
        battery := ⌊inp.rBattery * 100⌋ + 1
        temperature := (mathRound ((inp.rTemperature * 50 + 10) * 10) : ℚ) / 10
        humidity := (mathRound ((inp.rHumidity * 80 + 20) * 10) : ℚ) / 10
        cameraStatus := "active"
        recordingMode := if inp.rMode > 1 / 2 then "continuous" else "motion_detected" } }

/-! ### `workers/device-worker.js`: the worker as a state machine -/

/-- Handle returned by `setTimeout`. -/
abbrev TimerId := Nat

/-- Outbound message of the worker (`parentPort.postMessage`). -/
inductive Report where
  | eventSent (deviceId : DeviceId) (timestamp : String)
  | deviceRemoved (deviceId : DeviceId) (success : Bool)
  | error (deviceId : Option DeviceId) (error : String)
  deriving DecidableEq, Repr

/-- The string `JSON.stringify(payload)`; the serialiser is the host's, so the text
is kept symbolic. -/
inductive JsonString where
  | stringify (payload : EventPayload)
  deriving DecidableEq, Repr

/-- One entry of `messages` handed to `producer.send`, with its topic. -/
structure BrokerMessage where
  topic : String
  key : DeviceId
  value : JsonString
  timestamp : String
  deriving DecidableEq, Repr

/-- The argument of `producer.send` (lines 82-89); `now` is `Date.now()`. -/
def brokerMessage (config : Config) (deviceId : DeviceId) (payload : EventPayload) (now : Nat) :
    BrokerMessage :=
  { topic := config.kafka.topic
    key := deviceId
    value := JsonString.stringify payload
    timestamp := toString now }

/-- A callback scheduled by `setTimeout(loop, nextInterval)` and neither run nor
cleared yet; `deviceId` is the device of the `loop` closure. -/
structure Timer where
  id : TimerId
  deviceId : DeviceId
  delay : Int
  deriving DecidableEq, Repr

/-- The `await` at which a run of `emitFakeEvent` is suspended. -/
inductive Stage where
  /-- line 73: `await kafkaAdmin.ensureTopicExists(...)` -/
  | ensuring
  /-- line 75: `await producer.connect()` -/
  | connecting
  /-- line 80: `await generateEventPayload(deviceId)` -/
  | generating
  /-- line 82: `await producer.send(...)`, called with this payload at time `now` -/
  | sending (payload : EventPayload) (now : Nat)
  deriving DecidableEq, Repr

/-- A run of `loop()` that has not reached its `setTimeout` yet (a tick in flight). -/
structure Tick where
  id : Nat
  deviceId : DeviceId
  stage : Stage
  deriving DecidableEq, Repr

/-- `Map.prototype.get`. -/
def JSMap.get (m : List (DeviceId × TimerId)) (k : DeviceId) : Option TimerId :=
  (m.find? (fun e => e.1 == k)).map (fun e => e.2)

/-- `Map.prototype.has`. -/
def JSMap.has (m : List (DeviceId × TimerId)) (k : DeviceId) : Bool :=
  m.any (fun e => e.1 == k)

/-- `Map.prototype.set`: a present key keeps its place and takes the new value. -/
def JSMap.set (m : List (DeviceId × TimerId)) (k : DeviceId) (v : TimerId) :
    List (DeviceId × TimerId) :=
  if m.any (fun e => e.1 == k) then m.map (fun e => if e.1 == k then (k, v) else e)
  else m ++ [(k, v)]

/-- `Map.prototype.delete`. -/
def JSMap.delete (m : List (DeviceId × TimerId)) (k : DeviceId) : List (DeviceId × TimerId) :=
  m.filter (fun e => e.1 != k)

/-- State of the worker thread: the module variables `devices` and `isConnected`,
the storage service, the host's timer queue, the ticks in flight, what has been
posted to the parent and published to the broker, and the number of calls made to
`kafkaAdmin.ensureTopicExists` and to `producer.connect`. -/
structure Worker where
  devices : List (DeviceId × TimerId)
  isConnected : Bool
  storage : StorageService
  timers : List Timer
  nextTimer : TimerId
  ticks : List Tick
  nextTick : Nat
  reports : List Report
  published : List BrokerMessage
  ensureCalls : Nat
  connectCalls : Nat
  producerConnected : Bool
  deriving DecidableEq, Repr

/-- The worker right after the module has been loaded (lines 8-19). -/
def Worker.init (storage : StorageService) : Worker :=
  { devices := [], isConnected := false, storage := storage, timers := [], nextTimer := 0,
    ticks := [], nextTick := 0, reports := [], published := [], ensureCalls := 0,
    connectCalls := 0, producerConnected := false }

/-- `parentPort.postMessage(report)`. -/
def Worker.post (w : Worker) (rep : Report) : Worker :=
  { w with reports := w.reports ++ [rep] }

/-- A call of `loop()` up to the first `await` of `emitFakeEvent` (lines 70-80):
with `isConnected` false the tick calls `ensureTopicExists` and waits for it,
otherwise it calls `generateEventPayload` and waits for it. -/
def Worker.beginTick (w : Worker) (deviceId : DeviceId) : Worker :=
  if !w.isConnected then
    { w with ticks := w.ticks ++ [{ id := w.nextTick, deviceId := deviceId, stage := Stage.ensuring }]
             nextTick := w.nextTick + 1
             ensureCalls := w.ensureCalls + 1 }
  else
    { w with ticks := w.ticks ++ [{ id := w.nextTick, deviceId := deviceId, stage := Stage.generating }]
             nextTick := w.nextTick + 1 }

/-- The rest of `loop()` once `emitFakeEvent` has returned (lines 114-116): draw the
delay, `setTimeout(loop, nextInterval)`, `devices.set(deviceId, timeoutId)`.
The `catch` of `loop` (lines 117-123) is never entered, `emitFakeEvent` having
caught every error itself. -/
def Worker.reschedule (config : Config) (w : Worker) (tick : Nat) (deviceId : DeviceId)
    (r : ℚ) : Worker :=
  let nextInterval := getRandomInterval config r
  let timeoutId := w.nextTimer
  { w with ticks := w.ticks.filter (fun t => t.id != tick)
           timers := w.timers ++ [{ id := timeoutId, deviceId := deviceId, delay := nextInterval }]
           nextTimer := w.nextTimer + 1
           devices := JSMap.set w.devices deviceId timeoutId }

/-- `startDeviceLoop` (lines 106-127) up to the first suspension. -/
def Worker.startDeviceLoop (w : Worker) (deviceId : DeviceId) : Worker :=
  if JSMap.has w.devices deviceId then w
  else Worker.beginTick w deviceId

/-- `stopDeviceLoop` (lines 129-137); `clearTimeout` drops the callback from the
timer queue when it is still there. -/
def Worker.stopDeviceLoop (w : Worker) (deviceId : DeviceId) : Bool × Worker :=
  match JSMap.get w.devices deviceId with
  | some timeoutId =>
    (true, { w with timers := w.timers.filter (fun t => t.id != timeoutId)
                    devices := JSMap.delete w.devices deviceId })
  | none => (false, w)

/-- The handler `parentPort.on('message', ...)` (lines 139-167). -/
def Worker.onMessage (w : Worker) (message : Command) : Worker :=
  match message with
  | Command.addDevice deviceId => Worker.startDeviceLoop w deviceId
  | Command.removeDevice deviceId =>
    let res := Worker.stopDeviceLoop w deviceId
    Worker.post res.2 (Report.deviceRemoved deviceId res.1)
  | Command.other type =>
    Worker.post w (Report.error none ("Unknown message type: " ++ type))

/-- The host runs the callback of a pending timer: `loop()` is called again. -/
def Worker.fire (w : Worker) (timer : TimerId) : Worker :=
  match w.timers.find? (fun t => t.id == timer) with
  | none => w
  | some t => Worker.beginTick { w with timers := w.timers.filter (fun x => x.id != timer) } t.deviceId

/-- Result of an awaited call, as delivered to the suspended tick. -/
inductive Outcome where
  /-- the awaited call threw an error with this message -/
  | failed (message : String)
  /-- `ensureTopicExists`, `producer.connect` or `producer.send` resolved -/
  | ok
  /-- `generateEventPayload` ran on these inputs; `now` is the `Date.now()` of line 87 -/
  | payload (inp : PayloadInputs) (now : Nat)
  deriving DecidableEq, Repr

/-- Replaces the stage of the tick `tick`. -/
def Worker.setStage (w : Worker) (tick : Nat) (stage : Stage) : Worker :=
  { w with ticks := w.ticks.map (fun t => if t.id == tick then { t with stage := stage } else t) }

/-- The tick `tick` resumes from its `await` with the result `res` and runs to its
next `await` or to the end of `loop` (lines 70-116); `r` is the `Math.random()`
draw of `getRandomInterval`, read only when the tick ends.  A result that does
not fit the awaited call is not delivered. -/
def Worker.resume (config : Config) (w : Worker) (tick : Nat) (res : Outcome) (r : ℚ) : Worker :=
  match w.ticks.find? (fun t => t.id == tick) with
  | none => w
  | some t =>
    match t.stage, res with
    | _, Outcome.failed message =>
      Worker.reschedule config (Worker.post w (Report.error (some t.deviceId) message))
        tick t.deviceId r
    | Stage.ensuring, Outcome.ok =>
      Worker.setStage { w with connectCalls := w.connectCalls + 1 } tick Stage.connecting
    | Stage.connecting, Outcome.ok =>
      Worker.setStage { w with isConnected := true, producerConnected := true } tick Stage.generating
    | Stage.generating, Outcome.payload inp now =>
      Worker.setStage w tick
        (Stage.sending (generateEventPayload config w.storage t.deviceId inp) now)
    | Stage.sending payload now, Outcome.ok =>
      let w1 := { w with published := w.published ++ [brokerMessage config t.deviceId payload now] }
      let w2 := Worker.post w1 (Report.eventSent t.deviceId payload.timestamp)
      Worker.reschedule config w2 tick t.deviceId r
    | _, _ => w

/-- Looks a module-level variable holding a device map up by name: `devices` is the
only one the module declares (line 15). -/
def Worker.lookupMap (w : Worker) (name : String) : Option (List (DeviceId × TimerId)) :=
  if name = "devices" then some w.devices else none

/-- Looks a variable holding a timer handle up by name inside the body of the
`for` loop of `shutdown`: the loop binds `deviceId` (a string) and `loop` (the
value of the entry). -/
def Worker.lookupHandleInShutdownLoop (entry : DeviceId × TimerId) (name : String) :
    Option TimerId :=
  if name = "loop" then some entry.2 else none

/-- `shutdown` (lines 170-181): the outcome (`Except.error` carries the message of
the error thrown) and the state after the call.  Line 172 iterates
`deviceLoops.entries()` and line 173 clears `timeoutId`; reading an undeclared
variable throws a `ReferenceError`. -/
def Worker.shutdown (w : Worker) : Except String Unit × Worker :=
  match Worker.lookupMap w "deviceLoops" with
  | none => (Except.error "deviceLoops is not defined", w)
  | some entries =>
    let cleared := entries.foldl
      (fun (acc : Except String Unit × Worker) entry =>
        match acc.1 with
        | Except.error e => (Except.error e, acc.2)
        | Except.ok _ =>
          match Worker.lookupHandleInShutdownLoop entry "timeoutId" with
          | none => (Except.error "timeoutId is not defined", acc.2)
          | some timeoutId =>
            (Except.ok (), { acc.2 with timers := acc.2.timers.filter (fun t => t.id != timeoutId) }))
      (Except.ok (), w)
    match cleared.1 with
    | Except.error e => (Except.error e, cleared.2)
    | Except.ok _ =>
      let w1 := { cleared.2 with devices := [] }
      if w1.isConnected then (Except.ok (), { w1 with producerConnected := false })
      else (Except.ok (), w1)

/-- What can happen next in the worker thread. -/
inductive Event where
  /-- a message from the parent is handled -/
  | message (m : Command)
  /-- the callback of a pending timer is run -/
  | fire (timer : TimerId)
  /-- an awaited call of a tick in flight settles -/
  | resume (tick : Nat) (res : Outcome) (r : ℚ)
  deriving DecidableEq, Repr

/-- One turn of the worker's event loop. -/
def Worker.step (config : Config) (w : Worker) (e : Event) : Worker :=
  match e with
  | Event.message m => Worker.onMessage w m
  | Event.fire timer => Worker.fire w timer
  | Event.resume tick res r => Worker.resume config w tick res r

/-- The worker after a sequence of turns. -/
def Worker.run (config : Config) (w : Worker) (es : List Event) : Worker :=
  es.foldl (Worker.step config) w

/-- Number of live emission loops of a device: its pending timers plus its ticks in
flight. -/
def Worker.liveLoops (w : Worker) (deviceId : DeviceId) : Nat :=
  (w.timers.filter (fun t => t.deviceId == deviceId)).length
    + (w.ticks.filter (fun t => t.deviceId == deviceId)).length

/-! ### Concrete inputs used in the evaluations below -/

/-- The configuration of `config/index.js` with no variable set except
`SAVE_IMAGES=true`. -/
def sampleConfig : Config :=
  { kafka := { topic := "device-events", retentionMs := 3600000 }
    device := { minInterval := 3000, maxInterval := 10000 }
    storage := { saveImages := true, tmpFolder := "./tmp/images", timezone := "UTC" } }

/-- A generated image, label at the top left. -/
def sampleImage : ImageData :=
  { base64 := "/9j/4AAQ"
    position := "top-left"
    dimensions := { width := 1280, height := 720 }
    format := "jpeg"
    deviceTextCrop := { left := 5, top := 5, width := 330, height := 78, position := "top-left" }
    backgroundColors :=
      { primary := { hex := "#2C3E50", name := "dark_blue_gray" }
        secondary := { hex := "#34495E", name := "charcoal_blue" }
        accent := { hex := "#5D6D7E", name := "steel_gray" } } }

/-- Inputs of a tick whose image is written to disk. -/
def sampleInputs : PayloadInputs :=
  { timestamp := "2024-05-01T10:00:00.000Z"
    imageData := sampleImage
    save := { timestampStr := "2024-05-01_10-00-00", writeFile := Except.ok (), stat := Except.ok 6 }
    byteLength := 6
    rValue := 1 / 3, rLocation := 1 / 2, rBattery := 99 / 100
    rTemperature := 0, rHumidity := 1 / 7, rMode := 3 / 4 }

/-- Inputs of a tick whose file write fails. -/
def failedWriteInputs : PayloadInputs :=
  { sampleInputs with
    save := { timestampStr := "2024-05-01_10-00-00"
              writeFile := Except.error "ENOSPC: no space left on device"
              stat := Except.ok 6 } }

/-- The worker right after start-up, the storage folder being there. -/
def sampleWorker : Worker := Worker.init (StorageService.new sampleConfig true)

/-- One whole tick `tick` in which every awaited call succeeds, from the topic check on. -/
def firstTickSucceeds (tick : Nat) : List Event :=
  [Event.resume tick Outcome.ok 0, Event.resume tick Outcome.ok 0,
   Event.resume tick (Outcome.payload sampleInputs 1714557600000) 0,
   Event.resume tick Outcome.ok (1 / 2)]

/-- One whole tick `tick` of a connected worker in which every awaited call succeeds;
its payload carries the time stamp `stamp`. -/
def laterTickSucceeds (tick : Nat) (stamp : String) : List Event :=
  [Event.resume tick (Outcome.payload { sampleInputs with timestamp := stamp } 1714557605000) 0,
   Event.resume tick Outcome.ok (1 / 2)]

/-- Whether the event is the settling of an awaited call of the tick `tick`. -/
def Event.resumes (e : Event) (tick : Nat) : Bool :=
  match e with
  | Event.resume j _ _ => j == tick
  | _ => false

/-- The message the worker publishes for a tick of `deviceId` whose payload is built
from the inputs `inp` and sent at time `now`. -/
def Worker.messageOf (config : Config) (w : Worker) (deviceId : DeviceId) (inp : PayloadInputs)
    (now : Nat) : BrokerMessage :=
  brokerMessage config deviceId (generateEventPayload config w.storage deviceId inp) now

/-- The two workers have posted the same reports and published the same messages. -/
def Worker.sameOutputs (a b : Worker) : Prop :=
  a.published = b.published ∧ a.reports = b.reports

/-! ### JavaScript numbers with an integer value -/

/-- The least exponent `e`, from the given one on, with `n < 2 ^ (53 + e)`; `fuel`
exponents are looked at. -/
def ulpExponentFrom (n : Nat) : Nat → Nat → Nat
  | 0, e => e
  | fuel + 1, e => if n < 2 ^ (53 + e) then e else ulpExponentFrom n fuel (e + 1)

/-- The binary exponent of the gap between the doubles next to `n`: 0 below
`2 ^ 53`, otherwise the `e` with `2 ^ (52 + e) ≤ n < 2 ^ (53 + e)`, and 972 from
`2 ^ 1024` on, where no double is left. -/
def ulpExponent (n : Nat) : Nat := ulpExponentFrom n 972 0

/-- The least power of two that is too large for a double. -/
def overflowThreshold : Nat := 2 ^ 1024

/-- The significand of the double nearest to `n`, for the exponent `e` of `n`: the
quotient of `n` by `2 ^ e` rounded to the nearest integer, a tie going to the even
one. -/
def roundSignificand (n e : Nat) : Nat :=
  let q := n / 2 ^ e
  let r := n % 2 ^ e
  if 2 ^ e < 2 * r ∨ (2 * r = 2 ^ e ∧ q % 2 = 1) then q + 1 else q

/-- The double nearest to the natural number `n`, a tie going to the even
significand (the IEEE 754 rounding of every JavaScript number); `none` when the
result is `Infinity`. -/
def roundNat (n : Nat) : Option Nat :=
  let rounded := roundSignificand n (ulpExponent n) * 2 ^ ulpExponent n
  if rounded < overflowThreshold then some rounded else none

/-- A JavaScript number with an integer value: what `parseInt` returns and what the
products of such numbers are.  `finite n` is the double of value `n`; the two zeros
are one value, since the code embedded here never tells them apart (both are falsy
and both print as `0`). -/
inductive JSNumber where
  | nan
  | finite (value : Int)
  | infinity (negative : Bool)
  deriving DecidableEq, Repr

/-- The number value of the integer `n`: `n` itself when it is a double, otherwise
the nearest double or an infinity. -/
def JSNumber.round (n : Int) : JSNumber :=
  match roundNat n.natAbs with
  | some m => JSNumber.finite (if n < 0 then -(m : Int) else (m : Int))
  | none => JSNumber.infinity (decide (n < 0))

/-- The operator `*`: the exact product, rounded. -/
def JSNumber.mul : JSNumber → JSNumber → JSNumber
  | JSNumber.finite a, JSNumber.finite b => JSNumber.round (a * b)
  | JSNumber.finite a, JSNumber.infinity s =>
    if a = 0 then JSNumber.nan else JSNumber.infinity (s != decide (a < 0))
  | JSNumber.infinity s, JSNumber.finite b =>
    if b = 0 then JSNumber.nan else JSNumber.infinity (s != decide (b < 0))
  | JSNumber.infinity s, JSNumber.infinity t => JSNumber.infinity (s != t)
  | _, _ => JSNumber.nan

/-- `isNaN(x)`. -/
def JSNumber.isNaN : JSNumber → Bool
  | JSNumber.nan => true
  | _ => false

/-- Truthiness of a number: `NaN` and zero are falsy. -/
def JSNumber.truthy : JSNumber → Bool
  | JSNumber.nan => false
  | JSNumber.finite value => decide (value ≠ 0)
  | JSNumber.infinity _ => true

/-- Among the natural numbers with at most `k` significant digits, the one nearest to
the double `x` that rounds to `x`, if there is one: the candidates are the two
multiples of the power of ten `p` around `x`, where `x` has `k` digits before the
place of `p`; when both round to `x` and are equally near, the one with the even
quotient by `p` is taken. -/
def closestRoundTrip (x k : Nat) : Option Nat :=
  let p := 10 ^ ((Nat.toDigits 10 x).length - k)
  let lo := x / p * p
  let hi := lo + p
  if roundNat lo = some x ∧ roundNat hi = some x then
    if x - lo < hi - x then some lo
    else if hi - x < x - lo then some hi
    else if x / p % 2 = 0 then some lo else some hi
  else if roundNat lo = some x then some lo
  else if roundNat hi = some x then some hi
  else none

/-- The number whose digits `Number.prototype.toString` prints for the double
`x ≥ 1`: the one with the fewest significant digits that rounds to `x`, nearest to
`x`.  Seventeen digits always suffice for a double; for a number that is no double
the number itself is returned. -/
def shortestRoundTrip (x : Nat) : Nat :=
  ((List.range 17).findSome? (fun i => closestRoundTrip x (i + 1))).getD x

/-- The exponent form of `Number.prototype.toString` for `v ≥ 1`: the significant
digits of `v`, a point after the first when there are several, then `e+` and the
number of digits after the first place. -/
def exponentNotation (v : Nat) : String :=
  let digits := Nat.toDigits 10 v
  let exponent := Nat.repr (digits.length - 1)
  match digits.rdropWhile (fun c => c == '0') with
  | [] => "0"
  | [d] => String.mk [d] ++ "e+" ++ exponent
  | d :: rest => String.mk (d :: '.' :: rest) ++ "e+" ++ exponent

/-- `x.toString()` for a number: the digits of the shortest number that rounds to
`x`, written in full below `10 ^ 21` and in exponent form from there on. -/
def JSNumber.toString : JSNumber → String
  | JSNumber.nan => "NaN"
  | JSNumber.infinity false => "Infinity"
  | JSNumber.infinity true => "-Infinity"
  | JSNumber.finite n =>
    if n = 0 then "0"
    else
      let v := shortestRoundTrip n.natAbs
      let text := if v < 10 ^ 21 then Nat.repr v else exponentNotation v
      if n < 0 then "-" ++ text else text

/-! ### `services/KafkaAdminService.js`: topic provisioning -/

/-- One entry `{name, value}` of `configEntries`. -/
structure ConfigEntry where
  name : String
  value : String
  deriving DecidableEq, Repr

/-- One element of `topics` in the argument of `admin.createTopics`. -/
structure TopicRequest where
  topic : String
  numPartitions : Nat
  replicationFactor : Nat
  configEntries : List ConfigEntry
  deriving DecidableEq, Repr

/-- A call made on the admin client `this.admin`. -/
inductive AdminRequest where
  | connect
  | listTopics
  | createTopics (topics : List TopicRequest)
  | deleteTopics (topics : List String)
  | alterConfigs (topic : String) (configEntries : List ConfigEntry)
  | disconnect
  deriving DecidableEq, Repr

/-- Whether the call deletes a topic or alters the configuration of one. -/
def AdminRequest.deletesOrAlters : AdminRequest → Bool
  | AdminRequest.deleteTopics _ => true
  | AdminRequest.alterConfigs _ _ => true
  | _ => false

/-- Whether the call is a create request. -/
def AdminRequest.isCreate : AdminRequest → Bool
  | AdminRequest.createTopics _ => true
  | _ => false

/-- The topics of the broker, each with the settings it was created with. -/
abbrev Broker := List TopicRequest

/-- The topic set of the broker, as `admin.listTopics()` reports it. -/
def Broker.topicNames (b : Broker) : List String := b.map (fun t => t.topic)

/-- What the broker does with a granted create request: every requested topic that
does not exist yet is added, existing topics are left alone. -/
def Broker.create (b : Broker) (topics : List TopicRequest) : Broker :=
  topics.foldl (fun acc t => if (Broker.topicNames acc).contains t.topic then acc else acc ++ [t]) b

/-- How the admin client answers each call of one run of `ensureTopicExists`:
success, or the message of the error thrown. -/
structure AdminAnswers where
  connect : Except String Unit
  listTopics : Except String Unit
  createTopics : Except String Unit
  disconnect : Except String Unit
  deriving DecidableEq, Repr

/-- The admin client answers every call. -/
def AdminAnswers.allOk : AdminAnswers :=
  { connect := Except.ok (), listTopics := Except.ok (), createTopics := Except.ok (),
    disconnect := Except.ok () }

/-- The element of `topics` built on lines 30-52. -/
def KafkaAdminService.topicRequest (topicName : String) (retentionMs : JSNumber) :
    TopicRequest :=
  { topic := topicName
    numPartitions := 3
    replicationFactor := 1
    configEntries :=
      [{ name := "retention.ms", value := retentionMs.toString },
       { name := "cleanup.policy", value := "delete" },
       { name := "segment.ms", value := "300000" },
       { name := "delete.retention.ms", value := "60000" }] }

/-- Outcome of one run of `ensureTopicExists`: what the call returned or threw, the
broker afterwards and the calls made on the admin client, oldest first. -/
structure AdminRun where
  result : Except String Unit
  broker : Broker
  requests : List AdminRequest
  deriving DecidableEq, Repr

/-- The `finally` block of `ensureTopicExists` (lines 64-67): `admin.disconnect()`
is awaited whatever happened before; when it throws, its error replaces the
outcome of the `try` block. -/
def KafkaAdminService.finallyDisconnect (answers : AdminAnswers) (run : AdminRun) : AdminRun :=
  match answers.disconnect with
  | Except.ok _ => { run with requests := run.requests ++ [AdminRequest.disconnect] }
  | Except.error e =>
    { run with result := Except.error e, requests := run.requests ++ [AdminRequest.disconnect] }

/-- `ensureTopicExists` (lines 19-68); `retentionMs` is the number the caller
passes, for the worker `parseInt(process.env.KAFKA_RETENTION_MS) || 3600000`. -/
def KafkaAdminService.ensureTopicExists (broker : Broker) (answers : AdminAnswers)
    (topicName : String) (retentionMs : JSNumber) : AdminRun :=
  KafkaAdminService.finallyDisconnect answers
    (match answers.connect with
     | Except.error e =>
       { result := Except.error e, broker := broker, requests := [AdminRequest.connect] }
     | Except.ok _ =>
       match answers.listTopics with
       | Except.error e =>
         { result := Except.error e, broker := broker
           requests := [AdminRequest.connect, AdminRequest.listTopics] }
       | Except.ok _ =>
         let existingTopics := Broker.topicNames broker
         if !existingTopics.contains topicName then
           let request := [KafkaAdminService.topicRequest topicName retentionMs]
           match answers.createTopics with
           | Except.error e =>
             { result := Except.error e, broker := broker
               requests := [AdminRequest.connect, AdminRequest.listTopics,
                            AdminRequest.createTopics request] }
           | Except.ok _ =>
             { result := Except.ok (), broker := Broker.create broker request
               requests := [AdminRequest.connect, AdminRequest.listTopics,
                            AdminRequest.createTopics request] }
         else
           { result := Except.ok (), broker := broker
             requests := [AdminRequest.connect, AdminRequest.listTopics] })

/-! ### `services/ImageGenerator.js` -/

/-- `this.width`. -/
def ImageGenerator.width : ℚ := 1280

/-- `this.height`. -/
def ImageGenerator.height : ℚ := 720

/-- `this.positions` (lines 7-17). -/
def ImageGenerator.positions : List String :=
  ["top-left", "top-middle", "top-right",
   "middle-left", "middle-center", "middle-right",
   "bottom-left", "bottom-middle", "bottom-right"]

/-- `xs[Math.floor(r * xs.length)]`; `none` is `undefined`. -/
def jsRandomElement {α : Type} (xs : List α) (r : ℚ) : Option α :=
  if ⌊r * (xs.length : ℚ)⌋ < 0 then none else xs[(⌊r * (xs.length : ℚ)⌋).toNat]?

/-- `getRandomPosition` (lines 20-22) for the draw `r`. -/
def ImageGenerator.getRandomPosition (r : ℚ) : Option String :=
  jsRandomElement ImageGenerator.positions r

/-- The pieces of a list of characters between the occurrences of `sep`. -/
def splitChars (sep : Char) : List Char → List (List Char)
  | [] => [[]]
  | c :: cs =>
    if c = sep then [] :: splitChars sep cs
    else
      match splitChars sep cs with
      | [] => [[c]]
      | p :: ps => (c :: p) :: ps

/-- `s.split(sep)` for a one-character separator. -/
def jsSplit (s : String) (sep : Char) : List String :=
  (splitChars sep s.toList).map String.mk

/-- The object `coordinates`. -/
structure Coordinates where
  x : ℚ
  y : ℚ
  deriving DecidableEq, Repr

/-- `getCoordinatesForPosition` (lines 24-59); a `switch` with no matching `case`
leaves the coordinate at `0`. -/
def ImageGenerator.getCoordinatesForPosition (position : String) (textWidth textHeight : ℚ) :
    Coordinates :=
  let margin : ℚ := 20
  let horizontal := (jsSplit position '-')[1]?
  let vertical := (jsSplit position '-')[0]?
  let x : ℚ :=
    if horizontal = some "left" then margin
    else if horizontal = some "middle" ∨ horizontal = some "center" then
      (ImageGenerator.width - textWidth) / 2
    else if horizontal = some "right" then ImageGenerator.width - textWidth - margin
    else 0
  let y : ℚ :=
    if vertical = some "top" then margin + textHeight
    else if vertical = some "middle" then (ImageGenerator.height + textHeight) / 2
    else if vertical = some "bottom" then ImageGenerator.height - margin
    else 0
  { x := x, y := y }

/-- The palette of `generateRandomColor` (lines 62-73). -/
def ImageGenerator.colors : List Color :=
  [{ hex := "#2C3E50", name := "dark_blue_gray" },
   { hex := "#34495E", name := "charcoal_blue" },
   { hex := "#5D6D7E", name := "steel_gray" },
   { hex := "#566573", name := "slate_gray" },
   { hex := "#1B2631", name := "midnight_blue" },
   { hex := "#212F3D", name := "dark_navy" },
   { hex := "#283747", name := "gunmetal" },
   { hex := "#17202A", name := "charcoal_black" },
   { hex := "#425468", name := "storm_gray" },
   { hex := "#4A5568", name := "cool_gray" }]

/-- `generateRandomColor` (lines 61-75) for the draw `r`. -/
def ImageGenerator.generateRandomColor (r : ℚ) : Option Color :=
  jsRandomElement ImageGenerator.colors r

/-- One element of `this.shapes`. -/
structure ShapeInfo where
  color : Color
  x : Int
  y : Int
  size : Int
  type : Option String
  radius : Option Int
  width : Option Int
  height : Option Int
  base : Option Int
  deriving DecidableEq, Repr

/-- One turn of the loop of `addRandomShapes` (lines 103-149), reading the five
draws `draws i`, ..., `draws (i + 4)`.  An undefined colour makes `color.hex`
throw. -/
def ImageGenerator.randomShape (draws : Nat → ℚ) (i : Nat) : Except String ShapeInfo :=
  match ImageGenerator.generateRandomColor (draws i) with
  | none => Except.error "Cannot read properties of undefined (reading 'hex')"
  | some color =>
    let shapeType := ⌊draws (i + 1) * 3⌋
    let x := draws (i + 2) * ImageGenerator.width
    let y := draws (i + 3) * ImageGenerator.height
    let size := draws (i + 4) * 100 + 50
    let shapeInfo : ShapeInfo :=
      { color := color, x := mathRound x, y := mathRound y, size := mathRound size
        type := none, radius := none, width := none, height := none, base := none }
    if shapeType = 0 then
      Except.ok { shapeInfo with type := some "circle", radius := some (mathRound size) }
    else if shapeType = 1 then
      Except.ok { shapeInfo with type := some "rectangle", width := some (mathRound size)
                                 height := some (mathRound (size * (7 / 10))) }
    else if shapeType = 2 then
      Except.ok { shapeInfo with type := some "triangle", base := some (mathRound (size * 2))
                                 height := some (mathRound size) }
    else Except.ok shapeInfo

/-- The loop of `addRandomShapes`: `count` shapes, the first reading its draws from
index `i` on. -/
def ImageGenerator.randomShapes (draws : Nat → ℚ) : Nat → Nat → Except String (List ShapeInfo)
  | _, 0 => Except.ok []
  | i, count + 1 =>
    match ImageGenerator.randomShape draws i with
    | Except.error e => Except.error e
    | Except.ok shape =>
      match ImageGenerator.randomShapes draws (i + 5) count with
      | Except.error e => Except.error e
      | Except.ok shapes => Except.ok (shape :: shapes)

/-- `shapeCount` of `addRandomShapes` (line 100); the draws `0`, `1`, `2` are those of
the three background colours. -/
def ImageGenerator.shapeCount (draws : Nat → ℚ) : Int := ⌊draws 3 * 5⌋ + 3

/-- Index of the draw read by `getRandomPosition` in `generateImage`: it follows the
three colours, the shape count and the five draws of each shape. -/
def ImageGenerator.positionDraw (draws : Nat → ℚ) : Nat :=
  4 + 5 * (ImageGenerator.shapeCount draws).toNat

/-- What the host supplies to one run of `generateImage`: the successive results of
`Math.random()`, the width measured for the label and the encoded canvas. -/
structure CanvasInputs where
  /-- `draws k` is the result of the call number `k` of `Math.random()` -/
  draws : Nat → ℚ
  /-- `ctx.measureText(text).width` -/
  textWidth : ℚ
  /-- `canvas.toBuffer('image/jpeg', ...).toString('base64')` -/
  base64 : String

/-- The object returned by `generateImage`. -/
structure GeneratedImage where
  deviceId : DeviceId
  base64 : String
  position : String
  dimensions : Dimensions
  format : String
  deviceTextCrop : DeviceTextCrop
  backgroundColors : BackgroundColors
  shapes : List ShapeInfo
  deriving DecidableEq, Repr

/-- The fields of a generated image that the worker reads. -/
def GeneratedImage.toImageData (img : GeneratedImage) : ImageData :=
  { base64 := img.base64, position := img.position, dimensions := img.dimensions
    format := img.format, deviceTextCrop := img.deviceTextCrop
    backgroundColors := img.backgroundColors }

/-- The object `deviceTextCrop` computed on lines 183-190. -/
def ImageGenerator.deviceTextCrop (position : String) (coordinates : Coordinates)
    (textWidth textHeight : ℚ) : DeviceTextCrop :=
  let padding : ℚ := 15
  { left := max 0 (coordinates.x - padding)
    top := max 0 (coordinates.y - textHeight - padding)
    width := min (ImageGenerator.width - (coordinates.x - padding)) (textWidth + padding * 2)
    height := min (ImageGenerator.height - (coordinates.y - textHeight - padding))
                (textHeight + padding * 2)
    position := position }

/-- `generateImage` (lines 155-217); drawing on the canvas is left out, the values
the canvas gives back are inputs.  An undefined colour or position makes the
property access on it throw. -/
def ImageGenerator.generateImage (deviceId : DeviceId) (inp : CanvasInputs) :
    Except String GeneratedImage :=
  match ImageGenerator.generateRandomColor (inp.draws 0),
        ImageGenerator.generateRandomColor (inp.draws 1),
        ImageGenerator.generateRandomColor (inp.draws 2) with
  | some primaryColor, some secondaryColor, some accentColor =>
    match ImageGenerator.randomShapes inp.draws 4 (ImageGenerator.shapeCount inp.draws).toNat with
    | Except.error e => Except.error e
    | Except.ok shapes =>
      match ImageGenerator.getRandomPosition (inp.draws (ImageGenerator.positionDraw inp.draws)) with
      | none => Except.error "Cannot read properties of undefined (reading 'split')"
      | some position =>
        let textWidth := inp.textWidth
        let textHeight : ℚ := 48
        let coordinates := ImageGenerator.getCoordinatesForPosition position textWidth textHeight
        Except.ok
          { deviceId := deviceId
            base64 := inp.base64
            position := position
            dimensions := { width := 1280, height := 720 }
            format := "jpeg"
            deviceTextCrop :=
              ImageGenerator.deviceTextCrop position coordinates textWidth textHeight
            backgroundColors :=
              { primary := primaryColor, secondary := secondaryColor, accent := accentColor }
            shapes := shapes }
  | _, _, _ => Except.error "Cannot read properties of undefined (reading 'hex')"
/-- A rectangle on the canvas. -/
structure Rect where
  x : ℚ
  y : ℚ
  width : ℚ
  height : ℚ
  deriving DecidableEq, Repr

/-- The backing rectangle of the label, drawn by `ctx.fillRect` on lines 193-198. -/
def ImageGenerator.backingRect (coordinates : Coordinates) (textWidth textHeight : ℚ) : Rect :=
  { x := coordinates.x - 10
    y := coordinates.y - textHeight - 5
    width := textWidth + 20
    height := textHeight + 15 }

/-- The nine anchor names as the specification describes them: every `<v>-<h>` with
`v` among top, middle, bottom and `h` among left, center, right. -/
def specAnchorNames : List String :=
  ["top", "middle", "bottom"].flatMap
    (fun v => ["left", "center", "right"].map (fun h => v ++ "-" ++ h))

/-- Inputs of a run of `generateImage` whose label measures 2000 pixels (forty
letters `W` in bold 48px Arial measure about that) and whose position draw is `d`,
every other draw being `0`, so that three shapes are drawn and the position draw
is the draw number 19. -/
def wideLabelInputs (d : ℚ) : CanvasInputs :=
  { draws := fun k => if k = 19 then d else 0, textWidth := 2000, base64 := "/9j/4AAQ" }

/-! ### `services/StorageService.js`: file system calls, statistics and cleanup -/

/-- A call made on the file system by the storage service. -/
inductive FsCall where
  | writeFile (filepath : FilePath)
  | stat (filepath : FilePath)
  | unlink (filepath : FilePath)
  deriving DecidableEq, Repr

/-- `saveImage` (lines 42-65) together with the file system calls it makes, oldest
first. -/
def StorageService.saveImageTraced (st : StorageService) (fs : SaveOutcome)
    (deviceId position : String) : Option SavedRecord × List FsCall :=
  if !st.saveImages then (none, [])
  else
    let filename := StorageService.generateFilename fs.timestampStr deviceId position
    let filepath := FilePath.join st.tmpFolder filename
    match fs.writeFile with
    | Except.error _ => (none, [FsCall.writeFile filepath])
    | Except.ok _ =>
      match fs.stat with
      | Except.error _ => (none, [FsCall.writeFile filepath, FsCall.stat filepath])
      | Except.ok size =>
        (some { filename := filename, filepath := filepath, size := size },
         [FsCall.writeFile filepath, FsCall.stat filepath])

/-- `saveImageFromBase64` (lines 67-79) together with the file system calls it
makes. -/
def StorageService.saveImageFromBase64Traced (st : StorageService) (fs : SaveOutcome)
    (deviceId position : String) : Option SavedRecord × List FsCall :=
  if !st.saveImages then (none, [])
  else StorageService.saveImageTraced st fs deviceId position

/-- `generateFilename` (lines 29-40) with the formatting call written out:
`moment ts zone pattern` stands for `moment(ts).tz(zone).format(pattern)`. -/
def StorageService.generateFilenameAt (moment : String → String → String → String)
    (st : StorageService) (deviceId position timestamp : String) : String :=
  StorageService.generateFilename (moment timestamp st.timezone "YYYY-MM-DD_HH-mm-ss")
    deviceId position

/-- The UTF-16 code units of a character, as JavaScript strings store it. -/
def utf16Units (c : Char) : List Nat :=
  if c.val.toNat < 0x10000 then [c.val.toNat]
  else [0xD800 + (c.val.toNat - 0x10000) / 0x400, 0xDC00 + (c.val.toNat - 0x10000) % 0x400]

/-- The UTF-16 code units of a string; their number is the `length` of the
JavaScript string. -/
def toUTF16 (s : String) : List Nat := s.toList.flatMap utf16Units

/-- Whether a code unit is an ASCII letter, a digit, `-` or `_`. -/
def isFilenameUnit (u : Nat) : Bool :=
  (97 ≤ u && u ≤ 122) || (65 ≤ u && u ≤ 90) || (48 ≤ u && u ≤ 57) || u == 45 || u == 95

/-- The replacement `S` in the words of the specification, on code units: every
unit that is not an ASCII letter, digit, `-` or `_` becomes `_` (95), every other
unit is unchanged. -/
def specSanitize (units : List Nat) : List Nat :=
  units.map (fun u => if isFilenameUnit u then u else 95)

/-- A file of the storage folder, as the host reports it. -/
structure StoredFile where
  name : String
  /-- `stats.size` -/
  size : Nat
  /-- `stats.mtime.getTime()`, in milliseconds -/
  mtime : Int
  /-- the message of the error `fs.statSync` throws on this file, if it does -/
  statError : Option String
  /-- the message of the error `fs.unlinkSync` throws on this file, if it does -/
  unlinkError : Option String
  deriving DecidableEq, Repr

/-- The storage folder, as the host reports it. -/
structure Folder where
  /-- `fs.existsSync(this.tmpFolder)` -/
  present : Bool
  /-- the message of the error `fs.readdirSync` throws, if it does -/
  readdirError : Option String
  files : List StoredFile
  deriving DecidableEq, Repr

/-- `f.endsWith('.jpg')`. -/
def endsWithJpg (name : String) : Bool := (".jpg".toList).isSuffixOf name.toList

/-- The object returned by `getStorageStats`. -/
structure StorageStats where
  enabled : Bool
  folder : String
  totalFiles : Nat
  totalSize : Nat
  totalSizeMB : Option ℚ
  error : Option String
  deriving DecidableEq, Repr

/-- The `forEach` of `getStorageStats` (lines 94-98): the sum of the sizes, or the
message of the first error `statSync` throws. -/
def StorageService.sumSizes : List StoredFile → Except String Nat
  | [] => Except.ok 0
  | file :: rest =>
    match file.statError with
    | some e => Except.error e
    | none =>
      match StorageService.sumSizes rest with
      | Except.error e => Except.error e
      | Except.ok total => Except.ok (file.size + total)

/-- `getStorageStats` (lines 81-118). -/
def StorageService.getStorageStats (st : StorageService) (folder : Folder) : StorageStats :=
  if !st.saveImages || !folder.present then
    { enabled := false, folder := st.tmpFolder, totalFiles := 0, totalSize := 0
      totalSizeMB := none, error := none }
  else
    match folder.readdirError with
    | some e =>
      { enabled := false, folder := st.tmpFolder, totalFiles := 0, totalSize := 0
        totalSizeMB := none, error := some e }
    | none =>
      let files := folder.files.filter (fun f => endsWithJpg f.name)
      match StorageService.sumSizes files with
      | Except.error e =>
        { enabled := false, folder := st.tmpFolder, totalFiles := 0, totalSize := 0
          totalSizeMB := none, error := some e }
      | Except.ok totalSize =>
        { enabled := true, folder := st.tmpFolder, totalFiles := files.length
          totalSize := totalSize
          totalSizeMB := some ((mathRound ((totalSize : ℚ) / (1024 * 1024) * 100) : ℚ) / 100)
          error := none }

/-- The counters of `cleanupOldImages` and the files it has unlinked so far. -/
structure CleanupState where
  deleted : Nat
  errors : Nat
  unlinked : List StoredFile
  deriving DecidableEq, Repr

/-- One turn of the `for` loop of `cleanupOldImages` (lines 133-145). -/
def StorageService.sweepFile (now : Int) (maxAgeMs : ℚ) (acc : CleanupState)
    (file : StoredFile) : CleanupState :=
  match file.statError with
  | some _ => { acc with errors := acc.errors + 1 }
  | none =>
    if ((now - file.mtime : Int) : ℚ) > maxAgeMs then
      match file.unlinkError with
      | some _ => { acc with errors := acc.errors + 1 }
      | none => { acc with deleted := acc.deleted + 1, unlinked := acc.unlinked ++ [file] }
    else acc

/-- `cleanupOldImages` (lines 120-157): `now` is `Date.now()`; the result carries
the counters returned and the files removed from the folder. -/
def StorageService.cleanupOldImages (st : StorageService) (folder : Folder) (now : Int)
    (maxAgeHours : ℚ) : CleanupState :=
  if !st.saveImages || !folder.present then { deleted := 0, errors := 0, unlinked := [] }
  else
    let maxAgeMs := maxAgeHours * 60 * 60 * 1000
    match folder.readdirError with
    | some _ => { deleted := 0, errors := 1, unlinked := [] }
    | none =>
      let files := folder.files.filter (fun f => endsWithJpg f.name)
      files.foldl (StorageService.sweepFile now maxAgeMs)
        { deleted := 0, errors := 0, unlinked := [] }

/-- The folder after a cleanup: the files that were unlinked are gone. -/
def Folder.afterCleanup (folder : Folder) (res : CleanupState) : List StoredFile :=
  folder.files.filter (fun f => !res.unlinked.contains f)

/-- Whether the loop of `cleanupOldImages` removes the file: its `stat` succeeds, it
is older than the threshold and its `unlink` succeeds. -/
def StoredFile.isRemoved (now : Int) (maxAgeMs : ℚ) (file : StoredFile) : Bool :=
  file.statError.isNone && decide (((now - file.mtime : Int) : ℚ) > maxAgeMs)
    && file.unlinkError.isNone

/-- Whether `stat` or `unlink` fails on the file in the loop of `cleanupOldImages`;
`unlink` is called only on a file older than the threshold. -/
def StoredFile.isFailure (now : Int) (maxAgeMs : ℚ) (file : StoredFile) : Bool :=
  file.statError.isSome
    || (decide (((now - file.mtime : Int) : ℚ) > maxAgeMs) && file.unlinkError.isSome)

/-! ### JavaScript values and strings -/

/-- A JavaScript value as it arrives in a parsed request body; `undefined` is an
absent property, `object` stands for every object and array. -/
inductive JSValue where
  | undefined
  | null
  | boolean (b : Bool)
  | number (x : ℚ)
  | string (s : String)
  | object
  deriving DecidableEq, Repr

/-- Truthiness (`!value` is its negation). -/
def JSValue.truthy : JSValue → Bool
  | JSValue.undefined => false
  | JSValue.null => false
  | JSValue.boolean b => b
  | JSValue.number x => decide (x ≠ 0)
  | JSValue.string s => decide (s ≠ "")
  | JSValue.object => true

/-- The white space and line terminator characters that `trim` and `parseInt`
skip. -/
def jsWhitespace (c : Char) : Bool :=
  c.val.toNat ∈ [0x09, 0x0A, 0x0B, 0x0C, 0x0D, 0x20, 0xA0, 0x1680, 0x2000, 0x2001, 0x2002,
    0x2003, 0x2004, 0x2005, 0x2006, 0x2007, 0x2008, 0x2009, 0x200A, 0x2028, 0x2029, 0x202F,
    0x205F, 0x3000, 0xFEFF]

/-- `s.trim()`. -/
def jsTrim (s : String) : String :=
  String.mk ((s.toList.dropWhile jsWhitespace).rdropWhile jsWhitespace)

/-- The value of the character as a digit in the given radix (10 or 16), if it is
one. -/
def radixDigit (radix : Nat) (c : Char) : Option Nat :=
  if '0' ≤ c ∧ c ≤ '9' then some (c.toNat - 48)
  else if radix = 16 ∧ 'a' ≤ c ∧ c ≤ 'f' then some (c.toNat - 87)
  else if radix = 16 ∧ 'A' ≤ c ∧ c ≤ 'F' then some (c.toNat - 55)
  else none

/-- The number written by the longest run of digits at the head of the list; `seen`
tells whether a digit has been read, `acc` is the value so far. -/
def readDigits (radix : Nat) : List Char → Bool → Nat → Option Nat
  | [], seen, acc => if seen then some acc else none
  | c :: cs, seen, acc =>
    match radixDigit radix c with
    | some d => readDigits radix cs true (acc * radix + d)
    | none => if seen then some acc else none

/-- `parseInt(s)` without a radix argument: leading white space is skipped, a sign
is read, a prefix `0x` selects radix 16, and the longest run of digits is read;
without a digit the result is `NaN`, otherwise it is the number value of the
integer the digits denote, that is the nearest double.  Every digit counts, as in
V8 (the standard lets an implementation read the digits after the twentieth
significant one as zeros). -/
def jsParseInt (s : String) : JSNumber :=
  let body := s.toList.dropWhile jsWhitespace
  let negative := body.head? = some '-'
  let unsigned := if body.head? = some '-' ∨ body.head? = some '+' then body.tail else body
  let hex := unsigned.take 2 = ['0', 'x'] ∨ unsigned.take 2 = ['0', 'X']
  let magnitude :=
    if hex then readDigits 16 (unsigned.drop 2) false 0 else readDigits 10 unsigned false 0
  match magnitude with
  | none => JSNumber.nan
  | some m => JSNumber.round (if negative then -(m : Int) else (m : Int))

/-- The number a decimal numeral denotes, in the words of the specification: the
digits read from the left, each times the power of ten of its place. -/
def decimalValue (digits : List Char) : Nat :=
  digits.foldl (fun acc c => acc * 10 + (c.toNat - 48)) 0

/-- Whether the list is a decimal numeral: at least one character, all digits. -/
def isDecimalNumeral (digits : List Char) : Bool :=
  !digits.isEmpty && digits.all (fun c => decide ('0' ≤ c ∧ c ≤ '9'))

/-! ### `config/index.js`: the intervals -/

/-- `parseInt(process.env.X) || fallback`: `env` is the value of the variable, `none`
when it is not set (`parseInt(undefined)` is `NaN`); `NaN` and `0` are falsy. -/
def Config.intervalFromEnv (env : Option String) (fallback : JSNumber) : JSNumber :=
  match env with
  | none => fallback
  | some value => if (jsParseInt value).truthy then jsParseInt value else fallback

/-- The section `device` as `config/index.js` loads it: each interval is the number
that `parseInt` returned, or the default. -/
structure LoadedDeviceConfig where
  minInterval : JSNumber
  maxInterval : JSNumber
  deriving DecidableEq, Repr

/-- The section `device` of the configuration (lines 22-25), from the variables
`MIN_EVENT_INTERVAL` and `MAX_EVENT_INTERVAL`. -/
def Config.loadDevice (minEnv maxEnv : Option String) : LoadedDeviceConfig :=
  { minInterval := Config.intervalFromEnv minEnv (JSNumber.finite 3000)
    maxInterval := Config.intervalFromEnv maxEnv (JSNumber.finite 10000) }

/-! ### `controllers/DeviceController.js` -/

/-- The body of an HTTP answer of the controller. -/
inductive HttpBody where
  | error (error : String) (code : String)
  | reply (result : ServiceReply)
  | devices (devices : List DeviceId) (count : Nat)
  deriving DecidableEq, Repr

/-- An HTTP answer: status and JSON body. -/
structure HttpResponse where
  status : Nat
  body : HttpBody
  deriving DecidableEq, Repr

/-- `DeviceController.addDevice` (lines 6-40); `deviceId` is the property of that
name of `req.body`.  The answer and the service afterwards. -/
def DeviceController.addDevice (service : DeviceService) (deviceId : JSValue) :
    HttpResponse × DeviceService :=
  if !deviceId.truthy then
    ({ status := 400, body := HttpBody.error "deviceId is required" "MISSING_DEVICE_ID" }, service)
  else
    match deviceId with
    | JSValue.string s =>
      if (jsTrim s).length = 0 then
        ({ status := 400
           body := HttpBody.error "deviceId must be a non-empty string" "INVALID_DEVICE_ID" },
         service)
      else
        match DeviceService.addDevice service (jsTrim s) with
        | (Except.ok result, service2) => ({ status := 201, body := HttpBody.reply result }, service2)
        | (Except.error message, service2) =>
          if message = "Device already exists" then
            ({ status := 409, body := HttpBody.error message "DEVICE_EXISTS" }, service2)
          else
            ({ status := 500, body := HttpBody.error "Internal server error" "INTERNAL_ERROR" },
             service2)
    | _ =>
      ({ status := 400
         body := HttpBody.error "deviceId must be a non-empty string" "INVALID_DEVICE_ID" },
       service)

/-- `DeviceController.removeDevice` (lines 42-62); `deviceId` is the route
parameter. -/
def DeviceController.removeDevice (service : DeviceService) (deviceId : String) :
    HttpResponse × DeviceService :=
  match DeviceService.removeDevice service deviceId with
  | (Except.ok result, service2) => ({ status := 200, body := HttpBody.reply result }, service2)
  | (Except.error message, service2) =>
    if message = "Device not found" then
      ({ status := 404, body := HttpBody.error message "DEVICE_NOT_FOUND" }, service2)
    else
      ({ status := 500, body := HttpBody.error "Internal server error" "INTERNAL_ERROR" },
       service2)

/-- `DeviceController.getDevices` (lines 64-81), the time stamp of the answer left
out. -/
def DeviceController.getDevices (service : DeviceService) : HttpResponse :=
  { status := 200
    body := HttpBody.devices (DeviceService.getDevices service)
              (DeviceService.getDeviceCount service) }

/-! ### `scripts/manage-cameras.js`: `remove-all` -/

/-- A request sent by `makeRequest`: the method and the path after the server
address, which starts with `/api`. -/
structure HttpRequest where
  method : String
  path : String
  deriving DecidableEq, Repr

/-- The property `deviceId` of an element of the array `devices` of the answer to
`GET /api/devices`.  The elements are strings, and a string has no such property. -/
def stringProperty (_value : String) (_name : String) : JSValue := JSValue.undefined

/-- The text a value contributes to a template literal. -/
def JSValue.toTemplate : JSValue → String
  | JSValue.undefined => "undefined"
  | JSValue.null => "null"
  | JSValue.boolean b => if b then "true" else "false"
  | JSValue.number x => toString x
  | JSValue.string s => s
  | JSValue.object => "[object Object]"

/-- The server handles `DELETE /api/devices/<id>` (route of `routes/index.js`,
line 10). -/
def serveDelete (service : DeviceService) (id : String) : HttpResponse × DeviceService :=
  DeviceController.removeDevice service id

/-- `removeAllCameras` (lines 112-152) against a server whose registry is `service`:
the requests sent, oldest first, and the service afterwards. -/
def removeAllCameras (service : DeviceService) : List HttpRequest × DeviceService :=
  let listRequest : HttpRequest := { method := "GET", path := "/api" ++ "/devices" }
  let devices := DeviceService.getDevices service
  if devices.length = 0 then ([listRequest], service)
  else
    devices.foldl
      (fun (acc : List HttpRequest × DeviceService) device =>
        let id := (stringProperty device "deviceId").toTemplate
        (acc.1 ++ [{ method := "DELETE", path := "/api" ++ ("/devices/" ++ id) }],
         (serveDelete acc.2 id).2))
      ([listRequest], service)

/-! ### `scripts/update-kafka-retention.js` and `KafkaAdminService.timeToMs` -/

/-- `KafkaRetentionUpdater.timeToMs` (lines 11-27). -/
def KafkaRetentionUpdater.timeToMs (timeString : String) : Except String JSNumber :=
  let unit := (timeString.toList.getLast?).map Char.toLower
  let value := jsParseInt (String.mk timeString.toList.dropLast)
  if value.isNaN then
    Except.error "Invalid time format. Use format like \"2h\", \"30m\", \"3600s\""
  else if unit = some 's' then Except.ok (value.mul (JSNumber.finite 1000))
  else if unit = some 'm' then
    Except.ok ((value.mul (JSNumber.finite 60)).mul (JSNumber.finite 1000))
  else if unit = some 'h' then
    Except.ok (((value.mul (JSNumber.finite 60)).mul (JSNumber.finite 60)).mul
      (JSNumber.finite 1000))
  else if unit = some 'd' then
    Except.ok ((((value.mul (JSNumber.finite 24)).mul (JSNumber.finite 60)).mul
      (JSNumber.finite 60)).mul (JSNumber.finite 1000))
  else Except.error "Invalid time unit. Use s (seconds), m (minutes), h (hours), or d (days)"

/-- The conversion at the head of `updateRetention` (lines 35-46): the value of
`retentionMs` for the command line argument, or the error thrown. -/
def KafkaRetentionUpdater.retentionMs (retentionValue : String) : Except String JSNumber :=
  if retentionValue.toList.getLast? ∈ [some 's', some 'm', some 'h', some 'd'] then
    KafkaRetentionUpdater.timeToMs retentionValue
  else if (jsParseInt retentionValue).isNaN then
    Except.error "Invalid retention value. Use format like \"2h\", \"30m\" or raw milliseconds"
  else Except.ok (jsParseInt retentionValue)

/-- The table `timeUnits` of `KafkaAdminService.timeToMs`. -/
def KafkaAdminService.timeUnits (unit : Char) : Option Int :=
  if unit = 's' then some 1000
  else if unit = 'm' then some 60000
  else if unit = 'h' then some 3600000
  else if unit = 'd' then some 86400000
  else none

/-- `KafkaAdminService.timeToMs` (lines 126-141): the string must match
`/^(\d+)([smhd])$/`. -/
def KafkaAdminService.timeToMs (timeString : String) : Except String JSNumber :=
  match timeString.toList.getLast?.bind KafkaAdminService.timeUnits,
        isDecimalNumeral timeString.toList.dropLast with
  | some factor, true =>
    Except.ok ((jsParseInt (String.mk timeString.toList.dropLast)).mul (JSNumber.finite factor))
  | _, _ => Except.error "Invalid time format. Use format like: 1h, 30m, 60s, 1d"

/-! ## Theorems -/

/-- Adding a registered id throws and changes nothing. -/
theorem DeviceService.addDevice_present (s : DeviceService) (d : DeviceId)
    (h : JSSet.has s.devices d = true) :
    DeviceService.addDevice s d = (Except.error "Device already exists", s) := by
  unfold DeviceService.addDevice
  rw [if_pos h]

/-- Adding an unregistered id posts one `add-device` message and appends the id. -/
theorem DeviceService.addDevice_absent (s : DeviceService) (d : DeviceId)
    (h : JSSet.has s.devices d = false) :
    DeviceService.addDevice s d
      = (Except.ok { message := "Device added and event loop started", deviceId := d },
         { devices := s.devices ++ [d], posted := s.posted ++ [Command.addDevice d] }) := by
  have hc : s.devices.contains d = false := h
  unfold DeviceService.addDevice
  rw [if_neg (by simp [h])]
  simp only [JSSet.add, hc]
  rfl

/-- After `addDevice(d)` the id is registered, whatever the outcome. -/
theorem DeviceService.has_after_addDevice (s : DeviceService) (d : DeviceId) :
    JSSet.has (DeviceService.addDevice s d).2.devices d = true := by
  cases h : JSSet.has s.devices d
  · rw [DeviceService.addDevice_absent s d h]
    simp [JSSet.has]
  · rw [DeviceService.addDevice_present s d h]
    exact h

/-- C1: for every registry state and every device id `d`, the second of two
consecutive `addDevice(d)` calls throws `Device already exists` and leaves the
service exactly as the first call left it (no message posted, registry unchanged);
when `d` was not registered before the two calls, the registry size has grown by
exactly one across them. -/
theorem addDevice_twice_already_exists (s : DeviceService) (d : DeviceId) :
    (DeviceService.addDevice (DeviceService.addDevice s d).2 d).1
        = Except.error "Device already exists"
      ∧ (DeviceService.addDevice (DeviceService.addDevice s d).2 d).2
        = (DeviceService.addDevice s d).2
      ∧ (JSSet.has s.devices d = false →
          DeviceService.getDeviceCount (DeviceService.addDevice (DeviceService.addDevice s d).2 d).2
            = DeviceService.getDeviceCount s + 1) := by
  have h2 := DeviceService.addDevice_present _ d (DeviceService.has_after_addDevice s d)
  refine ⟨by rw [h2], by rw [h2], fun h => ?_⟩
  rw [h2, DeviceService.addDevice_absent s d h]
  simp [DeviceService.getDeviceCount]

/-- Witness for C1 on the empty registry and the id `CAM-1`. -/
theorem addDevice_twice_already_exists_witness :
    JSSet.has DeviceService.init.devices "CAM-1" = false
      ∧ DeviceService.getDeviceCount
          (DeviceService.addDevice (DeviceService.addDevice DeviceService.init "CAM-1").2 "CAM-1").2
        = DeviceService.getDeviceCount DeviceService.init + 1 :=
  ⟨by decide,
   (addDevice_twice_already_exists DeviceService.init "CAM-1").2.2 (by decide)⟩

/-- C2: for every registry state and every device id `d` that is not registered,
`removeDevice(d)` throws `Device not found`, posts no message to the worker and
leaves the device set unchanged. -/
theorem removeDevice_absent_not_found (s : DeviceService) (d : DeviceId)
    (h : JSSet.has s.devices d = false) :
    (DeviceService.removeDevice s d).1 = Except.error "Device not found"
      ∧ (DeviceService.removeDevice s d).2.posted = s.posted
      ∧ (DeviceService.removeDevice s d).2.devices = s.devices
      ∧ (DeviceService.removeDevice s d).2 = s := by
  simp [DeviceService.removeDevice, h]

/-- Witness for C2: removing `B` from a registry that holds only `A`. -/
theorem removeDevice_absent_not_found_witness :
    (DeviceService.removeDevice { devices := ["A"], posted := [Command.addDevice "A"] } "B").1
        = Except.error "Device not found"
      ∧ (DeviceService.removeDevice { devices := ["A"], posted := [Command.addDevice "A"] } "B").2.posted
        = [Command.addDevice "A"]
      ∧ (DeviceService.removeDevice { devices := ["A"], posted := [Command.addDevice "A"] } "B").2.devices
        = ["A"]
      ∧ (DeviceService.removeDevice { devices := ["A"], posted := [Command.addDevice "A"] } "B").2
        = { devices := ["A"], posted := [Command.addDevice "A"] } :=
  removeDevice_absent_not_found { devices := ["A"], posted := [Command.addDevice "A"] } "B"
    (by decide)

/-- The floor taken by `getRandomInterval` lies between `0` and `maxInterval - minInterval`. -/
theorem getRandomInterval_floor_bounds (config : Config) (r : ℚ)
    (hw : config.device.minInterval ≤ config.device.maxInterval) (h0 : 0 ≤ r) (h1 : r < 1) :
    0 ≤ ⌊r * (((config.device.maxInterval - config.device.minInterval + 1 : Int)) : ℚ)⌋
      ∧ ⌊r * (((config.device.maxInterval - config.device.minInterval + 1 : Int)) : ℚ)⌋
          ≤ config.device.maxInterval - config.device.minInterval := by
  have hn : (0 : ℚ) < (((config.device.maxInterval - config.device.minInterval + 1 : Int)) : ℚ) := by
    have : (0 : Int) < config.device.maxInterval - config.device.minInterval + 1 := by omega
    exact_mod_cast this
  constructor
  · exact Int.floor_nonneg.mpr (mul_nonneg h0 hn.le)
  · have hlt : r * (((config.device.maxInterval - config.device.minInterval + 1 : Int)) : ℚ)
        < (((config.device.maxInterval - config.device.minInterval + 1 : Int)) : ℚ) := by
      calc r * (((config.device.maxInterval - config.device.minInterval + 1 : Int)) : ℚ)
          < 1 * (((config.device.maxInterval - config.device.minInterval + 1 : Int)) : ℚ) :=
            mul_lt_mul_of_pos_right h1 hn
        _ = _ := one_mul _
    have := Int.floor_lt.mpr hlt
    omega

/-- C3: for every window of integers `minInterval ≤ maxInterval` and every draw
`r` in `[0,1)`, `getRandomInterval` returns an integer `d` with
`minInterval ≤ d ≤ maxInterval`; both ends are reached by some draw in `[0,1)`;
and when `minInterval = maxInterval` the delay is exactly that value. -/
theorem getRandomInterval_within_window (config : Config) (r : ℚ)
    (hw : config.device.minInterval ≤ config.device.maxInterval) (h0 : 0 ≤ r) (h1 : r < 1) :
    (config.device.minInterval ≤ getRandomInterval config r
        ∧ getRandomInterval config r ≤ config.device.maxInterval)
      ∧ (∃ r0 : ℚ, 0 ≤ r0 ∧ r0 < 1 ∧ getRandomInterval config r0 = config.device.minInterval)
      ∧ (∃ r1 : ℚ, 0 ≤ r1 ∧ r1 < 1 ∧ getRandomInterval config r1 = config.device.maxInterval)
      ∧ (config.device.minInterval = config.device.maxInterval →
          getRandomInterval config r = config.device.minInterval) := by
  have hb := getRandomInterval_floor_bounds config r hw h0 h1
  have hn : (0 : ℚ) < (((config.device.maxInterval - config.device.minInterval + 1 : Int)) : ℚ) := by
    have : (0 : Int) < config.device.maxInterval - config.device.minInterval + 1 := by omega
    exact_mod_cast this
  refine ⟨⟨?_, ?_⟩, ⟨0, le_refl 0, by norm_num, ?_⟩, ?_, ?_⟩
  · unfold getRandomInterval; omega
  · unfold getRandomInterval; omega
  · simp [getRandomInterval]
  · refine ⟨((config.device.maxInterval - config.device.minInterval : Int) : ℚ)
        / (((config.device.maxInterval - config.device.minInterval + 1 : Int)) : ℚ), ?_, ?_, ?_⟩
    · apply div_nonneg _ hn.le
      have : (0 : Int) ≤ config.device.maxInterval - config.device.minInterval := by omega
      exact_mod_cast this
    · rw [div_lt_one hn]
      have : config.device.maxInterval - config.device.minInterval
          < config.device.maxInterval - config.device.minInterval + 1 := by omega
      exact_mod_cast this
    · unfold getRandomInterval
      rw [div_mul_cancel₀ _ hn.ne', Int.floor_intCast]
      omega
  · intro he
    unfold getRandomInterval
    omega

/-- Witness for C3: the default window `[3000, 10000]` and the draw `1/2`. -/
theorem getRandomInterval_within_window_witness :
    ((3000 : Int) ≤ 10000 ∧ (0 : ℚ) ≤ 1 / 2 ∧ (1 / 2 : ℚ) < 1)
      ∧ (3000 ≤ getRandomInterval
            { kafka := { topic := "device-events", retentionMs := 3600000 },
              device := { minInterval := 3000, maxInterval := 10000 },
              storage := { saveImages := false, tmpFolder := "./tmp/images", timezone := "UTC" } }
            (1 / 2)
          ∧ getRandomInterval
            { kafka := { topic := "device-events", retentionMs := 3600000 },
              device := { minInterval := 3000, maxInterval := 10000 },
              storage := { saveImages := false, tmpFolder := "./tmp/images", timezone := "UTC" } }
            (1 / 2) ≤ 10000) :=
  ⟨⟨by decide, by norm_num, by norm_num⟩,
   (getRandomInterval_within_window
      { kafka := { topic := "device-events", retentionMs := 3600000 },
        device := { minInterval := 3000, maxInterval := 10000 },
        storage := { saveImages := false, tmpFolder := "./tmp/images", timezone := "UTC" } }
      (1 / 2) (by decide) (by norm_num) (by norm_num)).1⟩

/-! ### The worker: auxiliary facts -/

theorem Worker.resume_failed (config : Config) (w : Worker) (i : Nat) (t : Tick) (msg : String)
    (r : ℚ) (ht : w.ticks.find? (fun x => x.id == i) = some t) :
    Worker.resume config w i (Outcome.failed msg) r
      = Worker.reschedule config (Worker.post w (Report.error (some t.deviceId) msg))
          i t.deviceId r := by
  unfold Worker.resume
  rw [ht]
  rcases t with ⟨tid, d, st⟩
  cases st <;> rfl

theorem Worker.resume_ensuring_ok (config : Config) (w : Worker) (i : Nat) (t : Tick) (r : ℚ)
    (ht : w.ticks.find? (fun x => x.id == i) = some t) (hs : t.stage = Stage.ensuring) :
    Worker.resume config w i Outcome.ok r
      = Worker.setStage { w with connectCalls := w.connectCalls + 1 } i Stage.connecting := by
  unfold Worker.resume
  rw [ht]
  simp only [hs]

theorem Worker.resume_connecting_ok (config : Config) (w : Worker) (i : Nat) (t : Tick) (r : ℚ)
    (ht : w.ticks.find? (fun x => x.id == i) = some t) (hs : t.stage = Stage.connecting) :
    Worker.resume config w i Outcome.ok r
      = Worker.setStage { w with isConnected := true, producerConnected := true } i
          Stage.generating := by
  unfold Worker.resume
  rw [ht]
  simp only [hs]

theorem Worker.resume_generating_payload (config : Config) (w : Worker) (i : Nat) (t : Tick)
    (inp : PayloadInputs) (now : Nat) (r : ℚ)
    (ht : w.ticks.find? (fun x => x.id == i) = some t) (hs : t.stage = Stage.generating) :
    Worker.resume config w i (Outcome.payload inp now) r
      = Worker.setStage w i
          (Stage.sending (generateEventPayload config w.storage t.deviceId inp) now) := by
  unfold Worker.resume
  rw [ht]
  simp only [hs]

theorem Worker.resume_sending_ok (config : Config) (w : Worker) (i : Nat) (t : Tick)
    (p : EventPayload) (now : Nat) (r : ℚ)
    (ht : w.ticks.find? (fun x => x.id == i) = some t) (hs : t.stage = Stage.sending p now) :
    Worker.resume config w i Outcome.ok r
      = Worker.reschedule config
          (Worker.post { w with published := w.published ++ [brokerMessage config t.deviceId p now] }
            (Report.eventSent t.deviceId p.timestamp)) i t.deviceId r := by
  unfold Worker.resume
  rw [ht]
  simp only [hs]

/-- Overwriting the entries of key `k` leaves the lookup of another key as it was. -/
theorem JSMap.get_map_other (m : List (DeviceId × TimerId)) (k d : DeviceId) (v : TimerId)
    (hd : d ≠ k) :
    JSMap.get (m.map (fun e => if e.1 == k then (k, v) else e)) d = JSMap.get m d := by
  have hkd : (k == d) = false := by simpa using fun h : k = d => hd h.symm
  unfold JSMap.get
  induction m with
  | nil => rfl
  | cons e m ih =>
    cases hek : (e.1 == k)
    · cases hed : (e.1 == d)
      · simp only [List.map_cons, List.find?_cons, hek, hed, Bool.false_eq_true, if_false]
        exact ih
      · simp only [List.map_cons, List.find?_cons, hek, hed, Bool.false_eq_true, if_false]
    · have hed : (e.1 == d) = false := by
        have : e.1 = k := by simpa using hek
        rw [this]; exact hkd
      simp only [List.map_cons, List.find?_cons, hek, hed, hkd, if_true]
      exact ih

/-- Overwriting the entries of key `k` makes the lookup of `k` answer the new value,
when the key is there. -/
theorem JSMap.get_map_same (m : List (DeviceId × TimerId)) (k : DeviceId) (v : TimerId)
    (h : (m.any fun e => e.1 == k) = true) :
    JSMap.get (m.map (fun e => if e.1 == k then (k, v) else e)) k = some v := by
  unfold JSMap.get
  induction m with
  | nil => simp at h
  | cons e m ih =>
    cases hek : (e.1 == k)
    · have h2 : (m.any fun e => e.1 == k) = true := by
        simpa [List.any_cons, hek] using h
      simp only [List.map_cons, List.find?_cons, hek, Bool.false_eq_true, if_false]
      exact ih h2
    · simp only [List.map_cons, List.find?_cons, hek, if_true, beq_self_eq_true, Option.map_some']

/-- `get` after `set` on the same key. -/
theorem JSMap.get_set_same (m : List (DeviceId × TimerId)) (k : DeviceId) (v : TimerId) :
    JSMap.get (JSMap.set m k v) k = some v := by
  unfold JSMap.set
  split
  · next h => exact JSMap.get_map_same m k v h
  · next h =>
    have hnone : m.find? (fun e => e.1 == k) = none := by
      rw [List.find?_eq_none]
      intro x hx hxk
      exact h (List.any_eq_true.mpr ⟨x, hx, hxk⟩)
    simp [JSMap.get, List.find?_append, hnone]

/-- `get` after `set` on another key. -/
theorem JSMap.get_set_other (m : List (DeviceId × TimerId)) (k d : DeviceId) (v : TimerId)
    (hd : d ≠ k) : JSMap.get (JSMap.set m k v) d = JSMap.get m d := by
  have hkd : ¬ k = d := fun h => hd h.symm
  unfold JSMap.set
  split
  · exact JSMap.get_map_other m k d v hd
  · simp [JSMap.get, List.find?_append, hkd]

/-- A tick found by its id is still found after ticks with another id are dropped. -/
theorem Tick.find_filter_other (l : List Tick) (i j : Nat) (t : Tick) (hij : (j == i) = false)
    (h : l.find? (fun x => x.id == i) = some t) :
    (l.filter (fun x => x.id != j)).find? (fun x => x.id == i) = some t := by
  induction l with
  | nil => simp at h
  | cons a l ih =>
    rw [List.find?_cons] at h
    cases hai : (a.id == i)
    · rw [hai] at h
      simp only at h
      rw [List.filter_cons]
      split
      · rw [List.find?_cons, hai]
        exact ih h
      · exact ih h
    · rw [hai] at h
      simp only [Option.some.injEq] at h
      have haj : (a.id != j) = true := by
        have h1 : a.id = i := by simpa using hai
        have h2 : ¬ j = i := by simpa using hij
        simp only [bne_iff_ne, ne_eq, h1]
        exact fun h3 => h2 h3.symm
      rw [List.filter_cons, haj, if_pos rfl, List.find?_cons, hai, h]

/-- A tick found by its id is still found after the stage of another tick is replaced. -/
theorem Tick.find_map_other (l : List Tick) (i j : Nat) (t : Tick) (s : Stage)
    (hij : (j == i) = false) (h : l.find? (fun x => x.id == i) = some t) :
    (l.map (fun x => if x.id == j then { x with stage := s } else x)).find? (fun x => x.id == i)
      = some t := by
  induction l with
  | nil => simp at h
  | cons a l ih =>
    rw [List.find?_cons] at h
    cases hai : (a.id == i)
    · rw [hai] at h
      simp only at h
      rw [List.map_cons, List.find?_cons]
      have : ((if a.id == j then { a with stage := s } else a).id == i) = false := by
        split <;> exact hai
      rw [this]
      exact ih h
    · rw [hai] at h
      simp only [Option.some.injEq] at h
      have haj : (a.id == j) = false := by
        have h1 : a.id = i := by simpa using hai
        have h2 : ¬ j = i := by simpa using hij
        simp only [beq_eq_false_iff_ne, ne_eq, h1]
        exact fun h3 => h2 h3.symm
      subst h
      rw [List.map_cons, List.find?_cons, haj]
      simp only [Bool.false_eq_true, if_false, hai]

/-- Replacing the stage of the tick `i` shows in the tick found by that id. -/
theorem Tick.find_map_same (l : List Tick) (i : Nat) (t : Tick) (s : Stage)
    (h : l.find? (fun x => x.id == i) = some t) :
    (l.map (fun x => if x.id == i then { x with stage := s } else x)).find? (fun x => x.id == i)
      = some { t with stage := s } := by
  induction l with
  | nil => simp at h
  | cons a l ih =>
    rw [List.find?_cons] at h
    cases hai : (a.id == i)
    · rw [hai] at h
      simp only at h
      rw [List.map_cons, List.find?_cons]
      simp only [hai, Bool.false_eq_true, if_false]
      exact ih h
    · rw [hai] at h
      simp only [Option.some.injEq] at h
      subst h
      rw [List.map_cons, List.find?_cons]
      simp only [hai, if_true]

/-- A tick found by its id is still found after a tick is appended. -/
theorem Tick.find_append (l l2 : List Tick) (i : Nat) (t : Tick)
    (h : l.find? (fun x => x.id == i) = some t) :
    (l ++ l2).find? (fun x => x.id == i) = some t := by
  rw [List.find?_append, h]
  rfl

/-- `beginTick` keeps the ticks already in flight. -/
theorem Worker.beginTick_keeps_tick (w : Worker) (d : DeviceId) (i : Nat) (t : Tick)
    (h : w.ticks.find? (fun x => x.id == i) = some t) :
    (Worker.beginTick w d).ticks.find? (fun x => x.id == i) = some t := by
  unfold Worker.beginTick
  split <;> exact Tick.find_append _ _ i t h

/-- A turn that is not a settling of tick `i` leaves that tick as it is. -/
theorem Worker.step_keeps_tick (config : Config) (w : Worker) (e : Event) (i : Nat) (t : Tick)
    (he : e.resumes i = false) (h : w.ticks.find? (fun x => x.id == i) = some t) :
    (Worker.step config w e).ticks.find? (fun x => x.id == i) = some t := by
  cases e with
  | message m =>
    cases m with
    | addDevice d =>
      simp only [Worker.step, Worker.onMessage, Worker.startDeviceLoop]
      split
      · exact h
      · exact Worker.beginTick_keeps_tick w d i t h
    | removeDevice d =>
      simp only [Worker.step, Worker.onMessage, Worker.stopDeviceLoop, Worker.post]
      split <;> exact h
    | other ty => exact h
  | fire k =>
    simp only [Worker.step, Worker.fire]
    split
    · exact h
    · exact Worker.beginTick_keeps_tick _ _ i t h
  | resume j res r =>
    have hji : (j == i) = false := he
    simp only [Worker.step, Worker.resume]
    split
    · exact h
    · split
      · exact Tick.find_filter_other _ i j t hji h
      · exact Tick.find_map_other _ i j t _ hji h
      · exact Tick.find_map_other _ i j t _ hji h
      · exact Tick.find_map_other _ i j t _ hji h
      · exact Tick.find_filter_other _ i j t hji h
      · exact h

/-- A sequence of turns none of which settles tick `i` leaves that tick as it is. -/
theorem Worker.run_keeps_tick (config : Config) (es : List Event) (w : Worker) (i : Nat) (t : Tick)
    (hes : ∀ e ∈ es, e.resumes i = false) (h : w.ticks.find? (fun x => x.id == i) = some t) :
    (Worker.run config w es).ticks.find? (fun x => x.id == i) = some t := by
  induction es generalizing w with
  | nil => exact h
  | cons e es ih =>
    have he : e.resumes i = false := hes e (List.mem_cons_self e es)
    have hes2 : ∀ x ∈ es, x.resumes i = false := fun x hx => hes x (List.mem_cons_of_mem e hx)
    exact ih (Worker.step config w e) hes2 (Worker.step_keeps_tick config w e i t he h)

/-- The storage service of the worker never changes. -/
theorem Worker.step_storage (config : Config) (w : Worker) (e : Event) :
    (Worker.step config w e).storage = w.storage := by
  cases e with
  | message m =>
    cases m with
    | addDevice d =>
      simp only [Worker.step, Worker.onMessage, Worker.startDeviceLoop, Worker.beginTick]
      split
      · rfl
      · split <;> rfl
    | removeDevice d =>
      simp only [Worker.step, Worker.onMessage, Worker.stopDeviceLoop, Worker.post]
      split <;> rfl
    | other ty => rfl
  | fire k =>
    simp only [Worker.step, Worker.fire, Worker.beginTick]
    split
    · rfl
    · split <;> rfl
  | resume j res r =>
    simp only [Worker.step, Worker.resume]
    split
    · rfl
    · split <;> rfl

/-- The storage service of the worker never changes along a run. -/
theorem Worker.run_storage (config : Config) (es : List Event) (w : Worker) :
    (Worker.run config w es).storage = w.storage := by
  induction es generalizing w with
  | nil => rfl
  | cons e es ih =>
    exact (ih (Worker.step config w e)).trans (Worker.step_storage config w e)

/-- Running two sequences of turns one after the other. -/
theorem Worker.run_append (config : Config) (w : Worker) (es fs : List Event) :
    Worker.run config w (es ++ fs) = Worker.run config (Worker.run config w es) fs := by
  simp [Worker.run, List.foldl_append]

/-- Running one turn. -/
theorem Worker.run_single (config : Config) (w : Worker) (e : Event) :
    Worker.run config w [e] = Worker.step config w e := rfl

/-- The topic check of a tick resolves: nothing is posted or published and the tick
waits for the connect. -/
theorem Worker.ensure_ok_silent (config : Config) (w : Worker) (i : Nat) (t : Tick) (r : ℚ)
    (ht : w.ticks.find? (fun x => x.id == i) = some t) (hs : t.stage = Stage.ensuring) :
    (Worker.step config w (Event.resume i Outcome.ok r)).published = w.published
      ∧ (Worker.step config w (Event.resume i Outcome.ok r)).reports = w.reports
      ∧ (Worker.step config w (Event.resume i Outcome.ok r)).ticks.find? (fun x => x.id == i)
          = some { t with stage := Stage.connecting } := by
  have h := Worker.resume_ensuring_ok config w i t r ht hs
  rw [show Worker.step config w (Event.resume i _ r) = _ from h]
  exact ⟨rfl, rfl, Tick.find_map_same _ i t _ ht⟩

/-- The connect of a tick resolves: nothing is posted or published and the tick
waits for its payload. -/
theorem Worker.connect_ok_silent (config : Config) (w : Worker) (i : Nat) (t : Tick) (r : ℚ)
    (ht : w.ticks.find? (fun x => x.id == i) = some t) (hs : t.stage = Stage.connecting) :
    (Worker.step config w (Event.resume i Outcome.ok r)).published = w.published
      ∧ (Worker.step config w (Event.resume i Outcome.ok r)).reports = w.reports
      ∧ (Worker.step config w (Event.resume i Outcome.ok r)).ticks.find? (fun x => x.id == i)
          = some { t with stage := Stage.generating } := by
  have h := Worker.resume_connecting_ok config w i t r ht hs
  rw [show Worker.step config w (Event.resume i _ r) = _ from h]
  exact ⟨rfl, rfl, Tick.find_map_same _ i t _ ht⟩

/-- The payload of a tick is built: nothing is posted or published yet and the tick
waits for the send of that payload. -/
theorem Worker.payload_silent (config : Config) (w : Worker) (i : Nat) (t : Tick)
    (inp : PayloadInputs) (now : Nat) (r : ℚ)
    (ht : w.ticks.find? (fun x => x.id == i) = some t) (hs : t.stage = Stage.generating) :
    (Worker.step config w (Event.resume i (Outcome.payload inp now) r)).published = w.published
      ∧ (Worker.step config w (Event.resume i (Outcome.payload inp now) r)).reports = w.reports
      ∧ (Worker.step config w (Event.resume i (Outcome.payload inp now) r)).ticks.find?
            (fun x => x.id == i)
          = some { t with stage :=
              Stage.sending (generateEventPayload config w.storage t.deviceId inp) now } := by
  have h := Worker.resume_generating_payload config w i t inp now r ht hs
  rw [show Worker.step config w (Event.resume i _ r) = _ from h]
  exact ⟨rfl, rfl, Tick.find_map_same _ i t _ ht⟩

/-- The send of a tick resolves: one message is published and one `event-sent`
report is posted. -/
theorem Worker.send_ok_outputs (config : Config) (w : Worker) (i : Nat) (t : Tick)
    (p : EventPayload) (now : Nat) (r : ℚ)
    (ht : w.ticks.find? (fun x => x.id == i) = some t) (hs : t.stage = Stage.sending p now) :
    (Worker.step config w (Event.resume i Outcome.ok r)).published
        = w.published ++ [brokerMessage config t.deviceId p now]
      ∧ (Worker.step config w (Event.resume i Outcome.ok r)).reports
        = w.reports ++ [Report.eventSent t.deviceId p.timestamp] := by
  have h := Worker.resume_sending_ok config w i t p now r ht hs
  rw [show Worker.step config w (Event.resume i _ r) = _ from h]
  exact ⟨rfl, rfl⟩

/-- A tick that waits for its payload, gets it, and whose send then resolves (other
turns `es` in between): the payload step is silent and the send step publishes one
message and posts one `event-sent` report. -/
theorem Worker.tick_from_payload (config : Config) (w : Worker) (i : Nat) (t : Tick)
    (inp : PayloadInputs) (now : Nat) (r3 r4 : ℚ) (es : List Event)
    (ht : w.ticks.find? (fun x => x.id == i) = some t) (hs : t.stage = Stage.generating)
    (hes : ∀ e ∈ es, e.resumes i = false) :
    (Worker.run config w [Event.resume i (Outcome.payload inp now) r3]).published = w.published
      ∧ (Worker.run config w [Event.resume i (Outcome.payload inp now) r3]).reports = w.reports
      ∧ (Worker.run config w
            ([Event.resume i (Outcome.payload inp now) r3] ++ es
              ++ [Event.resume i Outcome.ok r4])).published
          = (Worker.run config w ([Event.resume i (Outcome.payload inp now) r3] ++ es)).published
            ++ [brokerMessage config t.deviceId
                  (generateEventPayload config w.storage t.deviceId inp) now]
      ∧ (Worker.run config w
            ([Event.resume i (Outcome.payload inp now) r3] ++ es
              ++ [Event.resume i Outcome.ok r4])).reports
          = (Worker.run config w ([Event.resume i (Outcome.payload inp now) r3] ++ es)).reports
            ++ [Report.eventSent t.deviceId inp.timestamp] := by
  obtain ⟨hp, hr, hf⟩ := Worker.payload_silent config w i t inp now r3 ht hs
  have hf2 := Worker.run_keeps_tick config es _ i _ hes hf
  have hsend := Worker.send_ok_outputs config
    (Worker.run config (Worker.step config w (Event.resume i (Outcome.payload inp now) r3)) es)
    i _ (generateEventPayload config w.storage t.deviceId inp) now r4 hf2 rfl
  rw [Worker.run_single, Worker.run_append, Worker.run_append, Worker.run_single,
    Worker.run_single]
  exact ⟨hp, hr, hsend.1, hsend.2⟩

/-! ### The worker: the claims -/

/-- C4: the registrar calls `addDevice("A")`, `removeDevice("A")`, `addDevice("A")`
post the three commands to the worker; handled while the first tick of `A` still
waits for the topic check, they leave two ticks of `A` in flight (the map being
empty, the removal finds nothing and the second add starts a second loop); once
both ticks have ended two timers of `A` are pending and the device map holds the
handle of the second only. -/
theorem readd_during_first_tick_runs_two_loops :
    (DeviceService.addDevice
        (DeviceService.removeDevice (DeviceService.addDevice DeviceService.init "A").2 "A").2
        "A").2.posted
        = [Command.addDevice "A", Command.removeDevice "A", Command.addDevice "A"]
      ∧ (Worker.run sampleConfig sampleWorker
          [Event.message (Command.addDevice "A"), Event.message (Command.removeDevice "A"),
           Event.message (Command.addDevice "A")]).liveLoops "A" = 2
      ∧ (Worker.run sampleConfig sampleWorker
          [Event.message (Command.addDevice "A"), Event.message (Command.removeDevice "A"),
           Event.message (Command.addDevice "A")]).devices = []
      ∧ (Worker.run sampleConfig sampleWorker
          ([Event.message (Command.addDevice "A"), Event.message (Command.removeDevice "A"),
            Event.message (Command.addDevice "A")]
            ++ firstTickSucceeds 0 ++ firstTickSucceeds 1)).ticks = []
      ∧ (Worker.run sampleConfig sampleWorker
          ([Event.message (Command.addDevice "A"), Event.message (Command.removeDevice "A"),
            Event.message (Command.addDevice "A")]
            ++ firstTickSucceeds 0 ++ firstTickSucceeds 1)).timers.map (fun t => (t.id, t.deviceId))
          = [(0, "A"), (1, "A")]
      ∧ (Worker.run sampleConfig sampleWorker
          ([Event.message (Command.addDevice "A"), Event.message (Command.removeDevice "A"),
            Event.message (Command.addDevice "A")]
            ++ firstTickSucceeds 0 ++ firstTickSucceeds 1)).devices = [("A", 1)] := by
  decide

/-- C5: the registrar calls `addDevice("A")` and later `removeDevice("A")`, which
posts the two commands.  The first tick of `A` completes; its timer fires and,
while that second tick waits for its send, `remove-device A` is handled (the
worker answers `device-removed` with success); the tick in flight then completes.
At that point a timer of `A` is pending again and `A` is back in the device map;
when the timer fires a third tick of `A` starts, and it reports `event-sent`. -/
theorem removal_during_tick_does_not_stop_loop :
    (DeviceService.removeDevice (DeviceService.addDevice DeviceService.init "A").2 "A").2.posted
        = [Command.addDevice "A", Command.removeDevice "A"]
      ∧ (Worker.run sampleConfig sampleWorker
        ([Event.message (Command.addDevice "A")] ++ firstTickSucceeds 0
          ++ [Event.fire 0,
              Event.resume 1 (Outcome.payload sampleInputs 1714557605000) 0,
              Event.message (Command.removeDevice "A")])).devices = []
      ∧ (Worker.run sampleConfig sampleWorker
        ([Event.message (Command.addDevice "A")] ++ firstTickSucceeds 0
          ++ [Event.fire 0,
              Event.resume 1 (Outcome.payload sampleInputs 1714557605000) 0,
              Event.message (Command.removeDevice "A"),
              Event.resume 1 Outcome.ok (1 / 2)])).reports
        = [Report.eventSent "A" "2024-05-01T10:00:00.000Z", Report.deviceRemoved "A" true,
           Report.eventSent "A" "2024-05-01T10:00:00.000Z"]
      ∧ (Worker.run sampleConfig sampleWorker
        ([Event.message (Command.addDevice "A")] ++ firstTickSucceeds 0
          ++ [Event.fire 0,
              Event.resume 1 (Outcome.payload sampleInputs 1714557605000) 0,
              Event.message (Command.removeDevice "A"),
              Event.resume 1 Outcome.ok (1 / 2)])).ticks = []
      ∧ (Worker.run sampleConfig sampleWorker
        ([Event.message (Command.addDevice "A")] ++ firstTickSucceeds 0
          ++ [Event.fire 0,
              Event.resume 1 (Outcome.payload sampleInputs 1714557605000) 0,
              Event.message (Command.removeDevice "A"),
              Event.resume 1 Outcome.ok (1 / 2)])).timers.map (fun t => (t.id, t.deviceId))
        = [(1, "A")]
      ∧ (Worker.run sampleConfig sampleWorker
        ([Event.message (Command.addDevice "A")] ++ firstTickSucceeds 0
          ++ [Event.fire 0,
              Event.resume 1 (Outcome.payload sampleInputs 1714557605000) 0,
              Event.message (Command.removeDevice "A"),
              Event.resume 1 Outcome.ok (1 / 2)])).devices = [("A", 1)]
      ∧ (Worker.run sampleConfig sampleWorker
        ([Event.message (Command.addDevice "A")] ++ firstTickSucceeds 0
          ++ [Event.fire 0,
              Event.resume 1 (Outcome.payload sampleInputs 1714557605000) 0,
              Event.message (Command.removeDevice "A"),
              Event.resume 1 Outcome.ok (1 / 2),
              Event.fire 1])).ticks
        = [{ id := 2, deviceId := "A", stage := Stage.generating }]
      ∧ (Worker.run sampleConfig sampleWorker
        ([Event.message (Command.addDevice "A")] ++ firstTickSucceeds 0
          ++ [Event.fire 0,
              Event.resume 1 (Outcome.payload sampleInputs 1714557605000) 0,
              Event.message (Command.removeDevice "A"),
              Event.resume 1 Outcome.ok (1 / 2),
              Event.fire 1]
          ++ laterTickSucceeds 2 "2024-05-01T10:00:12.000Z")).reports
        = [Report.eventSent "A" "2024-05-01T10:00:00.000Z", Report.deviceRemoved "A" true,
           Report.eventSent "A" "2024-05-01T10:00:00.000Z",
           Report.eventSent "A" "2024-05-01T10:00:12.000Z"] := by
  decide

/-- Counterexample to C6: with image saving on, the file write of the first tick of
`A` fails; `saveImageFromBase64` returns `null`, and the tick publishes its event
with `image.saved = null` and reports `event-sent`, not `error`. -/
theorem failed_write_is_not_reported :
    sampleConfig.storage.saveImages = true
      ∧ failedWriteInputs.save.writeFile = Except.error "ENOSPC: no space left on device"
      ∧ StorageService.saveImageFromBase64 sampleWorker.storage failedWriteInputs.save "A"
          failedWriteInputs.imageData.position = none
      ∧ (Worker.run sampleConfig sampleWorker
          [Event.message (Command.addDevice "A"), Event.resume 0 Outcome.ok 0,
           Event.resume 0 Outcome.ok 0,
           Event.resume 0 (Outcome.payload failedWriteInputs 1714557600000) 0,
           Event.resume 0 Outcome.ok (1 / 2)]).reports
        = [Report.eventSent "A" "2024-05-01T10:00:00.000Z"]
      ∧ (Worker.run sampleConfig sampleWorker
          [Event.message (Command.addDevice "A"), Event.resume 0 Outcome.ok 0,
           Event.resume 0 Outcome.ok 0,
           Event.resume 0 (Outcome.payload failedWriteInputs 1714557600000) 0,
           Event.resume 0 Outcome.ok (1 / 2)]).published.map
            (fun m => match m.value with | JsonString.stringify p => (p.deviceId, p.image.saved))
        = [("A", none)] := by
  decide

/-- C6 (amended): for every tick in flight, of device `t.deviceId`, and every failure
raised into it by the awaited call (the topic check, the connect, the image
generation or the publish, according to the stage of the tick), the tick posts
exactly one report `error` with that device id and the message, and no
`event-sent` report; nothing is published; the next tick of the device is
scheduled with the delay `getRandomInterval` draws; the device map now holds that
timer for the device and the entry of every other device is unchanged.  A failed
write or `stat` raises nothing into the tick: the save returns `null`. -/
theorem tick_failure_reported_and_rescheduled (config : Config) (w : Worker) (i : Nat) (t : Tick)
    (msg : String) (r : ℚ) (ht : w.ticks.find? (fun x => x.id == i) = some t) :
    (Worker.step config w (Event.resume i (Outcome.failed msg) r)).reports
        = w.reports ++ [Report.error (some t.deviceId) msg]
      ∧ (Worker.step config w (Event.resume i (Outcome.failed msg) r)).published = w.published
      ∧ (Worker.step config w (Event.resume i (Outcome.failed msg) r)).timers
        = w.timers ++ [{ id := w.nextTimer, deviceId := t.deviceId,
                         delay := getRandomInterval config r }]
      ∧ JSMap.get (Worker.step config w (Event.resume i (Outcome.failed msg) r)).devices t.deviceId
        = some w.nextTimer
      ∧ (∀ d : DeviceId, d ≠ t.deviceId →
          JSMap.get (Worker.step config w (Event.resume i (Outcome.failed msg) r)).devices d
            = JSMap.get w.devices d)
      ∧ (∀ (st : StorageService) (fs : SaveOutcome) (d pos : String),
          (fs.writeFile ≠ Except.ok () ∨ ∀ n, fs.stat ≠ Except.ok n) →
            StorageService.saveImageFromBase64 st fs d pos = none) := by
  rw [show Worker.step config w (Event.resume i (Outcome.failed msg) r) = _ from
    Worker.resume_failed config w i t msg r ht]
  refine ⟨rfl, rfl, rfl, ?_, ?_, ?_⟩
  · exact JSMap.get_set_same _ _ _
  · intro d hd
    exact JSMap.get_set_other _ _ _ _ hd
  · intro st fs d pos h
    unfold StorageService.saveImageFromBase64 StorageService.saveImage
    cases hw : fs.writeFile with
    | error e => simp
    | ok u =>
      cases hs : fs.stat with
      | error e => simp
      | ok n =>
        rcases h with h | h
        · exact absurd hw h
        · exact absurd hs (h n)

/-- Witness for C6: the connect of the first tick of `A` fails. -/
theorem tick_failure_reported_and_rescheduled_witness :
    (Worker.step sampleConfig
        (Worker.run sampleConfig sampleWorker
          [Event.message (Command.addDevice "A"), Event.message (Command.addDevice "B"),
           Event.resume 0 Outcome.ok 0])
        (Event.resume 0 (Outcome.failed "Connection timeout") (1 / 2))).reports
      = (Worker.run sampleConfig sampleWorker
          [Event.message (Command.addDevice "A"), Event.message (Command.addDevice "B"),
           Event.resume 0 Outcome.ok 0]).reports
        ++ [Report.error (some "A") "Connection timeout"] :=
  (tick_failure_reported_and_rescheduled sampleConfig
    (Worker.run sampleConfig sampleWorker
      [Event.message (Command.addDevice "A"), Event.message (Command.addDevice "B"),
       Event.resume 0 Outcome.ok 0])
    0 { id := 0, deviceId := "A", stage := Stage.connecting } "Connection timeout" (1 / 2)
    (by decide)).1

/-- C7: a tick of device `t.deviceId` in which every awaited call succeeds, other
turns of the worker (`es1`, `es2`, `es3`) running in between.  Whether the tick
starts at the payload (worker connected) or at the topic check, each of its steps
before the send resolves posts and publishes nothing, and the resolution of the
send publishes exactly one message and then posts exactly one report: the message
goes to the configured topic, its key is the device id and its value is the JSON
text of the payload built for that device id; the report is `event-sent` with that
device id and the time stamp of the payload.  No `error` report is posted by the
tick. -/
theorem successful_tick_publishes_once (config : Config) (w : Worker) (i : Nat) (t : Tick)
    (inp : PayloadInputs) (now : Nat) (r1 r2 r3 r4 : ℚ) (es1 es2 es3 : List Event)
    (ht : w.ticks.find? (fun x => x.id == i) = some t)
    (h1 : ∀ e ∈ es1, e.resumes i = false) (h2 : ∀ e ∈ es2, e.resumes i = false)
    (h3 : ∀ e ∈ es3, e.resumes i = false) :
    ((Worker.messageOf config w t.deviceId inp now).topic = config.kafka.topic
      ∧ (Worker.messageOf config w t.deviceId inp now).key = t.deviceId
      ∧ (Worker.messageOf config w t.deviceId inp now).value
          = JsonString.stringify (generateEventPayload config w.storage t.deviceId inp)
      ∧ (generateEventPayload config w.storage t.deviceId inp).deviceId = t.deviceId
      ∧ (generateEventPayload config w.storage t.deviceId inp).timestamp = inp.timestamp)
    ∧ (t.stage = Stage.generating →
        Worker.sameOutputs
            (Worker.run config w [Event.resume i (Outcome.payload inp now) r3]) w
          ∧ (Worker.run config w
                ([Event.resume i (Outcome.payload inp now) r3] ++ es3
                  ++ [Event.resume i Outcome.ok r4])).published
              = (Worker.run config w
                  ([Event.resume i (Outcome.payload inp now) r3] ++ es3)).published
                ++ [Worker.messageOf config w t.deviceId inp now]
          ∧ (Worker.run config w
                ([Event.resume i (Outcome.payload inp now) r3] ++ es3
                  ++ [Event.resume i Outcome.ok r4])).reports
              = (Worker.run config w
                  ([Event.resume i (Outcome.payload inp now) r3] ++ es3)).reports
                ++ [Report.eventSent t.deviceId inp.timestamp])
    ∧ (t.stage = Stage.ensuring →
        Worker.sameOutputs (Worker.run config w [Event.resume i Outcome.ok r1]) w
          ∧ Worker.sameOutputs
              (Worker.run config w
                ([Event.resume i Outcome.ok r1] ++ es1 ++ [Event.resume i Outcome.ok r2]))
              (Worker.run config w ([Event.resume i Outcome.ok r1] ++ es1))
          ∧ Worker.sameOutputs
              (Worker.run config w
                ([Event.resume i Outcome.ok r1] ++ es1 ++ [Event.resume i Outcome.ok r2] ++ es2
                  ++ [Event.resume i (Outcome.payload inp now) r3]))
              (Worker.run config w
                ([Event.resume i Outcome.ok r1] ++ es1 ++ [Event.resume i Outcome.ok r2] ++ es2))
          ∧ (Worker.run config w
                ([Event.resume i Outcome.ok r1] ++ es1 ++ [Event.resume i Outcome.ok r2] ++ es2
                  ++ [Event.resume i (Outcome.payload inp now) r3] ++ es3
                  ++ [Event.resume i Outcome.ok r4])).published
              = (Worker.run config w
                  ([Event.resume i Outcome.ok r1] ++ es1 ++ [Event.resume i Outcome.ok r2] ++ es2
                    ++ [Event.resume i (Outcome.payload inp now) r3] ++ es3)).published
                ++ [Worker.messageOf config w t.deviceId inp now]
          ∧ (Worker.run config w
                ([Event.resume i Outcome.ok r1] ++ es1 ++ [Event.resume i Outcome.ok r2] ++ es2
                  ++ [Event.resume i (Outcome.payload inp now) r3] ++ es3
                  ++ [Event.resume i Outcome.ok r4])).reports
              = (Worker.run config w
                  ([Event.resume i Outcome.ok r1] ++ es1 ++ [Event.resume i Outcome.ok r2] ++ es2
                    ++ [Event.resume i (Outcome.payload inp now) r3] ++ es3)).reports
                ++ [Report.eventSent t.deviceId inp.timestamp]) := by
  refine ⟨⟨rfl, rfl, rfl, rfl, rfl⟩, ?_, ?_⟩
  · intro hs
    obtain ⟨a, b, c, d⟩ := Worker.tick_from_payload config w i t inp now r3 r4 es3 ht hs h3
    exact ⟨⟨a, b⟩, c, d⟩
  · intro hs
    obtain ⟨p1, q1, f1⟩ := Worker.ensure_ok_silent config w i t r1 ht hs
    have g1 := Worker.run_keeps_tick config es1 _ i _ h1 f1
    obtain ⟨p2, q2, f2⟩ := Worker.connect_ok_silent config _ i _ r2 g1 rfl
    have g2 := Worker.run_keeps_tick config es2 _ i _ h2 f2
    obtain ⟨a, b, c, d⟩ := Worker.tick_from_payload config _ i _ inp now r3 r4 es3 g2 rfl h3
    have hst : (Worker.run config (Worker.step config (Worker.run config
        (Worker.step config w (Event.resume i Outcome.ok r1)) es1)
        (Event.resume i Outcome.ok r2)) es2).storage = w.storage := by
      rw [Worker.run_storage, Worker.step_storage, Worker.run_storage, Worker.step_storage]
    rw [hst] at c
    simp only [Worker.run_append, Worker.run_single] at a b c d ⊢
    exact ⟨⟨p1, q1⟩, ⟨p2, q2⟩, ⟨a, b⟩, c, d⟩

/-- Witness for C7: the first tick of `A`, started while the worker is not connected,
with the arrival of `B` between its topic check and its connect. -/
theorem successful_tick_publishes_once_witness :
    (Worker.run sampleConfig
        (Worker.run sampleConfig sampleWorker [Event.message (Command.addDevice "A")])
        ([Event.resume 0 Outcome.ok 0] ++ [Event.message (Command.addDevice "B")]
          ++ [Event.resume 0 Outcome.ok 0] ++ []
          ++ [Event.resume 0 (Outcome.payload sampleInputs 1714557600000) 0]
          ++ [Event.resume 1 Outcome.ok 0]
          ++ [Event.resume 0 Outcome.ok (1 / 2)])).reports
      = (Worker.run sampleConfig
          (Worker.run sampleConfig sampleWorker [Event.message (Command.addDevice "A")])
          ([Event.resume 0 Outcome.ok 0] ++ [Event.message (Command.addDevice "B")]
            ++ [Event.resume 0 Outcome.ok 0] ++ []
            ++ [Event.resume 0 (Outcome.payload sampleInputs 1714557600000) 0]
            ++ [Event.resume 1 Outcome.ok 0])).reports
        ++ [Report.eventSent "A" "2024-05-01T10:00:00.000Z"] :=
  ((successful_tick_publishes_once sampleConfig
      (Worker.run sampleConfig sampleWorker [Event.message (Command.addDevice "A")])
      0 { id := 0, deviceId := "A", stage := Stage.ensuring } sampleInputs 1714557600000
      0 0 0 (1 / 2)
      [Event.message (Command.addDevice "B")] [] [Event.resume 1 Outcome.ok 0]
      (by decide) (by decide) (by decide) (by decide)).2.2 rfl).2.2.2.2

/-- C8: in every worker state `shutdown` throws `deviceLoops is not defined` at its
first statement and changes nothing; on the worker that has device `A` registered
with a pending timer and a connected producer, the timer stays pending, the device
map stays non-empty and the producer stays connected. -/
theorem shutdown_throws_before_cancelling :
    (∀ w : Worker, Worker.shutdown w = (Except.error "deviceLoops is not defined", w))
      ∧ (Worker.shutdown (Worker.run sampleConfig sampleWorker
            ([Event.message (Command.addDevice "A")] ++ firstTickSucceeds 0))).1
          = Except.error "deviceLoops is not defined"
      ∧ (Worker.shutdown (Worker.run sampleConfig sampleWorker
            ([Event.message (Command.addDevice "A")] ++ firstTickSucceeds 0))).2.timers.map
              (fun t => (t.id, t.deviceId)) = [(0, "A")]
      ∧ (Worker.shutdown (Worker.run sampleConfig sampleWorker
            ([Event.message (Command.addDevice "A")] ++ firstTickSucceeds 0))).2.devices = [("A", 0)]
      ∧ (Worker.shutdown (Worker.run sampleConfig sampleWorker
            ([Event.message (Command.addDevice "A")] ++ firstTickSucceeds 0))).2.isConnected = true
      ∧ (Worker.shutdown (Worker.run sampleConfig sampleWorker
            ([Event.message (Command.addDevice "A")] ++ firstTickSucceeds 0))).2.producerConnected
          = true := by
  refine ⟨fun w => rfl, ?_, ?_, ?_, ?_, ?_⟩ <;> decide

/-- C9: devices `A` and `B` are added one after the other while the worker is not
connected: both first ticks call `ensureTopicExists` (two calls, the second made
while the first is pending); tick 0 then connects and sets the flag, and tick 1,
whose topic check resolves afterwards, calls `producer.connect` once more (two
calls, the second made when the flag is already true). -/
theorem overlapping_first_ticks_connect_twice :
    (Worker.run sampleConfig sampleWorker
        [Event.message (Command.addDevice "A"), Event.message (Command.addDevice "B")]).ensureCalls = 2
      ∧ (Worker.run sampleConfig sampleWorker
        [Event.message (Command.addDevice "A"), Event.message (Command.addDevice "B")]).ticks
        = [{ id := 0, deviceId := "A", stage := Stage.ensuring },
           { id := 1, deviceId := "B", stage := Stage.ensuring }]
      ∧ (Worker.run sampleConfig sampleWorker
        [Event.message (Command.addDevice "A"), Event.message (Command.addDevice "B"),
         Event.resume 0 Outcome.ok 0, Event.resume 0 Outcome.ok 0]).isConnected = true
      ∧ (Worker.run sampleConfig sampleWorker
        [Event.message (Command.addDevice "A"), Event.message (Command.addDevice "B"),
         Event.resume 0 Outcome.ok 0, Event.resume 0 Outcome.ok 0]).connectCalls = 1
      ∧ (Worker.run sampleConfig sampleWorker
        [Event.message (Command.addDevice "A"), Event.message (Command.addDevice "B"),
         Event.resume 0 Outcome.ok 0, Event.resume 0 Outcome.ok 0,
         Event.resume 1 Outcome.ok 0]).connectCalls = 2
      ∧ (Worker.run sampleConfig sampleWorker
        [Event.message (Command.addDevice "A"), Event.message (Command.addDevice "B"),
         Event.resume 0 Outcome.ok 0, Event.resume 0 Outcome.ok 0,
         Event.resume 1 Outcome.ok 0]).ensureCalls = 2 := by
  decide

/-- Counterexample to C10: `A` and `B` are added together, tick 0 (of `A`) connects,
then the topic check of tick 1 (of `B`) fails.  The failure is reported for `B`,
but the flag is true, and the next tick of `B` (its timer fires) goes straight to the
payload without a further topic check. -/
theorem failed_ensure_with_flag_set :
    (Worker.run sampleConfig sampleWorker
        [Event.message (Command.addDevice "A"), Event.message (Command.addDevice "B"),
         Event.resume 0 Outcome.ok 0, Event.resume 0 Outcome.ok 0]).ticks
        = [{ id := 0, deviceId := "A", stage := Stage.generating },
           { id := 1, deviceId := "B", stage := Stage.ensuring }]
      ∧ (Worker.run sampleConfig sampleWorker
        [Event.message (Command.addDevice "A"), Event.message (Command.addDevice "B"),
         Event.resume 0 Outcome.ok 0, Event.resume 0 Outcome.ok 0,
         Event.resume 1 (Outcome.failed "topic check failed") (1 / 2)]).reports
        = [Report.error (some "B") "topic check failed"]
      ∧ (Worker.run sampleConfig sampleWorker
        [Event.message (Command.addDevice "A"), Event.message (Command.addDevice "B"),
         Event.resume 0 Outcome.ok 0, Event.resume 0 Outcome.ok 0,
         Event.resume 1 (Outcome.failed "topic check failed") (1 / 2)]).isConnected = true
      ∧ (Worker.run sampleConfig sampleWorker
        [Event.message (Command.addDevice "A"), Event.message (Command.addDevice "B"),
         Event.resume 0 Outcome.ok 0, Event.resume 0 Outcome.ok 0,
         Event.resume 1 (Outcome.failed "topic check failed") (1 / 2),
         Event.fire 0]).ticks
        = [{ id := 0, deviceId := "A", stage := Stage.generating },
           { id := 2, deviceId := "B", stage := Stage.generating }]
      ∧ (Worker.run sampleConfig sampleWorker
        [Event.message (Command.addDevice "A"), Event.message (Command.addDevice "B"),
         Event.resume 0 Outcome.ok 0, Event.resume 0 Outcome.ok 0,
         Event.resume 1 (Outcome.failed "topic check failed") (1 / 2),
         Event.fire 0]).ensureCalls = 2 := by
  decide

/-- C10 (amended): for every tick whose topic check or connect fails, the failing
step leaves the connected flag as it was, posts one `error` report for the device
of the tick and publishes nothing; and when the flag is false (no overlapping tick
has connected in the meantime) it stays false and the next tick of any device,
started by a pending timer or by an `add-device` for an id not in the device map,
calls `ensureTopicExists` again and waits for it. -/
theorem connect_failure_keeps_flag (config : Config) (w : Worker) (i : Nat) (t : Tick)
    (msg : String) (r : ℚ) (ht : w.ticks.find? (fun x => x.id == i) = some t)
    (_hs : t.stage = Stage.ensuring ∨ t.stage = Stage.connecting) :
    (Worker.step config w (Event.resume i (Outcome.failed msg) r)).isConnected = w.isConnected
      ∧ (Worker.step config w (Event.resume i (Outcome.failed msg) r)).reports
        = w.reports ++ [Report.error (some t.deviceId) msg]
      ∧ (Worker.step config w (Event.resume i (Outcome.failed msg) r)).published = w.published
      ∧ (w.isConnected = false →
          (Worker.step config w (Event.resume i (Outcome.failed msg) r)).isConnected = false
          ∧ (∀ (k : TimerId) (timer : Timer),
              (Worker.step config w (Event.resume i (Outcome.failed msg) r)).timers.find?
                  (fun x => x.id == k) = some timer →
              (Worker.step config
                  (Worker.step config w (Event.resume i (Outcome.failed msg) r))
                  (Event.fire k)).ticks
                = (Worker.step config w (Event.resume i (Outcome.failed msg) r)).ticks
                  ++ [{ id := (Worker.step config w (Event.resume i (Outcome.failed msg) r)).nextTick,
                        deviceId := timer.deviceId, stage := Stage.ensuring }]
              ∧ (Worker.step config
                  (Worker.step config w (Event.resume i (Outcome.failed msg) r))
                  (Event.fire k)).ensureCalls
                = (Worker.step config w (Event.resume i (Outcome.failed msg) r)).ensureCalls + 1)
          ∧ (∀ d : DeviceId,
              JSMap.has (Worker.step config w (Event.resume i (Outcome.failed msg) r)).devices d
                  = false →
              (Worker.step config
                  (Worker.step config w (Event.resume i (Outcome.failed msg) r))
                  (Event.message (Command.addDevice d))).ticks
                = (Worker.step config w (Event.resume i (Outcome.failed msg) r)).ticks
                  ++ [{ id := (Worker.step config w (Event.resume i (Outcome.failed msg) r)).nextTick,
                        deviceId := d, stage := Stage.ensuring }]
              ∧ (Worker.step config
                  (Worker.step config w (Event.resume i (Outcome.failed msg) r))
                  (Event.message (Command.addDevice d))).ensureCalls
                = (Worker.step config w (Event.resume i (Outcome.failed msg) r)).ensureCalls + 1)) := by
  rw [show Worker.step config w (Event.resume i (Outcome.failed msg) r) = _ from
    Worker.resume_failed config w i t msg r ht]
  refine ⟨rfl, rfl, rfl, ?_⟩
  intro hc
  have hc2 : (Worker.reschedule config (Worker.post w (Report.error (some t.deviceId) msg)) i
      t.deviceId r).isConnected = false := hc
  refine ⟨hc2, ?_, ?_⟩
  · intro k timer hk
    simp only [Worker.step, Worker.fire, hk, Worker.beginTick]
    rw [if_pos (by simpa using hc2)]
    exact ⟨rfl, rfl⟩
  · intro d hd
    simp only [Worker.step, Worker.onMessage, Worker.startDeviceLoop, hd, Worker.beginTick]
    rw [if_neg (by simp), if_pos (by simpa using hc2)]
    exact ⟨rfl, rfl⟩

/-- Witness for C10: the topic check of the first tick of `A` fails while the worker
is not connected. -/
theorem connect_failure_keeps_flag_witness :
    (Worker.step sampleConfig
        (Worker.run sampleConfig sampleWorker [Event.message (Command.addDevice "A")])
        (Event.resume 0 (Outcome.failed "topic check failed") (1 / 2))).isConnected = false
      ∧ (Worker.step sampleConfig
          (Worker.step sampleConfig
            (Worker.run sampleConfig sampleWorker [Event.message (Command.addDevice "A")])
            (Event.resume 0 (Outcome.failed "topic check failed") (1 / 2)))
          (Event.fire 0)).ticks
        = (Worker.step sampleConfig
            (Worker.run sampleConfig sampleWorker [Event.message (Command.addDevice "A")])
            (Event.resume 0 (Outcome.failed "topic check failed") (1 / 2))).ticks
          ++ [{ id := (Worker.step sampleConfig
                  (Worker.run sampleConfig sampleWorker [Event.message (Command.addDevice "A")])
                  (Event.resume 0 (Outcome.failed "topic check failed") (1 / 2))).nextTick,
                deviceId := "A", stage := Stage.ensuring }] :=
  ⟨((connect_failure_keeps_flag sampleConfig
      (Worker.run sampleConfig sampleWorker [Event.message (Command.addDevice "A")])
      0 { id := 0, deviceId := "A", stage := Stage.ensuring } "topic check failed" (1 / 2)
      (by decide) (Or.inl rfl)).2.2.2 (by decide)).1,
   ((((connect_failure_keeps_flag sampleConfig
      (Worker.run sampleConfig sampleWorker [Event.message (Command.addDevice "A")])
      0 { id := 0, deviceId := "A", stage := Stage.ensuring } "topic check failed" (1 / 2)
      (by decide) (Or.inl rfl)).2.2.2 (by decide)).2.1 0
        { id := 0, deviceId := "A", delay := getRandomInterval sampleConfig (1 / 2) }
        rfl).1)⟩

/-! ### JavaScript numbers -/

/-- The exponent found is not below the start, and `n` has reached its power of two. -/
theorem ulpExponentFrom_spec (n : Nat) (fuel e : Nat) (h : 2 ^ (52 + e) ≤ n) :
    e ≤ ulpExponentFrom n fuel e ∧ 2 ^ (52 + ulpExponentFrom n fuel e) ≤ n := by
  induction fuel generalizing e with
  | zero => exact ⟨le_refl _, h⟩
  | succ fuel ih =>
    unfold ulpExponentFrom
    by_cases hlt : n < 2 ^ (53 + e)
    · rw [if_pos hlt]
      exact ⟨le_refl _, h⟩
    · rw [if_neg hlt]
      have h2 : 2 ^ (52 + (e + 1)) ≤ n := by
        have : 52 + (e + 1) = 53 + e := by omega
        rw [this]
        omega
      obtain ⟨h3, h4⟩ := ih (e + 1) h2
      exact ⟨by omega, h4⟩

/-- Below `2 ^ 53` the exponent is 0. -/
theorem ulpExponent_small (n : Nat) (h : n < 2 ^ 53) : ulpExponent n = 0 := by
  show ulpExponentFrom n (971 + 1) 0 = 0
  unfold ulpExponentFrom
  rw [if_pos h]

/-- From `2 ^ 53` on the exponent is positive and `2 ^ (52 + e) ≤ n`. -/
theorem ulpExponent_large (n : Nat) (h : 2 ^ 53 ≤ n) :
    1 ≤ ulpExponent n ∧ 2 ^ (52 + ulpExponent n) ≤ n := by
  have e : ulpExponent n = ulpExponentFrom n 971 1 := by
    show ulpExponentFrom n (971 + 1) 0 = _
    rw [ulpExponentFrom, if_neg (by simpa using h)]
  rw [e]
  exact ulpExponentFrom_spec n 971 1 h

/-- The rounded significand is not below the quotient. -/
theorem roundSignificand_ge (n e : Nat) : n / 2 ^ e ≤ roundSignificand n e := by
  unfold roundSignificand
  simp only
  split <;> omega

/-- Numbers below `2 ^ 53` are below the overflow threshold. -/
theorem lt_overflowThreshold (n : Nat) (h : n < 2 ^ 53) : n < overflowThreshold := by
  have h2 : ∀ a b : Nat, a ≤ b → 2 ^ a ≤ 2 ^ b :=
    fun a b hab => Nat.pow_le_pow_right (Nat.succ_pos 1) hab
  exact lt_of_lt_of_le h (h2 53 1024 (by decide))

/-- Every natural number below `2 ^ 53` is a double. -/
theorem roundNat_small (n : Nat) (h : n < 2 ^ 53) : roundNat n = some n := by
  have hs : roundSignificand n 0 = n := by
    simp only [roundSignificand, pow_zero, Nat.mod_one, Nat.div_one]
    rw [if_neg (by omega)]
  simp only [roundNat, ulpExponent_small n h, hs, pow_zero, Nat.mul_one,
    lt_overflowThreshold n h, if_true]

/-- Rounding a number from `2 ^ 53` on gives a number from `2 ^ 53` on. -/
theorem roundNat_large (n m : Nat) (h : 2 ^ 53 ≤ n) (hm : roundNat n = some m) : 2 ^ 53 ≤ m := by
  obtain ⟨h1, h2⟩ := ulpExponent_large n h
  unfold roundNat at hm
  simp only at hm
  by_cases hlt : roundSignificand n (ulpExponent n) * 2 ^ ulpExponent n < overflowThreshold
  · rw [if_pos hlt] at hm
    have hm2 := Option.some.inj hm
    rw [← hm2]
    have hq : 2 ^ 52 ≤ n / 2 ^ ulpExponent n := by
      rw [Nat.le_div_iff_mul_le (by positivity), ← pow_add]
      exact h2
    have hs := le_trans hq (roundSignificand_ge n (ulpExponent n))
    have he : 2 ^ 1 ≤ 2 ^ ulpExponent n := Nat.pow_le_pow_right (by decide) h1
    calc 2 ^ 53 = 2 ^ 52 * 2 ^ 1 := by norm_num
      _ ≤ _ := Nat.mul_le_mul hs he
  · rw [if_neg hlt] at hm
    exact absurd hm (by simp)

/-- Only the number itself rounds to a number below `2 ^ 53`. -/
theorem roundNat_eq_small (v x : Nat) (hx : x < 2 ^ 53) (h : roundNat v = some x) : v = x := by
  by_cases hv : v < 2 ^ 53
  · rw [roundNat_small v hv] at h
    exact Option.some.inj h
  · have := roundNat_large v x (by omega) h
    omega

/-- A number chosen by `closestRoundTrip` rounds to `x`. -/
theorem closestRoundTrip_rounds (x k v : Nat) (h : closestRoundTrip x k = some v) :
    roundNat v = some x := by
  unfold closestRoundTrip at h
  simp only at h
  split_ifs at h with h1 h2 h3 h4 h5 h6 <;> cases h
  · exact h1.1
  · exact h1.2
  · exact h1.1
  · exact h1.2
  · exact h5
  · exact h6

/-- The number printed for `x` is `x` itself or rounds to `x`. -/
theorem shortestRoundTrip_rounds (x : Nat) :
    shortestRoundTrip x = x ∨ roundNat (shortestRoundTrip x) = some x := by
  unfold shortestRoundTrip
  cases hf : (List.range 17).findSome? (fun i => closestRoundTrip x (i + 1)) with
  | none => exact Or.inl rfl
  | some v =>
    obtain ⟨i, _, hi⟩ := List.exists_of_findSome?_eq_some hf
    exact Or.inr (closestRoundTrip_rounds x (i + 1) v hi)

/-- Up to `2 ^ 53` the number printed is the number itself. -/
theorem shortestRoundTrip_safe (x : Nat) (hx : x ≤ 2 ^ 53) : shortestRoundTrip x = x := by
  rcases Nat.lt_or_eq_of_le hx with h | h
  · rcases shortestRoundTrip_rounds x with h1 | h1
    · exact h1
    · exact roundNat_eq_small _ x h h1
  · subst h
    decide!

/-- An integer of magnitude at most `2 ^ 53` prints as its decimal numeral. -/
theorem jsNumber_toString_safe (r : Int) (h : r.natAbs ≤ 2 ^ 53) :
    (JSNumber.finite r).toString = toString r := by
  have hv := shortestRoundTrip_safe r.natAbs h
  have h21 : r.natAbs < 10 ^ 21 := lt_of_le_of_lt h (by norm_num)
  unfold JSNumber.toString
  by_cases h0 : r = 0
  · subst h0
    rfl
  · simp only [h0, if_false, hv, h21, if_true]
    cases r with
    | ofNat m =>
      have : ¬ (Int.ofNat m < 0) := by simp
      rw [if_neg this]
      rfl
    | negSucc m =>
      have : Int.negSucc m < 0 := Int.negSucc_lt_zero m
      rw [if_pos this]
      rfl

/-- Every integer of magnitude at most `2 ^ 53` is a double. -/
theorem JSNumber.round_safe (n : Int) (h : n.natAbs ≤ 2 ^ 53) :
    JSNumber.round n = JSNumber.finite n := by
  have hr : roundNat n.natAbs = some n.natAbs := by
    rcases Nat.lt_or_eq_of_le h with h1 | h1
    · exact roundNat_small _ h1
    · rw [h1]
      decide!
  have hv : (if n < 0 then -((n.natAbs : Nat) : Int) else ((n.natAbs : Nat) : Int)) = n := by
    split <;> omega
  unfold JSNumber.round
  rw [hr]
  show JSNumber.finite (if n < 0 then -((n.natAbs : Nat) : Int) else ((n.natAbs : Nat) : Int)) = _
  rw [hv]

/-- A product of magnitude at most `2 ^ 53` is exact. -/
theorem JSNumber.mul_safe (a b : Int) (h : (a * b).natAbs ≤ 2 ^ 53) :
    (JSNumber.finite a).mul (JSNumber.finite b) = JSNumber.finite (a * b) := by
  show JSNumber.round (a * b) = _
  exact JSNumber.round_safe _ h

/-- The number value of an integer other than zero is truthy. -/
theorem JSNumber.round_truthy (n : Int) (h : n ≠ 0) : (JSNumber.round n).truthy = true := by
  unfold JSNumber.round
  cases hr : roundNat n.natAbs with
  | none => rfl
  | some m =>
    have hm : m ≠ 0 := by
      by_cases hs : n.natAbs < 2 ^ 53
      · rw [roundNat_small _ hs] at hr
        have := Option.some.inj hr
        omega
      · have := roundNat_large _ m (by omega) hr
        have h53 : 0 < 2 ^ 53 := by positivity
        omega
    simp only [JSNumber.truthy, decide_eq_true_eq]
    split <;> omega

/-! ### Topic provisioning -/

/-- A granted create request for one absent topic appends it. -/
theorem Broker.create_absent (b : Broker) (t : TopicRequest)
    (h : t.topic ∉ Broker.topicNames b) :
    Broker.create b [t] = b ++ [t] := by
  simp [Broker.create, h]

/-- The calls and the create request of `ensureTopicExists`, whatever the admin
client answers. -/
theorem KafkaAdminService.ensureTopicExists_requests (broker : Broker) (answers : AdminAnswers)
    (n : String) (r : JSNumber) :
    (∀ q ∈ (KafkaAdminService.ensureTopicExists broker answers n r).requests,
        q.deletesOrAlters = false)
      ∧ (∀ ts, AdminRequest.createTopics ts
            ∈ (KafkaAdminService.ensureTopicExists broker answers n r).requests →
          ts = [KafkaAdminService.topicRequest n r] ∧ n ∉ Broker.topicNames broker) := by
  rcases answers with ⟨c, l, cr, d⟩
  by_cases hn : n ∈ Broker.topicNames broker <;> cases c <;> cases l <;> cases cr <;>
    cases d <;>
    simp [KafkaAdminService.ensureTopicExists, KafkaAdminService.finallyDisconnect, hn,
      AdminRequest.deletesOrAlters]

/-- With the admin client answering, an absent topic is created. -/
theorem KafkaAdminService.ensureTopicExists_absent (broker : Broker) (n : String) (r : JSNumber)
    (hn : n ∉ Broker.topicNames broker) :
    KafkaAdminService.ensureTopicExists broker AdminAnswers.allOk n r
      = { result := Except.ok ()
          broker := broker ++ [KafkaAdminService.topicRequest n r]
          requests := [AdminRequest.connect, AdminRequest.listTopics,
                       AdminRequest.createTopics [KafkaAdminService.topicRequest n r],
                       AdminRequest.disconnect] } := by
  have hc : Broker.create broker [KafkaAdminService.topicRequest n r]
      = broker ++ [KafkaAdminService.topicRequest n r] :=
    Broker.create_absent broker _ hn
  simp [KafkaAdminService.ensureTopicExists, KafkaAdminService.finallyDisconnect,
    AdminAnswers.allOk, hn, hc]

/-- With the admin client answering, a present topic is left alone. -/
theorem KafkaAdminService.ensureTopicExists_present (broker : Broker) (n : String) (r : JSNumber)
    (hn : n ∈ Broker.topicNames broker) :
    KafkaAdminService.ensureTopicExists broker AdminAnswers.allOk n r
      = { result := Except.ok ()
          broker := broker
          requests := [AdminRequest.connect, AdminRequest.listTopics,
                       AdminRequest.disconnect] } := by
  simp [KafkaAdminService.ensureTopicExists, KafkaAdminService.finallyDisconnect,
    AdminAnswers.allOk, hn]

/-- Counterexample to C11: the retention `10 ^ 21` ms, which is what `parseInt` makes
of `KAFKA_RETENTION_MS=1000000000000000000000`, is a double, and for it the create
request carries `retention.ms = "1e+21"` and not the decimal string
`1000000000000000000000` of the retention. -/
theorem huge_retention_is_sent_in_exponent_form :
    jsParseInt "1000000000000000000000" = JSNumber.finite (10 ^ 21)
      ∧ AdminRequest.createTopics
            [KafkaAdminService.topicRequest "device-events" (JSNumber.finite (10 ^ 21))]
          ∈ (KafkaAdminService.ensureTopicExists [] AdminAnswers.allOk "device-events"
              (JSNumber.finite (10 ^ 21))).requests
      ∧ { name := "retention.ms", value := "1e+21" }
          ∈ (KafkaAdminService.topicRequest "device-events"
              (JSNumber.finite (10 ^ 21))).configEntries
      ∧ toString ((10 : Int) ^ 21) = "1000000000000000000000"
      ∧ { name := "retention.ms", value := toString ((10 : Int) ^ 21) }
          ∉ (KafkaAdminService.topicRequest "device-events"
              (JSNumber.finite (10 ^ 21))).configEntries := by
  decide!

/-- C11 (amended): for every broker, topic name `n` and retention `r`,
`ensureTopicExists(n, r)` never issues a delete or alter call, and every create
request it issues is for `n` alone, with `retention.ms` the string that `toString()`
gives for `r`, which is the decimal numeral of `r` whenever `r` is an integer of
magnitude at most `2 ^ 53`, and with `cleanup.policy = delete`;
when the admin client answers the connect and the listing, a create request is
issued if and only if `n` is not in the topic set `T` of the broker; when every
call is answered, the call returns, the existing topics are kept and the topic set
becomes `T` with `n` added, and a second call right after the first issues no
create request and leaves the broker as it is. -/
theorem ensureTopicExists_creates_iff_absent (broker : Broker) (answers : AdminAnswers)
    (n : String) (r : JSNumber) :
    (∀ q ∈ (KafkaAdminService.ensureTopicExists broker answers n r).requests,
        q.deletesOrAlters = false)
      ∧ (∀ ts, AdminRequest.createTopics ts
            ∈ (KafkaAdminService.ensureTopicExists broker answers n r).requests →
          ts = [KafkaAdminService.topicRequest n r])
      ∧ ((KafkaAdminService.topicRequest n r).topic = n
          ∧ { name := "retention.ms", value := r.toString }
              ∈ (KafkaAdminService.topicRequest n r).configEntries
          ∧ (∀ m : Int, r = JSNumber.finite m → m.natAbs ≤ 2 ^ 53 →
              { name := "retention.ms", value := toString m }
                ∈ (KafkaAdminService.topicRequest n r).configEntries)
          ∧ { name := "cleanup.policy", value := "delete" }
              ∈ (KafkaAdminService.topicRequest n r).configEntries)
      ∧ (answers.connect = Except.ok () → answers.listTopics = Except.ok () →
          ((∃ ts, AdminRequest.createTopics ts
              ∈ (KafkaAdminService.ensureTopicExists broker answers n r).requests)
            ↔ n ∉ Broker.topicNames broker))
      ∧ (answers = AdminAnswers.allOk →
          (KafkaAdminService.ensureTopicExists broker answers n r).result = Except.ok ()
          ∧ (∀ x, x ∈ Broker.topicNames
                (KafkaAdminService.ensureTopicExists broker answers n r).broker
              ↔ x ∈ Broker.topicNames broker ∨ x = n)
          ∧ (∀ t ∈ broker, t ∈ (KafkaAdminService.ensureTopicExists broker answers n r).broker)
          ∧ (∀ q ∈ (KafkaAdminService.ensureTopicExists
                (KafkaAdminService.ensureTopicExists broker answers n r).broker
                AdminAnswers.allOk n r).requests, q.isCreate = false)
          ∧ (KafkaAdminService.ensureTopicExists
                (KafkaAdminService.ensureTopicExists broker answers n r).broker
                AdminAnswers.allOk n r).broker
              = (KafkaAdminService.ensureTopicExists broker answers n r).broker) := by
  obtain ⟨h1, h2⟩ := KafkaAdminService.ensureTopicExists_requests broker answers n r
  refine ⟨h1, fun ts hts => (h2 ts hts).1, ⟨rfl, by simp [KafkaAdminService.topicRequest],
    ?_, by simp [KafkaAdminService.topicRequest]⟩, ?_, ?_⟩
  · intro m hm hsafe
    subst hm
    simp [KafkaAdminService.topicRequest, jsNumber_toString_safe m hsafe]
  · intro hc hl
    constructor
    · rintro ⟨ts, hts⟩
      exact (h2 ts hts).2
    · intro hn
      refine ⟨[KafkaAdminService.topicRequest n r], ?_⟩
      rcases answers with ⟨c, l, cr, d⟩
      simp only at hc hl
      subst hc hl
      cases cr <;> cases d <;>
        simp [KafkaAdminService.ensureTopicExists, KafkaAdminService.finallyDisconnect, hn]
  · intro hall
    subst hall
    by_cases hn : n ∈ Broker.topicNames broker
    · rw [KafkaAdminService.ensureTopicExists_present broker n r hn]
      refine ⟨rfl, ?_, fun t ht => ht, ?_, ?_⟩
      · intro x
        constructor
        · exact fun hx => Or.inl hx
        · rintro (hx | hx)
          · exact hx
          · exact hx ▸ hn
      · rw [KafkaAdminService.ensureTopicExists_present broker n r hn]
        intro q hq
        simp only [List.mem_cons, List.mem_singleton, List.not_mem_nil, or_false] at hq
        rcases hq with rfl | rfl | rfl <;> rfl
      · rw [KafkaAdminService.ensureTopicExists_present broker n r hn]
    · rw [KafkaAdminService.ensureTopicExists_absent broker n r hn]
      have hn2 : n ∈ Broker.topicNames (broker ++ [KafkaAdminService.topicRequest n r]) := by
        simp [Broker.topicNames, KafkaAdminService.topicRequest]
      refine ⟨rfl, ?_, fun t ht => List.mem_append_left _ ht, ?_, ?_⟩
      · intro x
        simp [Broker.topicNames, KafkaAdminService.topicRequest]
      · rw [KafkaAdminService.ensureTopicExists_present _ n r hn2]
        intro q hq
        simp only [List.mem_cons, List.mem_singleton, List.not_mem_nil, or_false] at hq
        rcases hq with rfl | rfl | rfl <;> rfl
      · rw [KafkaAdminService.ensureTopicExists_present _ n r hn2]

/-- Witness for C11: the topic `device-events` with the default retention of one
hour, on a broker that holds only `other`. -/
theorem ensureTopicExists_creates_iff_absent_witness :
    (∃ ts, AdminRequest.createTopics ts
        ∈ (KafkaAdminService.ensureTopicExists
            [KafkaAdminService.topicRequest "other" (JSNumber.finite 60000)]
            AdminAnswers.allOk "device-events" (JSNumber.finite 3600000)).requests)
      ∧ (KafkaAdminService.ensureTopicExists
            [KafkaAdminService.topicRequest "other" (JSNumber.finite 60000)]
            AdminAnswers.allOk "device-events" (JSNumber.finite 3600000)).result = Except.ok ()
      ∧ { name := "retention.ms", value := "3600000" }
          ∈ (KafkaAdminService.topicRequest "device-events"
              (JSNumber.finite 3600000)).configEntries :=
  ⟨((ensureTopicExists_creates_iff_absent
        [KafkaAdminService.topicRequest "other" (JSNumber.finite 60000)]
        AdminAnswers.allOk "device-events" (JSNumber.finite 3600000)).2.2.2.1 rfl rfl).mpr
      (by decide!),
   ((ensureTopicExists_creates_iff_absent
        [KafkaAdminService.topicRequest "other" (JSNumber.finite 60000)]
        AdminAnswers.allOk "device-events" (JSNumber.finite 3600000)).2.2.2.2 rfl).1,
   (ensureTopicExists_creates_iff_absent
        [KafkaAdminService.topicRequest "other" (JSNumber.finite 60000)]
        AdminAnswers.allOk "device-events" (JSNumber.finite 3600000)).2.2.1.2.2.1 3600000 rfl
      (by decide)⟩

/-! ### Image generation -/

/-- A draw in `[0,1)` picks an element of a non-empty list, at an index inside it. -/
theorem jsRandomElement_mem {α : Type} (xs : List α) (r : ℚ) (hne : xs ≠ [])
    (h0 : 0 ≤ r) (h1 : r < 1) :
    0 ≤ ⌊r * (xs.length : ℚ)⌋ ∧ ⌊r * (xs.length : ℚ)⌋ < (xs.length : Int)
      ∧ ∃ x, jsRandomElement xs r = some x ∧ x ∈ xs := by
  have hlen : (0 : ℚ) < (xs.length : ℚ) := by
    have : 0 < xs.length := List.length_pos.mpr hne
    exact_mod_cast this
  have hnn : 0 ≤ ⌊r * (xs.length : ℚ)⌋ := Int.floor_nonneg.mpr (mul_nonneg h0 hlen.le)
  have hlt : ⌊r * (xs.length : ℚ)⌋ < (xs.length : Int) := by
    apply Int.floor_lt.mpr
    have : r * (xs.length : ℚ) < 1 * (xs.length : ℚ) := mul_lt_mul_of_pos_right h1 hlen
    simpa using this
  have hidx : (⌊r * (xs.length : ℚ)⌋).toNat < xs.length := by omega
  refine ⟨hnn, hlt, xs[(⌊r * (xs.length : ℚ)⌋).toNat], ?_, List.getElem_mem _⟩
  unfold jsRandomElement
  rw [if_neg (by omega)]
  exact List.getElem?_eq_getElem hidx

/-- With its draws in `[0,1)` one turn of the shape loop does not throw. -/
theorem ImageGenerator.randomShape_ok (draws : Nat → ℚ) (i : Nat)
    (h : ∀ k, 0 ≤ draws k ∧ draws k < 1) :
    ∃ s, ImageGenerator.randomShape draws i = Except.ok s := by
  obtain ⟨_, _, c, hc, _⟩ := jsRandomElement_mem ImageGenerator.colors (draws i)
    (by decide) (h i).1 (h i).2
  unfold ImageGenerator.randomShape ImageGenerator.generateRandomColor
  rw [hc]
  simp only
  split
  · exact ⟨_, rfl⟩
  · split
    · exact ⟨_, rfl⟩
    · split <;> exact ⟨_, rfl⟩

/-- With its draws in `[0,1)` the shape loop does not throw. -/
theorem ImageGenerator.randomShapes_ok (draws : Nat → ℚ) (h : ∀ k, 0 ≤ draws k ∧ draws k < 1)
    (count i : Nat) : ∃ ss, ImageGenerator.randomShapes draws i count = Except.ok ss := by
  induction count generalizing i with
  | zero => exact ⟨[], rfl⟩
  | succ n ih =>
    obtain ⟨s, hs⟩ := ImageGenerator.randomShape_ok draws i h
    obtain ⟨ss, hss⟩ := ih (i + 5)
    exact ⟨s :: ss, by simp [ImageGenerator.randomShapes, hs, hss]⟩

/-- What `generateImage` returns is built from the position it drew. -/
theorem ImageGenerator.generateImage_position (deviceId : DeviceId) (inp : CanvasInputs)
    (img : GeneratedImage) (h : ImageGenerator.generateImage deviceId inp = Except.ok img) :
    ImageGenerator.getRandomPosition (inp.draws (ImageGenerator.positionDraw inp.draws))
        = some img.position
      ∧ img.deviceTextCrop
        = ImageGenerator.deviceTextCrop img.position
            (ImageGenerator.getCoordinatesForPosition img.position inp.textWidth 48)
            inp.textWidth 48 := by
  unfold ImageGenerator.generateImage at h
  split at h
  · split at h
    · exact absurd h (by simp)
    · split at h
      · exact absurd h (by simp)
      · next position hp =>
        simp only [Except.ok.injEq] at h
        subst h
        exact ⟨hp, rfl⟩
  · exact absurd h (by simp)

/-- With every draw in `[0,1)`, `generateImage` returns an image. -/
theorem ImageGenerator.generateImage_ok (deviceId : DeviceId) (inp : CanvasInputs)
    (h : ∀ k, 0 ≤ inp.draws k ∧ inp.draws k < 1) :
    ∃ img, ImageGenerator.generateImage deviceId inp = Except.ok img := by
  obtain ⟨_, _, c0, hc0, _⟩ := jsRandomElement_mem ImageGenerator.colors (inp.draws 0)
    (by decide) (h 0).1 (h 0).2
  obtain ⟨_, _, c1, hc1, _⟩ := jsRandomElement_mem ImageGenerator.colors (inp.draws 1)
    (by decide) (h 1).1 (h 1).2
  obtain ⟨_, _, c2, hc2, _⟩ := jsRandomElement_mem ImageGenerator.colors (inp.draws 2)
    (by decide) (h 2).1 (h 2).2
  obtain ⟨ss, hss⟩ := ImageGenerator.randomShapes_ok inp.draws h
    (ImageGenerator.shapeCount inp.draws).toNat 4
  obtain ⟨_, _, p, hp, _⟩ := jsRandomElement_mem ImageGenerator.positions
    (inp.draws (ImageGenerator.positionDraw inp.draws)) (by decide) (h _).1 (h _).2
  unfold ImageGenerator.generateImage ImageGenerator.generateRandomColor
    ImageGenerator.getRandomPosition
  rw [hc0, hc1, hc2]
  simp only [hss, hp]
  exact ⟨_, rfl⟩

/-- C12: for every draw `r` in `[0,1)` the index `Math.floor(r * 9)` computed by
`getRandomPosition` lies inside the anchor list and the function returns one of
its 9 names; the position of every image returned by `generateImage` is the name
`getRandomPosition` returned for its draw and equals the position recorded in the
returned `deviceTextCrop`; and with every draw in `[0,1)` `generateImage` does
return an image, whose position is one of the 9 names. -/
theorem position_is_one_of_the_anchors :
    (∀ r : ℚ, 0 ≤ r → r < 1 →
        0 ≤ ⌊r * (ImageGenerator.positions.length : ℚ)⌋
          ∧ ⌊r * (ImageGenerator.positions.length : ℚ)⌋ < 9
          ∧ ∃ name, ImageGenerator.getRandomPosition r = some name
              ∧ name ∈ ImageGenerator.positions)
      ∧ (∀ (deviceId : DeviceId) (inp : CanvasInputs) (img : GeneratedImage),
          ImageGenerator.generateImage deviceId inp = Except.ok img →
            ImageGenerator.getRandomPosition (inp.draws (ImageGenerator.positionDraw inp.draws))
                = some img.position
              ∧ img.deviceTextCrop.position = img.position)
      ∧ (∀ (deviceId : DeviceId) (inp : CanvasInputs),
          (∀ k, 0 ≤ inp.draws k ∧ inp.draws k < 1) →
            ∃ img, ImageGenerator.generateImage deviceId inp = Except.ok img
              ∧ img.position ∈ ImageGenerator.positions
              ∧ img.deviceTextCrop.position = img.position) := by
  refine ⟨?_, ?_, ?_⟩
  · intro r h0 h1
    obtain ⟨a, b, x, hx, hm⟩ := jsRandomElement_mem ImageGenerator.positions r (by decide) h0 h1
    exact ⟨a, b, x, hx, hm⟩
  · intro deviceId inp img h
    obtain ⟨hp, hc⟩ := ImageGenerator.generateImage_position deviceId inp img h
    exact ⟨hp, by rw [hc]; rfl⟩
  · intro deviceId inp h
    obtain ⟨img, himg⟩ := ImageGenerator.generateImage_ok deviceId inp h
    obtain ⟨hp, hc⟩ := ImageGenerator.generateImage_position deviceId inp img himg
    obtain ⟨_, _, x, hx, hm⟩ := jsRandomElement_mem ImageGenerator.positions
      (inp.draws (ImageGenerator.positionDraw inp.draws)) (by decide) (h _).1 (h _).2
    have hxe : x = img.position := by
      have := hx.symm.trans hp
      simpa using this
    exact ⟨img, himg, hxe ▸ hm, by rw [hc]; rfl⟩
/-- The coordinates `getCoordinatesForPosition` computes for the nine names of the
anchor list, for a label of width `w` and height 48. -/
theorem ImageGenerator.coordinates_on_anchors (w : ℚ) :
    ImageGenerator.positions.map (fun p => ImageGenerator.getCoordinatesForPosition p w 48)
      = [{ x := 20, y := 68 }, { x := (1280 - w) / 2, y := 68 }, { x := 1280 - w - 20, y := 68 },
         { x := 20, y := 384 }, { x := (1280 - w) / 2, y := 384 },
         { x := 1280 - w - 20, y := 384 },
         { x := 20, y := 700 }, { x := (1280 - w) / 2, y := 700 },
         { x := 1280 - w - 20, y := 700 }] := by
  have s1 : jsSplit "top-left" '-' = ["top", "left"] := by decide
  have s2 : jsSplit "top-middle" '-' = ["top", "middle"] := by decide
  have s3 : jsSplit "top-right" '-' = ["top", "right"] := by decide
  have s4 : jsSplit "middle-left" '-' = ["middle", "left"] := by decide
  have s5 : jsSplit "middle-center" '-' = ["middle", "center"] := by decide
  have s6 : jsSplit "middle-right" '-' = ["middle", "right"] := by decide
  have s7 : jsSplit "bottom-left" '-' = ["bottom", "left"] := by decide
  have s8 : jsSplit "bottom-middle" '-' = ["bottom", "middle"] := by decide
  have s9 : jsSplit "bottom-right" '-' = ["bottom", "right"] := by decide
  simp only [ImageGenerator.positions, List.map_cons, List.map_nil,
    ImageGenerator.getCoordinatesForPosition, s1, s2, s3, s4, s5, s6, s7, s8, s9,
    ImageGenerator.width, ImageGenerator.height]
  simp +decide
  norm_num

/-- C26: for every one of the 9 names of the anchor list and every label width `w`
(text height 48), both parts of the name match a `case` of
`getCoordinatesForPosition`, and the coordinates are: `x = 20` for a left anchor,
`(1280 - w) / 2` for a centred one (`top-middle`, `middle-center`, `bottom-middle`)
and `1280 - w - 20` for a right one; `y = 68` for a top anchor, `384` for a middle
one and `700` for a bottom one. -/
theorem coordinates_of_every_anchor (w : ℚ) :
    (∀ name ∈ ImageGenerator.positions,
        (jsSplit name '-')[0]? ∈ [some "top", some "middle", some "bottom"]
          ∧ (jsSplit name '-')[1]? ∈ [some "left", some "middle", some "center", some "right"])
      ∧ ImageGenerator.positions.map (fun p => ImageGenerator.getCoordinatesForPosition p w 48)
        = [{ x := 20, y := 68 }, { x := (1280 - w) / 2, y := 68 },
           { x := 1280 - w - 20, y := 68 },
           { x := 20, y := 384 }, { x := (1280 - w) / 2, y := 384 },
           { x := 1280 - w - 20, y := 384 },
           { x := 20, y := 700 }, { x := (1280 - w) / 2, y := 700 },
           { x := 1280 - w - 20, y := 700 }] :=
  ⟨by decide, ImageGenerator.coordinates_on_anchors w⟩
/-- The coordinates of an anchor of the list take one of three values each. -/
theorem ImageGenerator.coordinates_cases (w : ℚ) (name : String)
    (hn : name ∈ ImageGenerator.positions) :
    ((ImageGenerator.getCoordinatesForPosition name w 48).x = 20
        ∨ (ImageGenerator.getCoordinatesForPosition name w 48).x = (1280 - w) / 2
        ∨ (ImageGenerator.getCoordinatesForPosition name w 48).x = 1280 - w - 20)
      ∧ ((ImageGenerator.getCoordinatesForPosition name w 48).y = 68
        ∨ (ImageGenerator.getCoordinatesForPosition name w 48).y = 384
        ∨ (ImageGenerator.getCoordinatesForPosition name w 48).y = 700) := by
  have h := ImageGenerator.coordinates_on_anchors w
  simp only [ImageGenerator.positions, List.map_cons, List.map_nil, List.cons.injEq,
    and_true] at h
  obtain ⟨h1, h2, h3, h4, h5, h6, h7, h8, h9⟩ := h
  simp only [ImageGenerator.positions, List.mem_cons, List.mem_singleton, List.not_mem_nil,
    or_false] at hn
  rcases hn with rfl | rfl | rfl | rfl | rfl | rfl | rfl | rfl | rfl
  · rw [h1]; simp
  · rw [h2]; simp
  · rw [h3]; simp
  · rw [h4]; simp
  · rw [h5]; simp
  · rw [h6]; simp
  · rw [h7]; simp
  · rw [h8]; simp
  · rw [h9]; simp

/-- C25: for every one of the 9 anchors and every label width `w` with
`0 ≤ w ≤ 1240` nothing is clamped: the crop rectangle is the text box
`(x, y - 48, w, 48)` extended by 15 pixels on every side, that is
`left = x - 15`, `top = y - 63`, `width = w + 30`, `height = 78`, and it encloses
the backing rectangle `(x - 10, y - 53, w + 20, 63)` of the label. -/
theorem crop_is_padded_text_box (name : String) (w : ℚ)
    (hn : name ∈ ImageGenerator.positions) (_h0 : 0 ≤ w) (h1 : w ≤ 1240) :
    ((ImageGenerator.deviceTextCrop name (ImageGenerator.getCoordinatesForPosition name w 48)
          w 48).left = (ImageGenerator.getCoordinatesForPosition name w 48).x - 15
      ∧ (ImageGenerator.deviceTextCrop name (ImageGenerator.getCoordinatesForPosition name w 48)
          w 48).top = (ImageGenerator.getCoordinatesForPosition name w 48).y - 63
      ∧ (ImageGenerator.deviceTextCrop name (ImageGenerator.getCoordinatesForPosition name w 48)
          w 48).width = w + 30
      ∧ (ImageGenerator.deviceTextCrop name (ImageGenerator.getCoordinatesForPosition name w 48)
          w 48).height = 78)
    ∧ (ImageGenerator.backingRect (ImageGenerator.getCoordinatesForPosition name w 48) w 48
        = { x := (ImageGenerator.getCoordinatesForPosition name w 48).x - 10
            y := (ImageGenerator.getCoordinatesForPosition name w 48).y - 53
            width := w + 20, height := 63 })
    ∧ ((ImageGenerator.deviceTextCrop name (ImageGenerator.getCoordinatesForPosition name w 48)
          w 48).left
        ≤ (ImageGenerator.backingRect (ImageGenerator.getCoordinatesForPosition name w 48) w 48).x
      ∧ (ImageGenerator.deviceTextCrop name (ImageGenerator.getCoordinatesForPosition name w 48)
          w 48).top
        ≤ (ImageGenerator.backingRect (ImageGenerator.getCoordinatesForPosition name w 48) w 48).y
      ∧ (ImageGenerator.backingRect (ImageGenerator.getCoordinatesForPosition name w 48) w 48).x
          + (ImageGenerator.backingRect (ImageGenerator.getCoordinatesForPosition name w 48)
              w 48).width
        ≤ (ImageGenerator.deviceTextCrop name
              (ImageGenerator.getCoordinatesForPosition name w 48) w 48).left
          + (ImageGenerator.deviceTextCrop name
              (ImageGenerator.getCoordinatesForPosition name w 48) w 48).width
      ∧ (ImageGenerator.backingRect (ImageGenerator.getCoordinatesForPosition name w 48) w 48).y
          + (ImageGenerator.backingRect (ImageGenerator.getCoordinatesForPosition name w 48)
              w 48).height
        ≤ (ImageGenerator.deviceTextCrop name
              (ImageGenerator.getCoordinatesForPosition name w 48) w 48).top
          + (ImageGenerator.deviceTextCrop name
              (ImageGenerator.getCoordinatesForPosition name w 48) w 48).height) := by
  obtain ⟨hx, hy⟩ := ImageGenerator.coordinates_cases w name hn
  generalize ImageGenerator.getCoordinatesForPosition name w 48 = c at hx hy ⊢
  have hl : max 0 (c.x - 15) = c.x - 15 := by
    apply max_eq_right
    rcases hx with h | h | h <;> rw [h] <;> linarith
  have ht : max 0 (c.y - 48 - 15) = c.y - 63 := by
    have h63 : (0 : ℚ) ≤ c.y - 48 - 15 := by
      rcases hy with h | h | h <;> rw [h] <;> norm_num
    rw [max_eq_right h63]
    ring
  have hw : min (1280 - (c.x - 15)) (w + 15 * 2) = w + 30 := by
    have hle : w + 15 * 2 ≤ 1280 - (c.x - 15) := by
      rcases hx with h | h | h <;> rw [h] <;> linarith
    rw [min_eq_right hle]
    ring
  have hh : min (720 - (c.y - 48 - 15)) ((48 : ℚ) + 15 * 2) = 78 := by
    have hle : (48 : ℚ) + 15 * 2 ≤ 720 - (c.y - 48 - 15) := by
      rcases hy with h | h | h <;> rw [h] <;> norm_num
    rw [min_eq_right hle]
    norm_num
  simp only [ImageGenerator.deviceTextCrop, ImageGenerator.backingRect, ImageGenerator.width,
    ImageGenerator.height, hl, ht, hw, hh]
  refine ⟨by simp, ?_, ?_, ?_, ?_, ?_⟩
  · have e1 : c.y - 48 - 5 = c.y - 53 := by ring
    have e2 : (48 : ℚ) + 15 = 63 := by norm_num
    rw [e1, e2]
  · linarith
  · linarith
  · linarith
  · linarith

/-- Witness for C25: the anchor `middle-center` and a label 400 pixels wide. -/
theorem crop_is_padded_text_box_witness :
    (ImageGenerator.deviceTextCrop "middle-center"
        (ImageGenerator.getCoordinatesForPosition "middle-center" 400 48) 400 48).width
      = 400 + 30 :=
  (crop_is_padded_text_box "middle-center" 400 (by decide) (by norm_num) (by norm_num)).1.2.2.1
/-- C13: the label of a device id of forty letters `W` measures about 2000 pixels.
With the anchor `top-right` the crop rectangle returned by `generateImage` is
`left = 0`, `width = 2030`, and with the anchor `middle-center` it is `left = 0`,
`width = 1655`: the `Math.min` of line 187 takes the unclamped `x - 15`, so the
rectangle ends beyond the right edge of the 1280 pixel wide image. -/
theorem wide_label_crop_leaves_image :
    (ImageGenerator.generateImage "WWWWWWWWWWWWWWWWWWWWWWWWWWWWWWWWWWWWWWWW"
        (wideLabelInputs (1 / 4))).map (fun img => img.deviceTextCrop)
        = Except.ok { left := 0, top := 5, width := 2030, height := 78, position := "top-right" }
      ∧ (ImageGenerator.generateImage "WWWWWWWWWWWWWWWWWWWWWWWWWWWWWWWWWWWWWWWW"
        (wideLabelInputs (1 / 2))).map (fun img => img.deviceTextCrop)
        = Except.ok { left := 0, top := 321, width := 1655, height := 78,
                      position := "middle-center" }
      ∧ ¬ ((0 : ℚ) + 2030 ≤ ImageGenerator.width)
      ∧ ¬ ((0 : ℚ) + 1655 ≤ ImageGenerator.width) := by
  decide!

/-- Counterexample to C14: `top-center`, one of the nine names `<v>-<h>` with `h`
among left, center, right, is not in the anchor list, and `top-middle`, which is in
the list, is not one of those nine names. -/
theorem anchors_are_not_the_center_grid :
    "top-center" ∈ specAnchorNames ∧ "top-center" ∉ ImageGenerator.positions
      ∧ "top-middle" ∈ ImageGenerator.positions ∧ "top-middle" ∉ specAnchorNames := by
  decide

/-- C14 (amended): the anchor list consists of exactly 9 pairwise distinct names, the
9 combinations `<v>-<h>` of a vertical part `v` among top, middle, bottom with a
horizontal part `h` among left, the centre name, right, where the centre column is
named `middle` in the top and bottom rows and `center` in the middle row. -/
theorem anchors_are_nine_distinct_names :
    ImageGenerator.positions.length = 9
      ∧ ImageGenerator.positions.Nodup
      ∧ ImageGenerator.positions
        = ["top", "middle", "bottom"].flatMap
            (fun v => ["left", if v = "middle" then "center" else "middle", "right"].map
              (fun h => v ++ "-" ++ h)) := by
  decide

/-- Witness for C12: the draw `1/2`. -/
theorem position_is_one_of_the_anchors_witness :
    ((0 : ℚ) ≤ 1 / 2 ∧ (1 / 2 : ℚ) < 1)
      ∧ ∃ name, ImageGenerator.getRandomPosition (1 / 2) = some name
          ∧ name ∈ ImageGenerator.positions :=
  ⟨⟨by norm_num, by norm_num⟩,
   (position_is_one_of_the_anchors.1 (1 / 2) (by norm_num) (by norm_num)).2.2⟩

/-- Witness for C26: the anchor `top-middle` matches a `case` in both switches. -/
theorem coordinates_of_every_anchor_witness :
    (jsSplit "top-middle" '-')[0]? ∈ [some "top", some "middle", some "bottom"]
      ∧ (jsSplit "top-middle" '-')[1]? ∈ [some "left", some "middle", some "center", some "right"] :=
  (coordinates_of_every_anchor 300).1 "top-middle" (by decide)

/-! ### Storage -/

/-- Every character `sanitizeChar` produces is a letter, a digit, `-` or `_`. -/
theorem sanitizeChar_allowed (c d : Char) (h : d ∈ sanitizeChar c) : isFilenameChar d = true := by
  unfold sanitizeChar at h
  split at h
  · next hc =>
    simp only [List.mem_singleton] at h
    rw [h]; exact hc
  · split at h
    · simp only [List.mem_singleton] at h
      rw [h]; decide
    · simp only [List.mem_cons, List.mem_singleton, List.not_mem_nil, or_false, or_self] at h
      rw [h]; decide

/-- Every character of a sanitized string is a letter, a digit, `-` or `_`. -/
theorem sanitize_allowed (s : String) (d : Char) (h : d ∈ (sanitize s).toList) :
    isFilenameChar d = true := by
  have e : (sanitize s).toList = s.toList.flatMap sanitizeChar := rfl
  rw [e] at h
  obtain ⟨c, _, hd⟩ := List.mem_flatMap.mp h
  exact sanitizeChar_allowed c d hd

/-- Sanitizing leaves a list of allowed characters as it is. -/
theorem sanitize_fixed (l : List Char) (h : ∀ c ∈ l, isFilenameChar c = true) :
    l.flatMap sanitizeChar = l := by
  induction l with
  | nil => rfl
  | cons a l ih =>
    have ha : isFilenameChar a = true := h a (List.mem_cons_self a l)
    have hl : ∀ c ∈ l, isFilenameChar c = true := fun c hc => h c (List.mem_cons_of_mem a hc)
    simp [List.flatMap_cons, sanitizeChar, ha, ih hl]

/-- Sanitizing twice is sanitizing once. -/
theorem sanitize_idempotent (s : String) : sanitize (sanitize s) = sanitize s := by
  have h := sanitize_fixed (sanitize s).toList (fun c hc => sanitize_allowed s c hc)
  show String.mk ((sanitize s).toList.flatMap sanitizeChar) = sanitize s
  rw [h]
  rfl

/-- Two characters are equal exactly when their codes are. -/
theorem char_eq_iff_code (a b : Char) : a = b ↔ a.val.toNat = b.val.toNat := by
  constructor
  · intro h; rw [h]
  · intro h
    apply Char.ext
    exact UInt32.ext h

/-- A character is in the class of `isFilenameChar` exactly when its code is in the
class of `isFilenameUnit`. -/
theorem isFilenameChar_iff_unit (c : Char) : isFilenameChar c = isFilenameUnit c.val.toNat := by
  have hle : ∀ a b : Char, (a ≤ b) ↔ a.val.toNat ≤ b.val.toNat := fun a b => Iff.rfl
  have heq : ∀ d : Char, (c == d) = (c.val.toNat == d.val.toNat) := by
    intro d
    rw [Bool.eq_iff_iff]
    simp only [beq_iff_eq]
    exact char_eq_iff_code c d
  unfold isFilenameChar isFilenameUnit
  simp only [hle, heq]
  rfl

/-- On one character, `sanitizeChar` does to its code units what `specSanitize`
says. -/
theorem sanitizeChar_units (c : Char) :
    (sanitizeChar c).flatMap utf16Units = specSanitize (utf16Units c) := by
  have hu := isFilenameChar_iff_unit c
  unfold sanitizeChar
  by_cases hc : isFilenameChar c = true
  · have hsmall : c.val.toNat < 0x10000 := by
      rw [hu] at hc
      simp only [isFilenameUnit, Bool.or_eq_true, Bool.and_eq_true, decide_eq_true_eq,
        beq_iff_eq] at hc
      omega
    rw [if_pos hc]
    simp only [List.flatMap_cons, List.flatMap_nil, List.append_nil, utf16Units, hsmall, if_true,
      specSanitize, List.map_cons, List.map_nil]
    rw [← hu, hc]
    rfl
  · rw [if_neg hc]
    have hc2 : isFilenameUnit c.val.toNat = false := by
      rw [← hu]; simpa using hc
    by_cases hsmall : c.val.toNat < 0x10000
    · have h2 : c.val < 0x10000 := hsmall
      rw [if_pos h2]
      simp only [List.flatMap_cons, List.flatMap_nil, List.append_nil, utf16Units, hsmall,
        if_true, specSanitize, List.map_cons, List.map_nil, hc2]
      rfl
    · have h2 : ¬ c.val < 0x10000 := hsmall
      rw [if_neg h2]
      have hhi : isFilenameUnit (0xD800 + (c.val.toNat - 0x10000) / 0x400) = false := by
        simp only [isFilenameUnit, Bool.or_eq_false_iff, Bool.and_eq_false_iff,
          decide_eq_false_iff_not, beq_eq_false_iff_ne]
        omega
      have hlo : isFilenameUnit (0xDC00 + (c.val.toNat - 0x10000) % 0x400) = false := by
        simp only [isFilenameUnit, Bool.or_eq_false_iff, Bool.and_eq_false_iff,
          decide_eq_false_iff_not, beq_eq_false_iff_ne]
        omega
      simp only [List.flatMap_cons, List.flatMap_nil, List.append_nil, utf16Units, hsmall,
        if_false, specSanitize, List.map_cons, List.map_nil, hhi, hlo]
      rfl

/-- On code units, `sanitize` does what `specSanitize` says. -/
theorem sanitize_units (s : String) : toUTF16 (sanitize s) = specSanitize (toUTF16 s) := by
  have e : (sanitize s).toList = s.toList.flatMap sanitizeChar := rfl
  unfold toUTF16
  rw [e]
  generalize s.toList = l
  induction l with
  | nil => rfl
  | cons a l ih =>
    rw [List.flatMap_cons, List.flatMap_append, ih, sanitizeChar_units, List.flatMap_cons]
    simp [specSanitize]
/-- The traced `saveImage` returns what `saveImage` returns. -/
theorem StorageService.saveImageTraced_result (st : StorageService) (fs : SaveOutcome)
    (d pos : String) :
    (StorageService.saveImageTraced st fs d pos).1 = StorageService.saveImage st fs d pos := by
  unfold StorageService.saveImageTraced StorageService.saveImage
  split
  · rfl
  · simp only
    split
    · rfl
    · split <;> rfl

/-- A failed write or `stat` makes both save functions return `null`. -/
theorem StorageService.save_failure_null (st : StorageService) (fs : SaveOutcome) (d pos : String)
    (h : fs.writeFile ≠ Except.ok () ∨ ∀ n, fs.stat ≠ Except.ok n) :
    StorageService.saveImage st fs d pos = none
      ∧ StorageService.saveImageFromBase64 st fs d pos = none := by
  have h1 : StorageService.saveImage st fs d pos = none := by
    unfold StorageService.saveImage
    cases hw : fs.writeFile with
    | error e => simp
    | ok u =>
      cases hs : fs.stat with
      | error e => simp
      | ok n =>
        rcases h with h | h
        · exact absurd hw h
        · exact absurd hs (h n)
  refine ⟨h1, ?_⟩
  unfold StorageService.saveImageFromBase64
  split
  · rfl
  · exact h1

/-- C15: whenever the storage service is disabled, for every input `saveImage` and
`saveImageFromBase64` return `null` and make no file system call (in particular
no write), and the event payload built with that service has `image.saved = null`,
whatever the configuration flag says. -/
theorem disabled_storage_saves_nothing (st : StorageService) (h : st.saveImages = false)
    (fs : SaveOutcome) (deviceId position : String) (config : Config) (inp : PayloadInputs) :
    StorageService.saveImageTraced st fs deviceId position = (none, [])
      ∧ StorageService.saveImageFromBase64Traced st fs deviceId position = (none, [])
      ∧ StorageService.saveImage st fs deviceId position = none
      ∧ StorageService.saveImageFromBase64 st fs deviceId position = none
      ∧ (generateEventPayload config st deviceId inp).image.saved = none := by
  refine ⟨?_, ?_, ?_, ?_, ?_⟩
  · simp [StorageService.saveImageTraced, h]
  · simp [StorageService.saveImageFromBase64Traced, h]
  · simp [StorageService.saveImage, h]
  · simp [StorageService.saveImageFromBase64, h]
  · simp [generateEventPayload, StorageService.saveImageFromBase64, h]

/-- Witness for C15: the service built from a configuration with saving switched
off. -/
theorem disabled_storage_saves_nothing_witness :
    StorageService.saveImageTraced
        (StorageService.new { sampleConfig with
          storage := { saveImages := false, tmpFolder := "./tmp/images", timezone := "UTC" } } true)
        sampleInputs.save "CAM-1" "top-left" = (none, []) :=
  (disabled_storage_saves_nothing
    (StorageService.new { sampleConfig with
      storage := { saveImages := false, tmpFolder := "./tmp/images", timezone := "UTC" } } true)
    rfl sampleInputs.save "CAM-1" "top-left" sampleConfig sampleInputs).1

/-- C16: for every device id, position and timestamp, `generateFilename` returns
`T + '_' + S(deviceId) + '_' + S(position) + '.jpg'`, where `T` is the timestamp
formatted with the pattern `YYYY-MM-DD_HH-mm-ss` in the configured timezone, and
`S` replaces every code unit that is not an ASCII letter, digit, `-` or `_` by `_`
and leaves every other code unit unchanged; so `S` preserves the length of the
string (its number of code units) and `S(S(x)) = S(x)`. -/
theorem generateFilename_format :
    (∀ (moment : String → String → String → String) (st : StorageService)
        (deviceId position timestamp : String),
        StorageService.generateFilenameAt moment st deviceId position timestamp
          = moment timestamp st.timezone "YYYY-MM-DD_HH-mm-ss" ++ "_" ++ sanitize deviceId
              ++ "_" ++ sanitize position ++ ".jpg")
      ∧ (∀ s : String, toUTF16 (sanitize s) = specSanitize (toUTF16 s))
      ∧ (∀ s : String, (toUTF16 (sanitize s)).length = (toUTF16 s).length)
      ∧ (∀ s : String, sanitize (sanitize s) = sanitize s) := by
  refine ⟨fun _ _ _ _ _ => rfl, sanitize_units, ?_, sanitize_idempotent⟩
  intro s
  rw [sanitize_units]
  simp [specSanitize]

/-- C30: for every device id and position (whatever characters they contain) and
every formatted timestamp made of digits, `-` and `_` only, the file name produced
by `generateFilename` is a stem of ASCII letters, digits, `-` and `_` followed by
`.jpg`: the stem holds no `/`, no `\` and no dot; and the record `saveImage` returns
carries that name and the path `path.join(tmpFolder, name)`, the name being a
single path component. -/
theorem filename_is_a_single_component (timestampStr deviceId position : String)
    (ht : ∀ c ∈ timestampStr.toList, c.isDigit = true ∨ c = '-' ∨ c = '_') :
    (∃ stem : String,
        StorageService.generateFilename timestampStr deviceId position = stem ++ ".jpg"
          ∧ ∀ c ∈ stem.toList,
              isFilenameChar c = true ∧ c ≠ '/' ∧ c ≠ '\\' ∧ c ≠ '.')
      ∧ (∀ (st : StorageService) (fs : SaveOutcome) (rec : SavedRecord),
          fs.timestampStr = timestampStr →
          StorageService.saveImage st fs deviceId position = some rec →
            rec.filename = StorageService.generateFilename timestampStr deviceId position
              ∧ rec.filepath = FilePath.join st.tmpFolder rec.filename) := by
  have hsep : ∀ c : Char, isFilenameChar c = true → c ≠ '/' ∧ c ≠ '\\' ∧ c ≠ '.' := by
    intro c hc
    refine ⟨?_, ?_, ?_⟩ <;> rintro rfl <;> exact absurd hc (by decide)
  refine ⟨⟨timestampStr ++ "_" ++ sanitize deviceId ++ "_" ++ sanitize position, rfl, ?_⟩, ?_⟩
  · intro c hc
    have hcl : isFilenameChar c = true := by
      simp only [String.toList, String.data_append, List.mem_append] at hc
      rcases hc with (((hc | hc) | hc) | hc) | hc
      · have hd := ht c hc
        rcases hd with hd | hd | hd
        · have h09 : '0' ≤ c ∧ c ≤ '9' := by
            simpa [Char.isDigit, UInt32.le_def, Char.le_def] using hd
          simp [isFilenameChar, h09.1, h09.2]
        · rw [hd]; decide
        · rw [hd]; decide
      · have : c = '_' := by simpa using hc
        rw [this]; decide
      · exact sanitize_allowed deviceId c hc
      · have : c = '_' := by simpa using hc
        rw [this]; decide
      · exact sanitize_allowed position c hc
    exact ⟨hcl, hsep c hcl⟩
  · intro st fs rec hts h
    unfold StorageService.saveImage at h
    split at h
    · exact absurd h (by simp)
    · simp only at h
      split at h
      · exact absurd h (by simp)
      · split at h
        · exact absurd h (by simp)
        · simp only [Option.some.injEq] at h
          subst h
          subst hts
          exact ⟨rfl, rfl⟩

/-- Witness for C30: a device id with path separators and dots. -/
theorem filename_is_a_single_component_witness :
    ∃ stem : String,
      StorageService.generateFilename "2024-05-01_10-00-00" "../../etc/passwd" "top-left"
          = stem ++ ".jpg"
        ∧ ∀ c ∈ stem.toList, isFilenameChar c = true ∧ c ≠ '/' ∧ c ≠ '\\' ∧ c ≠ '.' :=
  (filename_is_a_single_component "2024-05-01_10-00-00" "../../etc/passwd" "top-left"
    (by decide)).1
/-- C17: for every input, when the file write or the following `stat` fails,
`saveImage` and `saveImageFromBase64` return `null` (they are total: nothing is
raised); a tick that waits for its payload and gets it with such a failed save
builds the payload with `image.saved = null` and, once its send resolves (other
turns `es` in between), publishes the message of that payload and posts
`event-sent`; and when the configuration asks for saving and the save returns a
record, `image.saved` is exactly `{filename, filepath, diskSize}` taken from it. -/
theorem failed_save_still_publishes (config : Config) (w : Worker) (i : Nat) (t : Tick)
    (inp : PayloadInputs) (now : Nat) (r3 r4 : ℚ) (es : List Event)
    (ht : w.ticks.find? (fun x => x.id == i) = some t) (hs : t.stage = Stage.generating)
    (hes : ∀ e ∈ es, e.resumes i = false)
    (hfail : inp.save.writeFile ≠ Except.ok () ∨ ∀ n, inp.save.stat ≠ Except.ok n) :
    (∀ (st : StorageService) (d pos : String),
        StorageService.saveImage st inp.save d pos = none
          ∧ StorageService.saveImageFromBase64 st inp.save d pos = none)
      ∧ (generateEventPayload config w.storage t.deviceId inp).image.saved = none
      ∧ (Worker.run config w
            ([Event.resume i (Outcome.payload inp now) r3] ++ es
              ++ [Event.resume i Outcome.ok r4])).published
          = (Worker.run config w ([Event.resume i (Outcome.payload inp now) r3] ++ es)).published
            ++ [Worker.messageOf config w t.deviceId inp now]
      ∧ (Worker.run config w
            ([Event.resume i (Outcome.payload inp now) r3] ++ es
              ++ [Event.resume i Outcome.ok r4])).reports
          = (Worker.run config w ([Event.resume i (Outcome.payload inp now) r3] ++ es)).reports
            ++ [Report.eventSent t.deviceId inp.timestamp]
      ∧ (∀ (st : StorageService) (d : DeviceId) (good : PayloadInputs) (rec : SavedRecord),
          config.storage.saveImages = true →
          StorageService.saveImageFromBase64 st good.save d good.imageData.position = some rec →
            (generateEventPayload config st d good).image.saved
              = some { filename := rec.filename, filepath := rec.filepath,
                       diskSize := rec.size }) := by
  obtain ⟨_, _, c, d⟩ := Worker.tick_from_payload config w i t inp now r3 r4 es ht hs hes
  refine ⟨fun st d pos => StorageService.save_failure_null st inp.save d pos hfail, ?_, c, d, ?_⟩
  · have h := (StorageService.save_failure_null w.storage inp.save t.deviceId
      inp.imageData.position hfail).2
    simp only [generateEventPayload]
    split
    · rw [h]; rfl
    · rfl
  · intro st d good rec hc hrec
    simp only [generateEventPayload, hc, if_true, hrec, Option.map_some']

/-- Witness for C17: the first tick of `A`, connected, whose file write fails. -/
theorem failed_save_still_publishes_witness :
    (generateEventPayload sampleConfig
        (Worker.run sampleConfig sampleWorker
          [Event.message (Command.addDevice "A"), Event.resume 0 Outcome.ok 0,
           Event.resume 0 Outcome.ok 0]).storage
        "A" failedWriteInputs).image.saved = none :=
  (failed_save_still_publishes sampleConfig
    (Worker.run sampleConfig sampleWorker
      [Event.message (Command.addDevice "A"), Event.resume 0 Outcome.ok 0,
       Event.resume 0 Outcome.ok 0])
    0 { id := 0, deviceId := "A", stage := Stage.generating } failedWriteInputs 1714557600000
    0 (1 / 2) [] (by decide) rfl (by decide) (Or.inl (by decide))).2.1
/-- One turn of the loop of `cleanupOldImages` in closed form. -/
theorem StorageService.sweepFile_eq (now : Int) (maxAgeMs : ℚ) (acc : CleanupState)
    (f : StoredFile) :
    StorageService.sweepFile now maxAgeMs acc f
      = { deleted := acc.deleted + (if StoredFile.isRemoved now maxAgeMs f then 1 else 0)
          errors := acc.errors + (if StoredFile.isFailure now maxAgeMs f then 1 else 0)
          unlinked := acc.unlinked ++ (if StoredFile.isRemoved now maxAgeMs f then [f] else []) } := by
  rcases f with ⟨name, size, mtime, se, ue⟩
  cases se with
  | some e => simp [StorageService.sweepFile, StoredFile.isRemoved, StoredFile.isFailure]
  | none =>
    by_cases hold : ((now - mtime : Int) : ℚ) > maxAgeMs
    · have hd : decide (((now - mtime : Int) : ℚ) > maxAgeMs) = true := decide_eq_true hold
      cases ue with
      | some e =>
        simp only [StorageService.sweepFile, StoredFile.isRemoved, StoredFile.isFailure, hd,
          if_pos hold]
        simp
      | none =>
        simp only [StorageService.sweepFile, StoredFile.isRemoved, StoredFile.isFailure, hd,
          if_pos hold]
        simp
    · have hd : decide (((now - mtime : Int) : ℚ) > maxAgeMs) = false := decide_eq_false hold
      simp only [StorageService.sweepFile, StoredFile.isRemoved, StoredFile.isFailure, hd,
        if_neg hold]
      simp

/-- The loop of `cleanupOldImages` in closed form: it counts and unlinks the files
that are removed, and counts the files on which a call fails. -/
theorem StorageService.sweep_fold (now : Int) (maxAgeMs : ℚ) (files : List StoredFile)
    (acc : CleanupState) :
    files.foldl (StorageService.sweepFile now maxAgeMs) acc
      = { deleted := acc.deleted + (files.filter (StoredFile.isRemoved now maxAgeMs)).length
          errors := acc.errors + (files.filter (StoredFile.isFailure now maxAgeMs)).length
          unlinked := acc.unlinked ++ files.filter (StoredFile.isRemoved now maxAgeMs) } := by
  induction files generalizing acc with
  | nil => simp
  | cons f files ih =>
    rw [List.foldl_cons, ih, StorageService.sweepFile_eq]
    cases hr : StoredFile.isRemoved now maxAgeMs f <;>
      cases hf : StoredFile.isFailure now maxAgeMs f <;>
      simp [List.filter_cons, hr, hf] <;> omega

/-- `cleanupOldImages` in closed form, when storage is enabled and the folder can be
listed. -/
theorem StorageService.cleanup_enabled (st : StorageService) (folder : Folder) (now : Int)
    (h : ℚ) (he : st.saveImages = true) (hp : folder.present = true)
    (hr : folder.readdirError = none) :
    StorageService.cleanupOldImages st folder now h
      = { deleted := ((folder.files.filter (fun f => endsWithJpg f.name)).filter
            (StoredFile.isRemoved now (h * 60 * 60 * 1000))).length
          errors := ((folder.files.filter (fun f => endsWithJpg f.name)).filter
            (StoredFile.isFailure now (h * 60 * 60 * 1000))).length
          unlinked := (folder.files.filter (fun f => endsWithJpg f.name)).filter
            (StoredFile.isRemoved now (h * 60 * 60 * 1000)) } := by
  unfold StorageService.cleanupOldImages
  simp only [he, hp, hr, Bool.not_true, Bool.or_self, Bool.false_eq_true, if_false]
  rw [StorageService.sweep_fold]
  simp

/-- Every file `cleanupOldImages` unlinks is a listed `.jpg` file of the folder that
the loop removes. -/
theorem StorageService.cleanup_unlinked (st : StorageService) (folder : Folder) (now : Int)
    (h : ℚ) (f : StoredFile)
    (hf : f ∈ (StorageService.cleanupOldImages st folder now h).unlinked) :
    f ∈ folder.files ∧ endsWithJpg f.name = true
      ∧ StoredFile.isRemoved now (h * 60 * 60 * 1000) f = true := by
  unfold StorageService.cleanupOldImages at hf
  split at hf
  · simp at hf
  · simp only at hf
    split at hf
    · simp at hf
    · rw [StorageService.sweep_fold] at hf
      simp only [List.nil_append, List.mem_filter] at hf
      exact ⟨hf.1.1, hf.1.2, hf.2⟩
/-- A file that the loop removes is older than the threshold. -/
theorem StoredFile.isRemoved_old (now : Int) (maxAgeMs : ℚ) (f : StoredFile)
    (h : StoredFile.isRemoved now maxAgeMs f = true) : ((now - f.mtime : Int) : ℚ) > maxAgeMs := by
  simp only [StoredFile.isRemoved, Bool.and_eq_true, decide_eq_true_eq] at h
  exact h.1.2

/-- C18: for every folder content, threshold `h` (hours) and current time,
`cleanupOldImages(h)` never deletes a file whose age `now - mtime` is less than
`h` hours, and a file whose age is exactly `h` hours is kept as well: such a file
is not unlinked and, when it was in the folder, is still there afterwards. -/
theorem cleanup_keeps_young_files (st : StorageService) (folder : Folder) (now : Int) (h : ℚ)
    (f : StoredFile) (hage : ((now - f.mtime : Int) : ℚ) ≤ h * 60 * 60 * 1000) :
    f ∉ (StorageService.cleanupOldImages st folder now h).unlinked
      ∧ (f ∈ folder.files →
          f ∈ Folder.afterCleanup folder (StorageService.cleanupOldImages st folder now h)) := by
  have hnot : f ∉ (StorageService.cleanupOldImages st folder now h).unlinked := by
    intro hf
    have hold := StoredFile.isRemoved_old now _ f
      (StorageService.cleanup_unlinked st folder now h f hf).2.2
    exact absurd hage (not_le.mpr hold)
  refine ⟨hnot, fun hin => ?_⟩
  unfold Folder.afterCleanup
  rw [List.mem_filter]
  exact ⟨hin, by simpa using hnot⟩

/-- Witness for C18: a `.jpg` file exactly one hour old, with the threshold one
hour. -/
theorem cleanup_keeps_young_files_witness :
    { name := "a.jpg", size := 10, mtime := 3600000, statError := none, unlinkError := none }
      ∉ (StorageService.cleanupOldImages
          { saveImages := true, tmpFolder := "./tmp/images", timezone := "UTC" }
          { present := true, readdirError := none
            files := [{ name := "a.jpg", size := 10, mtime := 3600000, statError := none,
                        unlinkError := none }] }
          7200000 1).unlinked :=
  (cleanup_keeps_young_files
    { saveImages := true, tmpFolder := "./tmp/images", timezone := "UTC" }
    { present := true, readdirError := none
      files := [{ name := "a.jpg", size := 10, mtime := 3600000, statError := none,
                  unlinkError := none }] }
    7200000 1
    { name := "a.jpg", size := 10, mtime := 3600000, statError := none, unlinkError := none }
    (by norm_num)).1

/-- Counterexample to C19: at time 7200000 with the threshold one hour, a file
`frame.png` modified at time 0 lies in the folder of an enabled service and is not
deleted; and with the service disabled a file `a.jpg` modified at time 0 is not
deleted either.  No call fails in either case. -/
theorem cleanup_skips_other_files :
    (StorageService.cleanupOldImages
        { saveImages := true, tmpFolder := "./tmp/images", timezone := "UTC" }
        { present := true, readdirError := none
          files := [{ name := "frame.png", size := 10, mtime := 0, statError := none,
                      unlinkError := none }] }
        7200000 1) = { deleted := 0, errors := 0, unlinked := [] }
      ∧ (StorageService.cleanupOldImages
        { saveImages := false, tmpFolder := "./tmp/images", timezone := "UTC" }
        { present := true, readdirError := none
          files := [{ name := "a.jpg", size := 10, mtime := 0, statError := none,
                      unlinkError := none }] }
        7200000 1) = { deleted := 0, errors := 0, unlinked := [] }
      ∧ (((7200000 - 0 : Int) : ℚ) > 1 * 60 * 60 * 1000) := by
  refine ⟨by decide, by decide, by norm_num⟩

/-- C19 (amended): when storage is enabled and the folder exists and can be listed,
for every folder content, threshold `h` (hours) and current time,
`cleanupOldImages(h)` deletes every file of the folder whose name ends in `.jpg`
and whose modification time is older than `now` minus `h` hours, barring an error
of `stat` or `unlink` on that file. -/
theorem cleanup_deletes_old_jpg_files (st : StorageService) (folder : Folder) (now : Int)
    (h : ℚ) (f : StoredFile) (he : st.saveImages = true) (hp : folder.present = true)
    (hr : folder.readdirError = none) (hin : f ∈ folder.files)
    (hjpg : endsWithJpg f.name = true)
    (hold : ((now - f.mtime : Int) : ℚ) > h * 60 * 60 * 1000)
    (hstat : f.statError = none) (hunlink : f.unlinkError = none) :
    f ∈ (StorageService.cleanupOldImages st folder now h).unlinked
      ∧ f ∉ Folder.afterCleanup folder (StorageService.cleanupOldImages st folder now h) := by
  have hmem : f ∈ (StorageService.cleanupOldImages st folder now h).unlinked := by
    rw [StorageService.cleanup_enabled st folder now h he hp hr]
    simp only [List.mem_filter]
    refine ⟨⟨hin, hjpg⟩, ?_⟩
    simp only [StoredFile.isRemoved, hstat, hunlink, Option.isNone_none, Bool.and_true,
      Bool.true_and, decide_eq_true_eq]
    exact hold
  refine ⟨hmem, ?_⟩
  unfold Folder.afterCleanup
  rw [List.mem_filter]
  rintro ⟨_, hc⟩
  simp only [Bool.not_eq_true', List.contains_eq_any_beq, List.any_eq_false, beq_iff_eq] at hc
  exact hc f hmem rfl

/-- Witness for C19: a `.jpg` file two hours old, with the threshold one hour. -/
theorem cleanup_deletes_old_jpg_files_witness :
    { name := "a.jpg", size := 10, mtime := 0, statError := none, unlinkError := none }
      ∈ (StorageService.cleanupOldImages
          { saveImages := true, tmpFolder := "./tmp/images", timezone := "UTC" }
          { present := true, readdirError := none
            files := [{ name := "a.jpg", size := 10, mtime := 0, statError := none,
                        unlinkError := none }] }
          7200000 1).unlinked :=
  (cleanup_deletes_old_jpg_files
    { saveImages := true, tmpFolder := "./tmp/images", timezone := "UTC" }
    { present := true, readdirError := none
      files := [{ name := "a.jpg", size := 10, mtime := 0, statError := none,
                  unlinkError := none }] }
    7200000 1
    { name := "a.jpg", size := 10, mtime := 0, statError := none, unlinkError := none }
    rfl rfl rfl (by decide) (by decide) (by norm_num) rfl rfl).1
/-- C20: for every list of stored files and every pattern of `stat` and `unlink`
failures on them, when storage is enabled and the folder can be listed, the sweep
handles every listed (`.jpg`) file on its own: a file is removed exactly when it is
listed, its `stat` succeeds, it is older than the threshold and its `unlink`
succeeds, whatever happens on the other files of the folder (`other` is any
second folder content holding the same file); the returned `deleted` is the number
of files removed and the returned `errors` is the number of listed files on which
`stat` or `unlink` failed. -/
theorem cleanup_counts_and_isolates_failures (st : StorageService) (folder : Folder)
    (now : Int) (h : ℚ) (he : st.saveImages = true) (hp : folder.present = true)
    (hr : folder.readdirError = none) :
    (∀ f, f ∈ (StorageService.cleanupOldImages st folder now h).unlinked
        ↔ f ∈ folder.files ∧ endsWithJpg f.name = true
            ∧ StoredFile.isRemoved now (h * 60 * 60 * 1000) f = true)
      ∧ (∀ (other : Folder) (f : StoredFile), other.present = true →
          other.readdirError = none → f ∈ folder.files → f ∈ other.files →
          (f ∈ (StorageService.cleanupOldImages st folder now h).unlinked
            ↔ f ∈ (StorageService.cleanupOldImages st other now h).unlinked))
      ∧ (StorageService.cleanupOldImages st folder now h).deleted
        = (StorageService.cleanupOldImages st folder now h).unlinked.length
      ∧ (StorageService.cleanupOldImages st folder now h).errors
        = ((folder.files.filter (fun f => endsWithJpg f.name)).filter
            (StoredFile.isFailure now (h * 60 * 60 * 1000))).length := by
  have hchar : ∀ (fo : Folder), fo.present = true → fo.readdirError = none → ∀ f,
      (f ∈ (StorageService.cleanupOldImages st fo now h).unlinked
        ↔ f ∈ fo.files ∧ endsWithJpg f.name = true
            ∧ StoredFile.isRemoved now (h * 60 * 60 * 1000) f = true) := by
    intro fo hp2 hr2 f
    rw [StorageService.cleanup_enabled st fo now h he hp2 hr2]
    simp only [List.mem_filter, and_assoc]
  refine ⟨hchar folder hp hr, ?_, ?_, ?_⟩
  · intro other f hop hor hin hin2
    rw [hchar folder hp hr f, hchar other hop hor f]
    constructor
    · exact fun ⟨_, a, b⟩ => ⟨hin2, a, b⟩
    · exact fun ⟨_, a, b⟩ => ⟨hin, a, b⟩
  · rw [StorageService.cleanup_enabled st folder now h he hp hr]
  · rw [StorageService.cleanup_enabled st folder now h he hp hr]

/-- Witness for C20: three `.jpg` files two hours old, the `stat` of the second
failing; the first and the third are removed. -/
theorem cleanup_counts_and_isolates_failures_witness :
    (StorageService.cleanupOldImages
        { saveImages := true, tmpFolder := "./tmp/images", timezone := "UTC" }
        { present := true, readdirError := none
          files := [{ name := "a.jpg", size := 10, mtime := 0, statError := none,
                      unlinkError := none },
                    { name := "b.jpg", size := 10, mtime := 0, statError := some "EACCES",
                      unlinkError := none },
                    { name := "c.jpg", size := 10, mtime := 0, statError := none,
                      unlinkError := none }] }
        7200000 1).deleted
      = (StorageService.cleanupOldImages
          { saveImages := true, tmpFolder := "./tmp/images", timezone := "UTC" }
          { present := true, readdirError := none
            files := [{ name := "a.jpg", size := 10, mtime := 0, statError := none,
                        unlinkError := none },
                      { name := "b.jpg", size := 10, mtime := 0, statError := some "EACCES",
                        unlinkError := none },
                      { name := "c.jpg", size := 10, mtime := 0, statError := none,
                        unlinkError := none }] }
          7200000 1).unlinked.length :=
  (cleanup_counts_and_isolates_failures
    { saveImages := true, tmpFolder := "./tmp/images", timezone := "UTC" }
    { present := true, readdirError := none
      files := [{ name := "a.jpg", size := 10, mtime := 0, statError := none,
                  unlinkError := none },
                { name := "b.jpg", size := 10, mtime := 0, statError := some "EACCES",
                  unlinkError := none },
                { name := "c.jpg", size := 10, mtime := 0, statError := none,
                  unlinkError := none }] }
    7200000 1 rfl rfl rfl).2.2.1

/-- The sum computed by the `forEach` of `getStorageStats` when no `stat` fails. -/
theorem StorageService.sumSizes_ok (files : List StoredFile)
    (h : ∀ f ∈ files, f.statError = none) :
    StorageService.sumSizes files = Except.ok (files.map (fun f => f.size)).sum := by
  induction files with
  | nil => rfl
  | cons f files ih =>
    have hf : f.statError = none := h f (List.mem_cons_self f files)
    have hr := ih (fun g hg => h g (List.mem_cons_of_mem f hg))
    simp [StorageService.sumSizes, hf, hr]

/-- C21: for every folder content, `getStorageStats` returns `enabled = false` with
`totalFiles = 0` and `totalSize = 0` when storage is disabled or the folder is
absent; otherwise, no call failing, it returns `enabled = true` with `totalFiles`
the number of stored image files (the files whose name ends in `.jpg`) and
`totalSize` the sum of their byte sizes. -/
theorem storage_stats_count_and_sum (st : StorageService) (folder : Folder) :
    ((st.saveImages = false ∨ folder.present = false) →
        (StorageService.getStorageStats st folder).enabled = false
          ∧ (StorageService.getStorageStats st folder).totalFiles = 0
          ∧ (StorageService.getStorageStats st folder).totalSize = 0)
      ∧ (st.saveImages = true → folder.present = true → folder.readdirError = none →
          (∀ f ∈ folder.files.filter (fun f => endsWithJpg f.name), f.statError = none) →
          (StorageService.getStorageStats st folder).enabled = true
            ∧ (StorageService.getStorageStats st folder).totalFiles
              = (folder.files.filter (fun f => endsWithJpg f.name)).length
            ∧ (StorageService.getStorageStats st folder).totalSize
              = ((folder.files.filter (fun f => endsWithJpg f.name)).map
                  (fun f => f.size)).sum) := by
  constructor
  · intro h
    have hc : (!st.saveImages || !folder.present) = true := by
      rcases h with h | h <;> simp [h]
    unfold StorageService.getStorageStats
    rw [if_pos hc]
    exact ⟨rfl, rfl, rfl⟩
  · intro he hp hr hs
    have hsum := StorageService.sumSizes_ok _ hs
    unfold StorageService.getStorageStats
    simp only [he, hp, hr, Bool.not_true, Bool.or_self, Bool.false_eq_true, if_false, hsum]
    simp

/-- Witness for C21: two images and a text file in the folder of an enabled
service. -/
theorem storage_stats_count_and_sum_witness :
    (StorageService.getStorageStats
        { saveImages := true, tmpFolder := "./tmp/images", timezone := "UTC" }
        { present := true, readdirError := none
          files := [{ name := "a.jpg", size := 10, mtime := 0, statError := none,
                      unlinkError := none },
                    { name := "notes.txt", size := 7, mtime := 0, statError := none,
                      unlinkError := none },
                    { name := "c.jpg", size := 32, mtime := 0, statError := none,
                      unlinkError := none }] }).enabled = true :=
  ((storage_stats_count_and_sum
    { saveImages := true, tmpFolder := "./tmp/images", timezone := "UTC" }
    { present := true, readdirError := none
      files := [{ name := "a.jpg", size := 10, mtime := 0, statError := none,
                  unlinkError := none },
                { name := "notes.txt", size := 7, mtime := 0, statError := none,
                  unlinkError := none },
                { name := "c.jpg", size := 32, mtime := 0, statError := none,
                  unlinkError := none }] }).2 rfl rfl rfl (by decide)).1

/-! ### Numerals, configuration, controller and scripts -/

/-- The code of a decimal digit lies between 48 and 57. -/
theorem digit_code (c : Char) (h : '0' ≤ c ∧ c ≤ '9') : 48 ≤ c.val.toNat ∧ c.val.toNat ≤ 57 := h

/-- A decimal digit is not white space. -/
theorem digit_not_whitespace (c : Char) (h : '0' ≤ c ∧ c ≤ '9') : jsWhitespace c = false := by
  have hc := digit_code c h
  simp only [jsWhitespace, decide_eq_false_iff_not, List.mem_cons, List.mem_singleton,
    List.not_mem_nil, or_false]
  omega

/-- A decimal digit is none of the characters `-`, `+`, `x`, `X`. -/
theorem digit_not_sign (c : Char) (h : '0' ≤ c ∧ c ≤ '9') :
    c ≠ '-' ∧ c ≠ '+' ∧ c ≠ 'x' ∧ c ≠ 'X' := by
  have hc := digit_code c h
  refine ⟨?_, ?_, ?_, ?_⟩ <;> rintro rfl <;> revert hc <;> decide

/-- Reading a run of decimal digits that goes to the end of the list. -/
theorem readDigits_decimal (ds : List Char) (h : ∀ c ∈ ds, '0' ≤ c ∧ c ≤ '9') (acc : Nat) :
    readDigits 10 ds true acc = some (ds.foldl (fun a c => a * 10 + (c.toNat - 48)) acc) := by
  induction ds generalizing acc with
  | nil => rfl
  | cons c cs ih =>
    have hc := h c (List.mem_cons_self c cs)
    have hcs : ∀ x ∈ cs, '0' ≤ x ∧ x ≤ '9' := fun x hx => h x (List.mem_cons_of_mem c hx)
    simp only [readDigits, radixDigit, hc, and_self, if_true, List.foldl_cons]
    exact ih hcs _

/-- What the members of a decimal numeral are. -/
theorem isDecimalNumeral_iff (ds : List Char) :
    isDecimalNumeral ds = true ↔ ds ≠ [] ∧ ∀ c ∈ ds, '0' ≤ c ∧ c ≤ '9' := by
  cases ds with
  | nil => simp [isDecimalNumeral]
  | cons c cs => simp [isDecimalNumeral]

/-- `parseInt` of a decimal numeral is the number value of the integer it denotes. -/
theorem jsParseInt_numeral (ds : List Char) (h : isDecimalNumeral ds = true) :
    jsParseInt (String.mk ds) = JSNumber.round (decimalValue ds : Int) := by
  obtain ⟨hne, hd⟩ := (isDecimalNumeral_iff ds).mp h
  cases ds with
  | nil => exact absurd rfl hne
  | cons c cs =>
    have hc := hd c (List.mem_cons_self c cs)
    have hws := digit_not_whitespace c hc
    obtain ⟨hm, hp, hx, hX⟩ := digit_not_sign c hc
    have hbody : (String.mk (c :: cs)).toList.dropWhile jsWhitespace = c :: cs := by
      show (c :: cs).dropWhile jsWhitespace = c :: cs
      rw [List.dropWhile_cons, hws]
      rfl
    have hhex : ¬ ((c :: cs).take 2 = ['0', 'x'] ∨ (c :: cs).take 2 = ['0', 'X']) := by
      cases cs with
      | nil => simp
      | cons e es =>
        have he := hd e (List.mem_cons_of_mem c (List.mem_cons_self e es))
        obtain ⟨_, _, hex, heX⟩ := digit_not_sign e he
        simp [hex, heX]
    have hread : readDigits 10 (c :: cs) false 0 = some (decimalValue (c :: cs)) := by
      have hcs : ∀ x ∈ cs, '0' ≤ x ∧ x ≤ '9' := fun x hx => hd x (List.mem_cons_of_mem c hx)
      simp only [readDigits, radixDigit, hc, and_self, if_true, decimalValue, List.foldl_cons]
      exact readDigits_decimal cs hcs _
    unfold jsParseInt
    simp only [hbody, List.head?_cons, Option.some.injEq, hm, hp, or_self, if_false, hhex, hread]

/-- `parseInt` of the decimal numeral of a number up to `2 ^ 53` is that number. -/
theorem jsParseInt_numeral_safe (ds : List Char) (h : isDecimalNumeral ds = true)
    (hs : decimalValue ds ≤ 2 ^ 53) :
    jsParseInt (String.mk ds) = JSNumber.finite (decimalValue ds : Int) := by
  rw [jsParseInt_numeral ds h]
  exact JSNumber.round_safe _ (by simpa using hs)

/-- The number value of an integer is not `NaN`. -/
theorem JSNumber.round_isNaN (n : Int) : (JSNumber.round n).isNaN = false := by
  unfold JSNumber.round
  cases roundNat n.natAbs <;> rfl

/-- A product of natural numbers that is at most `2 ^ 53` is exact. -/
theorem JSNumber.mul_nat_safe (a b : Nat) (h : a * b ≤ 2 ^ 53) :
    (JSNumber.finite (a : Int)).mul (JSNumber.finite (b : Int))
      = JSNumber.finite ((a * b : Nat) : Int) := by
  rw [JSNumber.mul_safe (a : Int) (b : Int) (by simpa [Int.natAbs_mul] using h)]
  push_cast
  rfl

/-- The last character of a decimal numeral is a digit, so none of `s`, `m`, `h`,
`d`. -/
theorem numeral_last_not_unit (ds : List Char) (h : isDecimalNumeral ds = true) :
    ds.getLast? ∉ [some 's', some 'm', some 'h', some 'd'] := by
  obtain ⟨hne, hd⟩ := (isDecimalNumeral_iff ds).mp h
  have hl : ds.getLast? = some (ds.getLast hne) := List.getLast?_eq_getLast _ hne
  have hc := digit_code _ (hd _ (List.getLast_mem hne))
  rw [hl]
  generalize ds.getLast hne = c at hc
  simp only [List.mem_cons, Option.some.injEq, List.mem_singleton, List.not_mem_nil, or_false]
  rintro (rfl | rfl | rfl | rfl) <;> revert hc <;> decide

/-- The updater's `timeToMs` on a decimal numeral followed by a unit letter: the
products of the source, each rounded. -/
theorem KafkaRetentionUpdater.updaterTimeToMs_numeral (ds : List Char) (u : Char)
    (h : isDecimalNumeral ds = true) (hu : u ∈ ['s', 'm', 'h', 'd']) :
    KafkaRetentionUpdater.timeToMs (String.mk (ds ++ [u]))
      = Except.ok
          (if u = 's' then (JSNumber.round (decimalValue ds : Int)).mul (JSNumber.finite 1000)
           else if u = 'm' then
             ((JSNumber.round (decimalValue ds : Int)).mul (JSNumber.finite 60)).mul
               (JSNumber.finite 1000)
           else if u = 'h' then
             (((JSNumber.round (decimalValue ds : Int)).mul (JSNumber.finite 60)).mul
               (JSNumber.finite 60)).mul (JSNumber.finite 1000)
           else
             ((((JSNumber.round (decimalValue ds : Int)).mul (JSNumber.finite 24)).mul
               (JSNumber.finite 60)).mul (JSNumber.finite 60)).mul (JSNumber.finite 1000)) := by
  have hl : (String.mk (ds ++ [u])).toList.getLast? = some u := by
    show (ds ++ [u]).getLast? = some u
    simp
  have hd : (String.mk (ds ++ [u])).toList.dropLast = ds := by
    show (ds ++ [u]).dropLast = ds
    simp
  unfold KafkaRetentionUpdater.timeToMs
  simp only [hl, hd, jsParseInt_numeral ds h, JSNumber.round_isNaN, Option.map_some']
  simp only [List.mem_cons, List.mem_singleton, List.not_mem_nil, or_false] at hu
  rcases hu with rfl | rfl | rfl | rfl <;> simp +decide

/-- The admin service's `timeToMs` on a decimal numeral followed by a unit letter:
one product, rounded. -/
theorem KafkaAdminService.adminTimeToMs_numeral (ds : List Char) (u : Char) (factor : Int)
    (h : isDecimalNumeral ds = true) (hu : KafkaAdminService.timeUnits u = some factor) :
    KafkaAdminService.timeToMs (String.mk (ds ++ [u]))
      = Except.ok ((JSNumber.round (decimalValue ds : Int)).mul (JSNumber.finite factor)) := by
  have hl : (String.mk (ds ++ [u])).toList.getLast? = some u := by
    show (ds ++ [u]).getLast? = some u
    simp
  have hd : (String.mk (ds ++ [u])).toList.dropLast = ds := by
    show (ds ++ [u]).dropLast = ds
    simp
  unfold KafkaAdminService.timeToMs
  simp only [hl, hd, jsParseInt_numeral ds h, h, Option.some_bind, hu]

/-- With the product at most `2 ^ 53`, the chain of products of the updater and the
single product of the admin service are both the exact product. -/
theorem timeToMs_products_safe (n : Nat) :
    (n * 1000 ≤ 2 ^ 53 →
        (JSNumber.round (n : Int)).mul (JSNumber.finite 1000)
          = JSNumber.finite ((n : Int) * 1000))
      ∧ (n * 60000 ≤ 2 ^ 53 →
        ((JSNumber.round (n : Int)).mul (JSNumber.finite 60)).mul (JSNumber.finite 1000)
            = JSNumber.finite ((n : Int) * 60000)
          ∧ (JSNumber.round (n : Int)).mul (JSNumber.finite 60000)
            = JSNumber.finite ((n : Int) * 60000))
      ∧ (n * 3600000 ≤ 2 ^ 53 →
        (((JSNumber.round (n : Int)).mul (JSNumber.finite 60)).mul (JSNumber.finite 60)).mul
              (JSNumber.finite 1000)
            = JSNumber.finite ((n : Int) * 3600000)
          ∧ (JSNumber.round (n : Int)).mul (JSNumber.finite 3600000)
            = JSNumber.finite ((n : Int) * 3600000))
      ∧ (n * 86400000 ≤ 2 ^ 53 →
        ((((JSNumber.round (n : Int)).mul (JSNumber.finite 24)).mul (JSNumber.finite 60)).mul
              (JSNumber.finite 60)).mul (JSNumber.finite 1000)
            = JSNumber.finite ((n : Int) * 86400000)
          ∧ (JSNumber.round (n : Int)).mul (JSNumber.finite 86400000)
            = JSNumber.finite ((n : Int) * 86400000)) := by
  have hr : n ≤ 2 ^ 53 → JSNumber.round (n : Int) = JSNumber.finite (n : Int) :=
    fun hn => JSNumber.round_safe _ (by simpa using hn)
  have hm : ∀ (a b : Nat), a * b ≤ 2 ^ 53 →
      (JSNumber.finite (a : Int)).mul (JSNumber.finite ((b : Nat) : Int))
        = JSNumber.finite ((a * b : Nat) : Int) := JSNumber.mul_nat_safe
  refine ⟨?_, ?_, ?_, ?_⟩
  · intro hb
    rw [hr (by omega)]
    have h1 := hm n 1000 hb
    rw [show (JSNumber.finite 1000) = JSNumber.finite ((1000 : Nat) : Int) from rfl, h1]
    push_cast
    rfl
  · intro hb
    rw [hr (by omega)]
    have h1 := hm n 60 (by omega)
    have h2 := hm (n * 60) 1000 (by omega)
    have h3 := hm n 60000 hb
    refine ⟨?_, ?_⟩
    · rw [show (JSNumber.finite 60) = JSNumber.finite ((60 : Nat) : Int) from rfl, h1,
        show (JSNumber.finite 1000) = JSNumber.finite ((1000 : Nat) : Int) from rfl, h2]
      push_cast
      exact congrArg JSNumber.finite (by ring)
    · rw [show (JSNumber.finite 60000) = JSNumber.finite ((60000 : Nat) : Int) from rfl, h3]
      push_cast
      rfl
  · intro hb
    rw [hr (by omega)]
    have h1 := hm n 60 (by omega)
    have h2 := hm (n * 60) 60 (by omega)
    have h3 := hm (n * 60 * 60) 1000 (by omega)
    have h4 := hm n 3600000 hb
    refine ⟨?_, ?_⟩
    · rw [show (JSNumber.finite 60) = JSNumber.finite ((60 : Nat) : Int) from rfl, h1, h2,
        show (JSNumber.finite 1000) = JSNumber.finite ((1000 : Nat) : Int) from rfl, h3]
      push_cast
      exact congrArg JSNumber.finite (by ring)
    · rw [show (JSNumber.finite 3600000) = JSNumber.finite ((3600000 : Nat) : Int) from rfl, h4]
      push_cast
      rfl
  · intro hb
    rw [hr (by omega)]
    have h0 := hm n 24 (by omega)
    have h1 := hm (n * 24) 60 (by omega)
    have h2 := hm (n * 24 * 60) 60 (by omega)
    have h3 := hm (n * 24 * 60 * 60) 1000 (by omega)
    have h4 := hm n 86400000 hb
    refine ⟨?_, ?_⟩
    · rw [show (JSNumber.finite 24) = JSNumber.finite ((24 : Nat) : Int) from rfl, h0,
        show (JSNumber.finite 60) = JSNumber.finite ((60 : Nat) : Int) from rfl, h1, h2,
        show (JSNumber.finite 1000) = JSNumber.finite ((1000 : Nat) : Int) from rfl, h3]
      push_cast
      exact congrArg JSNumber.finite (by ring)
    · rw [show (JSNumber.finite 86400000) = JSNumber.finite ((86400000 : Nat) : Int) from rfl,
        h4]
      push_cast
      rfl

/-- Counterexample to C29: the argument `9007199254740993` is converted to
9007199254740992 milliseconds, since `parseInt` returns the nearest double; and on
`13344130010205d` the updater, which multiplies by 24, 60, 60 and 1000 in turn,
and `KafkaAdminService.timeToMs`, which multiplies once by 86400000, return
different numbers, neither of them the exact product 1152932832881712000000. -/
theorem large_retention_argument_is_rounded :
    KafkaRetentionUpdater.retentionMs "9007199254740993"
        = Except.ok (JSNumber.finite 9007199254740992)
      ∧ KafkaRetentionUpdater.timeToMs "13344130010205d"
        = Except.ok (JSNumber.finite 1152932832881712168960)
      ∧ KafkaAdminService.timeToMs "13344130010205d"
        = Except.ok (JSNumber.finite 1152932832881712037888)
      ∧ (13344130010205 : Int) * 86400000 = 1152932832881712000000 := by
  decide!

/-- C29 (amended): for every natural number `n` written as a decimal numeral `ds`, the
retention updater converts the argument `ds` to `n` milliseconds when `n ≤ 2 ^ 53`,
and the arguments `ds` followed by `s`, `m`, `h`, `d` to `n * 1000`, `n * 60000`,
`n * 3600000` and `n * 86400000` milliseconds when that product is at most
`2 ^ 53`; and for such a product the updater's `timeToMs` and
`KafkaAdminService.timeToMs` return the same value on the numeral followed by the
unit. -/
theorem retention_argument_to_milliseconds (ds : List Char) (h : isDecimalNumeral ds = true) :
    (decimalValue ds ≤ 2 ^ 53 →
        KafkaRetentionUpdater.retentionMs (String.mk ds)
          = Except.ok (JSNumber.finite (decimalValue ds : Int)))
      ∧ (decimalValue ds * 1000 ≤ 2 ^ 53 →
        KafkaRetentionUpdater.retentionMs (String.mk (ds ++ ['s']))
          = Except.ok (JSNumber.finite ((decimalValue ds : Int) * 1000)))
      ∧ (decimalValue ds * 60000 ≤ 2 ^ 53 →
        KafkaRetentionUpdater.retentionMs (String.mk (ds ++ ['m']))
          = Except.ok (JSNumber.finite ((decimalValue ds : Int) * 60000)))
      ∧ (decimalValue ds * 3600000 ≤ 2 ^ 53 →
        KafkaRetentionUpdater.retentionMs (String.mk (ds ++ ['h']))
          = Except.ok (JSNumber.finite ((decimalValue ds : Int) * 3600000)))
      ∧ (decimalValue ds * 86400000 ≤ 2 ^ 53 →
        KafkaRetentionUpdater.retentionMs (String.mk (ds ++ ['d']))
          = Except.ok (JSNumber.finite ((decimalValue ds : Int) * 86400000)))
      ∧ (∀ (u : Char) (factor : Nat), KafkaAdminService.timeUnits u = some (factor : Int) →
          decimalValue ds * factor ≤ 2 ^ 53 →
          KafkaRetentionUpdater.timeToMs (String.mk (ds ++ [u]))
              = KafkaAdminService.timeToMs (String.mk (ds ++ [u]))
            ∧ KafkaAdminService.timeToMs (String.mk (ds ++ [u]))
              = Except.ok (JSNumber.finite ((decimalValue ds : Int) * factor))) := by
  have hunit : ∀ u ∈ ['s', 'm', 'h', 'd'],
      KafkaRetentionUpdater.retentionMs (String.mk (ds ++ [u]))
        = KafkaRetentionUpdater.timeToMs (String.mk (ds ++ [u])) := by
    intro u hu
    have hl : (String.mk (ds ++ [u])).toList.getLast? = some u := by
      show (ds ++ [u]).getLast? = some u
      simp
    unfold KafkaRetentionUpdater.retentionMs
    rw [hl, if_pos]
    simp only [List.mem_cons, List.mem_singleton, List.not_mem_nil, or_false] at hu ⊢
    rcases hu with rfl | rfl | rfl | rfl <;> simp
  obtain ⟨ps, pm, ph, pd⟩ := timeToMs_products_safe (decimalValue ds)
  refine ⟨?_, ?_, ?_, ?_, ?_, ?_⟩
  · intro hb
    have hnot : (String.mk ds).toList.getLast? ∉ [some 's', some 'm', some 'h', some 'd'] :=
      numeral_last_not_unit ds h
    unfold KafkaRetentionUpdater.retentionMs
    rw [if_neg hnot, jsParseInt_numeral_safe ds h hb]
    rfl
  · intro hb
    rw [hunit 's' (by decide), KafkaRetentionUpdater.updaterTimeToMs_numeral ds 's' h (by decide),
      if_pos rfl, ps hb]
  · intro hb
    rw [hunit 'm' (by decide), KafkaRetentionUpdater.updaterTimeToMs_numeral ds 'm' h (by decide),
      if_neg (by decide), if_pos rfl, (pm hb).1]
  · intro hb
    rw [hunit 'h' (by decide), KafkaRetentionUpdater.updaterTimeToMs_numeral ds 'h' h (by decide),
      if_neg (by decide), if_neg (by decide), if_pos rfl, (ph hb).1]
  · intro hb
    rw [hunit 'd' (by decide), KafkaRetentionUpdater.updaterTimeToMs_numeral ds 'd' h (by decide),
      if_neg (by decide), if_neg (by decide), if_neg (by decide), (pd hb).1]
  · intro u factor hu hb
    rw [KafkaAdminService.adminTimeToMs_numeral ds u factor h hu]
    unfold KafkaAdminService.timeUnits at hu
    split_ifs at hu with h1 h2 h3 h4
    · subst h1
      have hf : factor = 1000 := by exact_mod_cast (Option.some.inj hu).symm
      subst hf
      rw [KafkaRetentionUpdater.updaterTimeToMs_numeral ds 's' h (by decide), if_pos rfl]
      exact ⟨rfl, by rw [show ((1000 : Nat) : Int) = 1000 from rfl, ps hb]⟩
    · subst h2
      have hf : factor = 60000 := by exact_mod_cast (Option.some.inj hu).symm
      subst hf
      rw [KafkaRetentionUpdater.updaterTimeToMs_numeral ds 'm' h (by decide),
        if_neg (by decide), if_pos rfl, show ((60000 : Nat) : Int) = 60000 from rfl,
        (pm hb).1, (pm hb).2]
      exact ⟨rfl, rfl⟩
    · subst h3
      have hf : factor = 3600000 := by exact_mod_cast (Option.some.inj hu).symm
      subst hf
      rw [KafkaRetentionUpdater.updaterTimeToMs_numeral ds 'h' h (by decide),
        if_neg (by decide), if_neg (by decide), if_pos rfl,
        show ((3600000 : Nat) : Int) = 3600000 from rfl, (ph hb).1, (ph hb).2]
      exact ⟨rfl, rfl⟩
    · subst h4
      have hf : factor = 86400000 := by exact_mod_cast (Option.some.inj hu).symm
      subst hf
      rw [KafkaRetentionUpdater.updaterTimeToMs_numeral ds 'd' h (by decide),
        if_neg (by decide), if_neg (by decide), if_neg (by decide),
        show ((86400000 : Nat) : Int) = 86400000 from rfl, (pd hb).1, (pd hb).2]
      exact ⟨rfl, rfl⟩

/-- Witness for C29: the usage examples `2h`, `30m`, `3600000` and `1d`. -/
theorem retention_argument_to_milliseconds_witness :
    KafkaRetentionUpdater.retentionMs "2h" = Except.ok (JSNumber.finite 7200000)
      ∧ KafkaRetentionUpdater.retentionMs "30m" = Except.ok (JSNumber.finite 1800000)
      ∧ KafkaRetentionUpdater.retentionMs "3600000" = Except.ok (JSNumber.finite 3600000)
      ∧ KafkaRetentionUpdater.retentionMs "1d" = Except.ok (JSNumber.finite 86400000)
      ∧ KafkaRetentionUpdater.timeToMs "2h" = KafkaAdminService.timeToMs "2h" :=
  ⟨(retention_argument_to_milliseconds ['2'] (by decide)).2.2.2.1 (by decide),
   (retention_argument_to_milliseconds ['3', '0'] (by decide)).2.2.1 (by decide),
   (retention_argument_to_milliseconds ['3', '6', '0', '0', '0', '0', '0'] (by decide)).1
     (by decide),
   (retention_argument_to_milliseconds ['1'] (by decide)).2.2.2.2.1 (by decide),
   ((retention_argument_to_milliseconds ['2'] (by decide)).2.2.2.2.2 'h' 3600000 rfl
     (by decide)).1⟩

/-- Counterexample to C27: with `MIN_EVENT_INTERVAL=0` and `MAX_EVENT_INTERVAL=0`
the value `0` parses as an integer, and the loaded intervals are the defaults 3000
and 10000, not 0; and with `MIN_EVENT_INTERVAL=9007199254740993` the loaded
interval is 9007199254740992, the double next to the value. -/
theorem zero_interval_falls_back :
    jsParseInt "0" = JSNumber.finite 0
      ∧ Config.loadDevice (some "0") (some "0")
        = { minInterval := JSNumber.finite 3000, maxInterval := JSNumber.finite 10000 }
      ∧ (Config.loadDevice (some "9007199254740993") none).minInterval
        = JSNumber.finite 9007199254740992 := by
  decide!

/-- C27 (amended): for every value of `MIN_EVENT_INTERVAL` (respectively
`MAX_EVENT_INTERVAL`) on which `parseInt` returns a number other than `NaN` and 0,
the loaded configuration has that number as `device.minInterval` (respectively
`device.maxInterval`): for the decimal numeral of an `n` with `1 ≤ n ≤ 2 ^ 53` it
is `n`, and for the numeral of a larger `n` it is the double nearest to `n`; the
defaults 3000 and 10000 apply when the variable is unset, is not numeric or parses
as 0. -/
theorem interval_from_environment (minEnv maxEnv : Option String) :
    (∀ s : String, (jsParseInt s).truthy = true →
        (Config.loadDevice (some s) maxEnv).minInterval = jsParseInt s
          ∧ (Config.loadDevice minEnv (some s)).maxInterval = jsParseInt s)
      ∧ (∀ ds : List Char, isDecimalNumeral ds = true → 1 ≤ decimalValue ds →
          (Config.loadDevice (some (String.mk ds)) maxEnv).minInterval
              = JSNumber.round (decimalValue ds : Int)
            ∧ (Config.loadDevice minEnv (some (String.mk ds))).maxInterval
              = JSNumber.round (decimalValue ds : Int)
            ∧ (decimalValue ds ≤ 2 ^ 53 →
                (Config.loadDevice (some (String.mk ds)) maxEnv).minInterval
                    = JSNumber.finite (decimalValue ds : Int)
                  ∧ (Config.loadDevice minEnv (some (String.mk ds))).maxInterval
                    = JSNumber.finite (decimalValue ds : Int)))
      ∧ (∀ s : String, (jsParseInt s = JSNumber.nan ∨ jsParseInt s = JSNumber.finite 0) →
          (Config.loadDevice (some s) maxEnv).minInterval = JSNumber.finite 3000
            ∧ (Config.loadDevice minEnv (some s)).maxInterval = JSNumber.finite 10000)
      ∧ ((Config.loadDevice none maxEnv).minInterval = JSNumber.finite 3000
          ∧ (Config.loadDevice minEnv none).maxInterval = JSNumber.finite 10000) := by
  have key : ∀ (s : String) (fb : JSNumber), (jsParseInt s).truthy = true →
      Config.intervalFromEnv (some s) fb = jsParseInt s := by
    intro s fb hs
    simp [Config.intervalFromEnv, hs]
  refine ⟨?_, ?_, ?_, ⟨rfl, rfl⟩⟩
  · intro s hs
    exact ⟨key s _ hs, key s _ hs⟩
  · intro ds hds h1
    have hp := jsParseInt_numeral ds hds
    have ht : (jsParseInt (String.mk ds)).truthy = true := by
      rw [hp]
      exact JSNumber.round_truthy _ (by omega)
    have hmin : (Config.loadDevice (some (String.mk ds)) maxEnv).minInterval
        = JSNumber.round (decimalValue ds : Int) := (key _ _ ht).trans hp
    have hmax : (Config.loadDevice minEnv (some (String.mk ds))).maxInterval
        = JSNumber.round (decimalValue ds : Int) := (key _ _ ht).trans hp
    refine ⟨hmin, hmax, fun hb => ?_⟩
    have hs : JSNumber.round (decimalValue ds : Int) = JSNumber.finite (decimalValue ds : Int) :=
      JSNumber.round_safe _ (by simpa using hb)
    exact ⟨hmin.trans hs, hmax.trans hs⟩
  · intro s hs
    rcases hs with hs | hs <;>
      simp [Config.loadDevice, Config.intervalFromEnv, hs, JSNumber.truthy]

/-- Witness for C27: the variables set to `5000` and `7000`. -/
theorem interval_from_environment_witness :
    (Config.loadDevice (some "5000") (some "7000")).minInterval = JSNumber.finite 5000
      ∧ (Config.loadDevice (some "5000") (some "7000")).maxInterval = JSNumber.finite 7000 :=
  ⟨(((interval_from_environment (some "5000") (some "7000")).2.1 ['5', '0', '0', '0']
      (by decide) (by decide)).2.2 (by decide)).1,
   (((interval_from_environment (some "5000") (some "7000")).2.1 ['7', '0', '0', '0']
      (by decide) (by decide)).2.2 (by decide)).2⟩

/-- `Math.round` of a number between two integers lies between them. -/
theorem mathRound_bounds (x : ℚ) (a b : Int) (ha : (a : ℚ) ≤ x) (hb : x < (b : ℚ)) :
    a ≤ mathRound x ∧ mathRound x ≤ b := by
  unfold mathRound
  constructor
  · apply Int.le_floor.mpr
    linarith
  · have : ⌊x + 1 / 2⌋ < b + 1 := by
      apply Int.floor_lt.mpr
      push_cast
      linarith
    omega

/-- C22: for every six draws in `[0,1)` the numeric fields of the payload lie in
their ranges, in exact rational arithmetic: `value` is in `[0,100]` and is an
integer multiple of `0.01`; `battery` is an integer from 1 to 100; `temperature`
is in `[10,60]` and `humidity` in `[20,100]`, each a multiple of `0.1`; `location`
is `zone_k` with `k` from 1 to 5; `recordingMode` is `continuous` or
`motion_detected`, `cameraStatus` is `active` and `eventType` is
`camera_capture`. -/
theorem payload_fields_in_range (config : Config) (storage : StorageService)
    (deviceId : DeviceId) (inp : PayloadInputs)
    (hv : 0 ≤ inp.rValue ∧ inp.rValue < 1) (hl : 0 ≤ inp.rLocation ∧ inp.rLocation < 1)
    (hb : 0 ≤ inp.rBattery ∧ inp.rBattery < 1)
    (ht : 0 ≤ inp.rTemperature ∧ inp.rTemperature < 1)
    (hh : 0 ≤ inp.rHumidity ∧ inp.rHumidity < 1) (_hm : 0 ≤ inp.rMode ∧ inp.rMode < 1) :
    (0 ≤ (generateEventPayload config storage deviceId inp).value
        ∧ (generateEventPayload config storage deviceId inp).value ≤ 100
        ∧ ∃ k : Int, (generateEventPayload config storage deviceId inp).value = (k : ℚ) / 100)
      ∧ (1 ≤ (generateEventPayload config storage deviceId inp).metadata.battery
        ∧ (generateEventPayload config storage deviceId inp).metadata.battery ≤ 100)
      ∧ (10 ≤ (generateEventPayload config storage deviceId inp).metadata.temperature
        ∧ (generateEventPayload config storage deviceId inp).metadata.temperature ≤ 60
        ∧ ∃ k : Int,
            (generateEventPayload config storage deviceId inp).metadata.temperature
              = (k : ℚ) / 10)
      ∧ (20 ≤ (generateEventPayload config storage deviceId inp).metadata.humidity
        ∧ (generateEventPayload config storage deviceId inp).metadata.humidity ≤ 100
        ∧ ∃ k : Int,
            (generateEventPayload config storage deviceId inp).metadata.humidity = (k : ℚ) / 10)
      ∧ (∃ k : Int, 1 ≤ k ∧ k ≤ 5
          ∧ (generateEventPayload config storage deviceId inp).metadata.location
            = "zone_" ++ toString k)
      ∧ ((generateEventPayload config storage deviceId inp).metadata.recordingMode = "continuous"
          ∨ (generateEventPayload config storage deviceId inp).metadata.recordingMode
            = "motion_detected")
      ∧ (generateEventPayload config storage deviceId inp).metadata.cameraStatus = "active"
      ∧ (generateEventPayload config storage deviceId inp).eventType = "camera_capture" := by
  have bv := mathRound_bounds ((inp.rValue * 100) * 100) 0 10000
    (by push_cast; nlinarith [hv.1]) (by push_cast; nlinarith [hv.2])
  have bt := mathRound_bounds ((inp.rTemperature * 50 + 10) * 10) 100 600
    (by push_cast; nlinarith [ht.1]) (by push_cast; nlinarith [ht.2])
  have bh := mathRound_bounds ((inp.rHumidity * 80 + 20) * 10) 200 1000
    (by push_cast; nlinarith [hh.1]) (by push_cast; nlinarith [hh.2])
  have bl0 : 0 ≤ ⌊inp.rLocation * 5⌋ := Int.floor_nonneg.mpr (by nlinarith [hl.1])
  have bl1 : ⌊inp.rLocation * 5⌋ < 5 := Int.floor_lt.mpr (by push_cast; nlinarith [hl.2])
  have bb0 : 0 ≤ ⌊inp.rBattery * 100⌋ := Int.floor_nonneg.mpr (by nlinarith [hb.1])
  have bb1 : ⌊inp.rBattery * 100⌋ < 100 := Int.floor_lt.mpr (by push_cast; nlinarith [hb.2])
  have qv0 : (0 : ℚ) ≤ (mathRound ((inp.rValue * 100) * 100) : ℚ) := by exact_mod_cast bv.1
  have qv1 : (mathRound ((inp.rValue * 100) * 100) : ℚ) ≤ 10000 := by exact_mod_cast bv.2
  have qt0 : (100 : ℚ) ≤ (mathRound ((inp.rTemperature * 50 + 10) * 10) : ℚ) := by
    exact_mod_cast bt.1
  have qt1 : (mathRound ((inp.rTemperature * 50 + 10) * 10) : ℚ) ≤ 600 := by exact_mod_cast bt.2
  have qh0 : (200 : ℚ) ≤ (mathRound ((inp.rHumidity * 80 + 20) * 10) : ℚ) := by
    exact_mod_cast bh.1
  have qh1 : (mathRound ((inp.rHumidity * 80 + 20) * 10) : ℚ) ≤ 1000 := by exact_mod_cast bh.2
  refine ⟨⟨?_, ?_, ⟨_, rfl⟩⟩, ⟨?_, ?_⟩, ⟨?_, ?_, ⟨_, rfl⟩⟩, ⟨?_, ?_, ⟨_, rfl⟩⟩,
    ⟨⌊inp.rLocation * 5⌋ + 1, by omega, by omega, rfl⟩, ?_, rfl, rfl⟩
  · show (0 : ℚ) ≤ (mathRound ((inp.rValue * 100) * 100) : ℚ) / 100
    linarith
  · show (mathRound ((inp.rValue * 100) * 100) : ℚ) / 100 ≤ 100
    linarith
  · show 1 ≤ ⌊inp.rBattery * 100⌋ + 1
    omega
  · show ⌊inp.rBattery * 100⌋ + 1 ≤ 100
    omega
  · show (10 : ℚ) ≤ (mathRound ((inp.rTemperature * 50 + 10) * 10) : ℚ) / 10
    linarith
  · show (mathRound ((inp.rTemperature * 50 + 10) * 10) : ℚ) / 10 ≤ 60
    linarith
  · show (20 : ℚ) ≤ (mathRound ((inp.rHumidity * 80 + 20) * 10) : ℚ) / 10
    linarith
  · show (mathRound ((inp.rHumidity * 80 + 20) * 10) : ℚ) / 10 ≤ 100
    linarith
  · show (if inp.rMode > 1 / 2 then "continuous" else "motion_detected") = "continuous"
      ∨ (if inp.rMode > 1 / 2 then "continuous" else "motion_detected") = "motion_detected"
    split
    · exact Or.inl rfl
    · exact Or.inr rfl

/-- Witness for C22: the sample inputs. -/
theorem payload_fields_in_range_witness :
    1 ≤ (generateEventPayload sampleConfig sampleWorker.storage "A" sampleInputs).metadata.battery
      ∧ (generateEventPayload sampleConfig sampleWorker.storage "A"
          sampleInputs).metadata.battery ≤ 100 :=
  (payload_fields_in_range sampleConfig sampleWorker.storage "A" sampleInputs
    ⟨by norm_num [sampleInputs], by norm_num [sampleInputs]⟩
    ⟨by norm_num [sampleInputs], by norm_num [sampleInputs]⟩
    ⟨by norm_num [sampleInputs], by norm_num [sampleInputs]⟩
    ⟨by norm_num [sampleInputs], by norm_num [sampleInputs]⟩
    ⟨by norm_num [sampleInputs], by norm_num [sampleInputs]⟩
    ⟨by norm_num [sampleInputs], by norm_num [sampleInputs]⟩).2.1
/-- A trimmed string that is not empty neither starts nor ends with white space. -/
theorem jsTrim_ends (s : String) (h : jsTrim s ≠ "") :
    (∃ c, (jsTrim s).toList.head? = some c ∧ jsWhitespace c = false)
      ∧ (∃ c, (jsTrim s).toList.getLast? = some c ∧ jsWhitespace c = false) := by
  have e : (jsTrim s).toList = (s.toList.dropWhile jsWhitespace).rdropWhile jsWhitespace := rfl
  have hne : (s.toList.dropWhile jsWhitespace).rdropWhile jsWhitespace ≠ [] := by
    intro h0
    apply h
    show String.mk ((s.toList.dropWhile jsWhitespace).rdropWhile jsWhitespace) = ""
    rw [h0]
  rw [e]
  constructor
  · have hpre : (s.toList.dropWhile jsWhitespace).rdropWhile jsWhitespace
        <+: s.toList.dropWhile jsWhitespace := List.rdropWhile_prefix _ _
    have hne2 : s.toList.dropWhile jsWhitespace ≠ [] := by
      intro h0
      rw [h0] at hne
      exact hne rfl
    have hhead := hpre.head hne
    refine ⟨_, List.head?_eq_head hne, ?_⟩
    rw [hhead]
    exact List.head_dropWhile_not jsWhitespace s.toList hne2
  · refine ⟨_, List.getLast?_eq_getLast _ hne, ?_⟩
    have := List.rdropWhile_last_not (p := jsWhitespace) (l := s.toList.dropWhile jsWhitespace) hne
    simpa using this

/-- An unregistered id stays unique in the registry after it is added. -/
theorem JSSet.nodup_append (l : List DeviceId) (d : DeviceId) (h : l.Nodup)
    (hd : JSSet.has l d = false) : (l ++ [d]).Nodup := by
  have hn : d ∉ l := by simpa [JSSet.has] using hd
  rw [List.nodup_append]
  refine ⟨h, List.nodup_singleton d, ?_⟩
  intro a ha hb
  simp only [List.mem_singleton] at hb
  exact hn (hb ▸ ha)

/-- C24: for every value of the property `deviceId` of the request body and every
registry, the add operation answers 400 `MISSING_DEVICE_ID` when the value is
absent or falsy; 400 `INVALID_DEVICE_ID` when it is (truthy and) not a string, or a
string of white space only; 409 `DEVICE_EXISTS` when the trimmed id is already
registered; and otherwise 201 after registering the trimmed id and posting
`add-device` for it.  The service is unchanged on every answer other than 201; a
registered id is a non-empty string that neither starts nor ends with white
space; and a registry without duplicates stays without duplicates. -/
theorem add_request_answers (service : DeviceService) (deviceId : JSValue) :
    (deviceId.truthy = false →
        DeviceController.addDevice service deviceId
          = ({ status := 400, body := HttpBody.error "deviceId is required" "MISSING_DEVICE_ID" },
             service))
      ∧ (deviceId.truthy = true → (∀ s, deviceId ≠ JSValue.string s) →
          DeviceController.addDevice service deviceId
            = ({ status := 400
                 body := HttpBody.error "deviceId must be a non-empty string" "INVALID_DEVICE_ID" },
               service))
      ∧ (∀ s, deviceId = JSValue.string s → s ≠ "" → jsTrim s = "" →
          DeviceController.addDevice service deviceId
            = ({ status := 400
                 body := HttpBody.error "deviceId must be a non-empty string" "INVALID_DEVICE_ID" },
               service))
      ∧ (∀ s, deviceId = JSValue.string s → jsTrim s ≠ "" →
          JSSet.has service.devices (jsTrim s) = true →
          DeviceController.addDevice service deviceId
            = ({ status := 409, body := HttpBody.error "Device already exists" "DEVICE_EXISTS" },
               service))
      ∧ (∀ s, deviceId = JSValue.string s → jsTrim s ≠ "" →
          JSSet.has service.devices (jsTrim s) = false →
          DeviceController.addDevice service deviceId
            = ({ status := 201
                 body := HttpBody.reply { message := "Device added and event loop started"
                                          deviceId := jsTrim s } },
               { devices := service.devices ++ [jsTrim s]
                 posted := service.posted ++ [Command.addDevice (jsTrim s)] })
          ∧ (∃ c, (jsTrim s).toList.head? = some c ∧ jsWhitespace c = false)
          ∧ (∃ c, (jsTrim s).toList.getLast? = some c ∧ jsWhitespace c = false))
      ∧ ((DeviceController.addDevice service deviceId).1.status ≠ 201 →
          (DeviceController.addDevice service deviceId).2 = service)
      ∧ (service.devices.Nodup → (DeviceController.addDevice service deviceId).2.devices.Nodup) := by
  have hstr : ∀ s : String, s ≠ "" → jsTrim s = "" →
      DeviceController.addDevice service (JSValue.string s)
        = ({ status := 400
             body := HttpBody.error "deviceId must be a non-empty string" "INVALID_DEVICE_ID" },
           service) := by
    intro s hs ht
    simp [DeviceController.addDevice, JSValue.truthy, hs, ht]
  have hlen : ∀ s : String, jsTrim s ≠ "" → ¬ (jsTrim s).length = 0 := by
    intro s hs h0
    apply hs
    have : (jsTrim s).data = [] := List.length_eq_zero.mp h0
    exact String.ext this
  have hne : ∀ s : String, jsTrim s ≠ "" → s ≠ "" := by
    intro s hs h0
    apply hs
    rw [h0]
    rfl
  have hdup : ∀ s : String, jsTrim s ≠ "" → JSSet.has service.devices (jsTrim s) = true →
      DeviceController.addDevice service (JSValue.string s)
        = ({ status := 409, body := HttpBody.error "Device already exists" "DEVICE_EXISTS" },
           service) := by
    intro s hs hh
    simp [DeviceController.addDevice, JSValue.truthy, hne s hs, hlen s hs,
      DeviceService.addDevice_present service _ hh]
  have hnew : ∀ s : String, jsTrim s ≠ "" → JSSet.has service.devices (jsTrim s) = false →
      DeviceController.addDevice service (JSValue.string s)
        = ({ status := 201
             body := HttpBody.reply { message := "Device added and event loop started"
                                      deviceId := jsTrim s } },
           { devices := service.devices ++ [jsTrim s]
             posted := service.posted ++ [Command.addDevice (jsTrim s)] }) := by
    intro s hs hh
    simp [DeviceController.addDevice, JSValue.truthy, hne s hs, hlen s hs,
      DeviceService.addDevice_absent service _ hh]
  have hfalsy : deviceId.truthy = false →
      DeviceController.addDevice service deviceId
        = ({ status := 400, body := HttpBody.error "deviceId is required" "MISSING_DEVICE_ID" },
           service) := by
    intro h
    simp [DeviceController.addDevice, h]
  have hother : deviceId.truthy = true → (∀ s, deviceId ≠ JSValue.string s) →
      DeviceController.addDevice service deviceId
        = ({ status := 400
             body := HttpBody.error "deviceId must be a non-empty string" "INVALID_DEVICE_ID" },
           service) := by
    intro h hs
    cases deviceId with
    | string s => exact absurd rfl (hs s)
    | undefined => simp [JSValue.truthy] at h
    | null => simp [JSValue.truthy] at h
    | boolean b => simp [DeviceController.addDevice, h]
    | number x => simp [DeviceController.addDevice, h]
    | object => simp [DeviceController.addDevice, h]
  have hcases : (DeviceController.addDevice service deviceId).2 = service
      ∨ ∃ s, deviceId = JSValue.string s ∧ jsTrim s ≠ ""
          ∧ JSSet.has service.devices (jsTrim s) = false := by
    cases ht : deviceId.truthy with
    | false => left; rw [hfalsy ht]
    | true =>
      by_cases hs : ∃ s, deviceId = JSValue.string s
      · obtain ⟨s, rfl⟩ := hs
        by_cases htr : jsTrim s = ""
        · left
          have hs0 : s ≠ "" := by
            intro h0
            rw [h0] at ht
            simp [JSValue.truthy] at ht
          rw [hstr s hs0 htr]
        · cases hh : JSSet.has service.devices (jsTrim s) with
          | true => left; rw [hdup s htr hh]
          | false => right; exact ⟨s, rfl, htr, hh⟩
      · left
        rw [hother ht (fun s h => hs ⟨s, h⟩)]
  refine ⟨hfalsy, hother, ?_, ?_, ?_, ?_, ?_⟩
  · rintro s rfl hs ht
    exact hstr s hs ht
  · rintro s rfl hs hh
    exact hdup s hs hh
  · rintro s rfl hs hh
    exact ⟨hnew s hs hh, jsTrim_ends s hs⟩
  · intro hst
    rcases hcases with h | ⟨s, rfl, hs, hh⟩
    · exact h
    · rw [hnew s hs hh] at hst
      exact absurd rfl hst
  · intro hnd
    rcases hcases with h | ⟨s, rfl, hs, hh⟩
    · rw [h]; exact hnd
    · rw [hnew s hs hh]
      exact JSSet.nodup_append _ _ hnd hh

/-- Witness for C24: the id `" CAM-2 "` sent to a registry that holds `CAM-1`. -/
theorem add_request_answers_witness :
    DeviceController.addDevice { devices := ["CAM-1"], posted := [Command.addDevice "CAM-1"] }
        (JSValue.string " CAM-2 ")
      = ({ status := 201
           body := HttpBody.reply { message := "Device added and event loop started"
                                    deviceId := jsTrim " CAM-2 " } },
         { devices := ["CAM-1"] ++ [jsTrim " CAM-2 "]
           posted := [Command.addDevice "CAM-1"] ++ [Command.addDevice (jsTrim " CAM-2 ")] }) :=
  ((add_request_answers { devices := ["CAM-1"], posted := [Command.addDevice "CAM-1"] }
    (JSValue.string " CAM-2 ")).2.2.2.2.1 " CAM-2 " rfl (by decide) (by decide)).1
/-- C23: handling `add-device` for an id that is not in the device map begins the
first emission of the device at once: a tick of the device is in flight right
after the message (waiting for the topic check, or for its payload when the worker
is connected), and no timer has been set before it, the timer queue and the device
map being as they were; handling `add-device` for an id that is in the device map
starts nothing and leaves the worker, its device map included, unchanged. -/
theorem add_device_starts_first_tick (w : Worker) (d : DeviceId) :
    (JSMap.has w.devices d = false →
        (Worker.onMessage w (Command.addDevice d)).ticks
            = w.ticks ++ [{ id := w.nextTick, deviceId := d
                            stage := if w.isConnected then Stage.generating else Stage.ensuring }]
          ∧ (Worker.onMessage w (Command.addDevice d)).timers = w.timers
          ∧ (Worker.onMessage w (Command.addDevice d)).devices = w.devices
          ∧ (Worker.onMessage w (Command.addDevice d)).reports = w.reports)
      ∧ (JSMap.has w.devices d = true → Worker.onMessage w (Command.addDevice d) = w) := by
  constructor
  · intro h
    cases hc : w.isConnected <;>
      simp [Worker.onMessage, Worker.startDeviceLoop, h, Worker.beginTick, hc]
  · intro h
    simp [Worker.onMessage, Worker.startDeviceLoop, h]

/-- Witness for C23: `add-device A` on the worker right after start-up. -/
theorem add_device_starts_first_tick_witness :
    (Worker.onMessage sampleWorker (Command.addDevice "A")).ticks
      = sampleWorker.ticks
        ++ [{ id := sampleWorker.nextTick, deviceId := "A"
              stage := if sampleWorker.isConnected then Stage.generating else Stage.ensuring }] :=
  ((add_device_starts_first_tick sampleWorker "A").1 (by decide)).1

/-- C28: with the cameras `CAM-001` and `CAM-002` registered, `remove-all` lists the
devices and then sends `DELETE /api/devices/undefined` twice, the elements of the
list being strings, which have no property `deviceId`; the server answers 404 to
that path and the registry still holds both cameras afterwards. -/
theorem remove_all_removes_nothing :
    DeviceController.getDevices { devices := ["CAM-001", "CAM-002"], posted := [] }
        = { status := 200, body := HttpBody.devices ["CAM-001", "CAM-002"] 2 }
      ∧ (removeAllCameras { devices := ["CAM-001", "CAM-002"], posted := [] }).1
        = [{ method := "GET", path := "/api/devices" },
           { method := "DELETE", path := "/api/devices/undefined" },
           { method := "DELETE", path := "/api/devices/undefined" }]
      ∧ (serveDelete { devices := ["CAM-001", "CAM-002"], posted := [] } "undefined").1.status
        = 404
      ∧ (removeAllCameras { devices := ["CAM-001", "CAM-002"], posted := [] }).2.devices
        = ["CAM-001", "CAM-002"] := by
  decide
